import Mathlib

/-!
# Minecraft-Overviewer, `overviewer_core/src/iterate.c`

A shallow embedding of the section renderer: the pseudo-data generators
(`check_adjacent_blocks`, `generate_pseudo_data`), the chunk cache
(`load_chunk`, `unload_all_chunks`) and the pixel loop of `chunk_render`.

Conventions.
* A C `int32_t`/`int` value is an `Int`; every signed 32-bit operation is followed by
  `wrap32`, every signed 64-bit operation by `wrap64` (two's complement wrap-around).
* A C unsigned value is a `Nat`; a store into `uint8_t`/`uint16_t`/`uint32_t` is followed by
  `% 256`, `% 65536`, `% 4294967296`.
* A `PyObject*` that may be `NULL` is an `Option`; `Py_None` is a constructor of its own.
* Calls that leave `iterate.c` (render mode, voxel source, atlas reads) are appended to a trace.
-/

namespace Overviewer

/-! ## Machine integers -/

/-- Two's complement value of a signed 32-bit result whose mathematical value is `v`. -/
def wrap32 (v : Int) : Int := (v + 2147483648) % 4294967296 - 2147483648

/-- Two's complement value of a signed 64-bit result whose mathematical value is `v`. -/
def wrap64 (v : Int) : Int :=
  (v + 9223372036854775808) % 18446744073709551616 - 9223372036854775808

/-- Bit pattern of a signed 32-bit value, read as an unsigned number. -/
def to_u32 (v : Int) : Nat := (v % 4294967296).toNat

/-- Bit pattern of a signed 64-bit value, read as an unsigned number. -/
def to_u64 (v : Int) : Nat := (v % 18446744073709551616).toNat

/-- C `a ^ b` on two `int` operands. -/
def xor32 (a b : Int) : Int := wrap32 (Int.ofNat (to_u32 a ^^^ to_u32 b))

/-- C `a & b` on two `int64_t` operands. -/
def and64 (a b : Int) : Int := wrap64 (Int.ofNat (to_u64 a &&& to_u64 b))

/-- C `a ^ b` on two `int64_t` operands. -/
def xor64 (a b : Int) : Int := wrap64 (Int.ofNat (to_u64 a ^^^ to_u64 b))

/-- The value is representable as an `int32_t`. -/
def in_int32 (v : Int) : Prop := -2147483648 ≤ v ∧ v ≤ 2147483647

instance (v : Int) : Decidable (in_int32 v) := by unfold in_int32; infer_instance

/-! ## Data model (`overviewer.h`, as used by `iterate.c`) -/

/-- The array selector of `get_data`. -/
inductive DataType where
  | BLOCKS
  | DATA
  | BLOCKLIGHT
  | SKYLIGHT
  deriving DecidableEq, Repr

/-- The six block properties stored in `block_properties`. -/
inductive BlockProperty where
  | KNOWN
  | TRANSPARENT
  | SOLID
  | FLUID
  | NOSPAWN
  | NODATA
  deriving DecidableEq, Repr

/-- A 16x16x16 numpy array of a section, addressed by local `(x, y, z)`. -/
abbrev NDArray := Int → Int → Int → Nat

/-- The macro `getArrayShort3D(array, x, y, z)`: a `uint16_t` read. -/
def getArrayShort3D (a : NDArray) (x y z : Int) : Nat := a x y z % 65536

/-- The macro `getArrayByte3D(array, x, y, z)`: a `uint8_t` read. -/
def getArrayByte3D (a : NDArray) (x y z : Int) : Nat := a x y z % 256

/-- One entry of `ChunkData.sections`: four array pointers, each possibly `NULL`. -/
structure ChunkSection where
  blocks : Option NDArray
  data : Option NDArray
  skylight : Option NDArray
  blocklight : Option NDArray

/-- A section with all four pointers `NULL`. -/
def ChunkSection.null : ChunkSection :=
  { blocks := none, data := none, skylight := none, blocklight := none }

/-- One cell of the 3x3 grid `state->chunks`. -/
structure ChunkData where
  loaded : Bool
  biomes : Option Nat
  new_biomes : Bool
  sections : List ChunkSection

/-- The fields of `RenderState` that `iterate.c` reads or writes. -/
structure RenderState where
  chunkx : Int
  chunky : Int
  chunkz : Int
  x : Int
  y : Int
  z : Int
  imgx : Int
  imgy : Int
  block : Nat
  block_data : Nat
  block_pdata : Nat
  chunks : Int → Int → ChunkData
  blocks : Option NDArray
  blockdatas : Option NDArray

/-- What a callee reached through the render mode can read of the cursor. -/
structure Cursor where
  x : Int
  y : Int
  z : Int
  imgx : Int
  imgy : Int
  block : Nat
  block_data : Nat
  block_pdata : Nat
  deriving DecidableEq, Repr

/-- The cursor fields of a render state. -/
def RenderState.cursor (s : RenderState) : Cursor :=
  { x := s.x, y := s.y, z := s.z, imgx := s.imgx, imgy := s.imgy,
    block := s.block, block_data := s.block_data, block_pdata := s.block_pdata }

/-! ## Python objects -/

/-- A component of a texture tuple: `None` or some other object, named by a handle. -/
inductive PyItem where
  | None
  | Object (handle : Nat)
  deriving DecidableEq, Repr

/-- An element of the `blockmap` list: `None`, a tuple, or some other object. -/
inductive PyObject where
  | None
  | Object (handle : Nat)
  | Tuple (items : List PyItem)
  deriving DecidableEq, Repr

/-- The call `PyTuple_GetItem(t, i)`: `NULL` when `t` is no tuple or `i` is out of range. -/
def PyTuple_GetItem (t : PyObject) (i : Nat) : Option PyItem :=
  match t with
  | PyObject.Tuple items => items.get? i
  | _ => none

/-- The macro `PyList_GET_ITEM(blockmap, i)`; a slot that holds no object reads as `NULL`. -/
def PyList_GET_ITEM (l : List (Option PyObject)) (i : Nat) : Option PyObject :=
  (l.get? i).join

/-- One section dictionary of a chunk: its `Y` tag (if any) and its four arrays. -/
structure PySection where
  Y : Option Int
  Blocks : NDArray
  Data : NDArray
  SkyLight : NDArray
  BlockLight : NDArray

/-- The `Sections` entry of a chunk dictionary. -/
inductive SectionsTag where
  | missing
  | not_a_list
  | list (items : List PySection)

/-- A chunk dictionary as returned by `RegionSet.get_chunk`. -/
structure PyChunk where
  Sections : SectionsTag
  Biomes : Nat
  NewBiomes : Bool

/-- The collaborators of `iterate.c` that are declared in headers outside this file, taken
as parameters: `mc_id.h` (block ids), `block_class.c` (`block_class_ancil`), `overviewer.h`
(`get_data`, `block_has_property`, `SECTIONS_PER_CHUNK`), the predicates of the render mode,
`get_chunk` of the region set, and the values that the C library generator `rand` returns
after `srand(1)`, in order. `get_data` and the two predicates read the render state and
change nothing. -/
structure Env where
  block_air : Nat
  block_flowing_water : Nat
  block_water : Nat
  block_glass : Nat
  block_ice : Nat
  block_stained_glass : Nat
  block_portal : Nat
  block_waterlily : Nat
  block_double_plant : Nat
  block_tallgrass : Nat
  block_class_ancil : List Nat
  SECTIONS_PER_CHUNK : Nat
  get_data : RenderState → DataType → Int → Int → Int → Nat
  block_has_property : Nat → BlockProperty → Bool
  get_chunk : Int → Int → Option PyChunk
  render_mode_hidden : RenderState → Int → Int → Int → Bool
  render_mode_occluded : RenderState → Int → Int → Int → Bool
  rand : Nat → Nat

/-- Modelled from the spec: `block_class_is_subset` (block_class.c) is a membership test of
the block id in the given closed set of ids. -/
def block_class_is_subset (block : Nat) (block_class : List Nat) : Bool :=
  decide (block ∈ block_class)

/-! ## Pseudo data (`iterate.c` lines 211-307) -/

/-- The function `check_adjacent_blocks`. -/
def check_adjacent_blocks (env : Env) (state : RenderState) (x y z : Int) (blockid : Nat) : Nat :=
  let pdata : Nat := 0
  let pdata :=
    if env.get_data state DataType.BLOCKS (wrap32 (x + 1)) y z = blockid then
      (pdata ||| (1 <<< 3)) % 256
    else pdata
  let pdata :=
    if env.get_data state DataType.BLOCKS x y (wrap32 (z + 1)) = blockid then
      (pdata ||| (1 <<< 2)) % 256
    else pdata
  let pdata :=
    if env.get_data state DataType.BLOCKS (wrap32 (x - 1)) y z = blockid then
      (pdata ||| (1 <<< 1)) % 256
    else pdata
  let pdata :=
    if env.get_data state DataType.BLOCKS x y (wrap32 (z - 1)) = blockid then
      (pdata ||| (1 <<< 0)) % 256
    else pdata
  pdata

/-- The lilypad branch of `generate_pseudo_data` (lines 280-292). -/
def waterlily_rotation (state : RenderState) (x y z : Int) : Nat :=
  let wx := wrap32 (wrap32 (state.chunkx * 16) + x)
  let wz := wrap32 (wrap32 (state.chunkz * 16) + z)
  let wy := wrap32 (wrap32 (state.chunky * 16) + y)
  let pr : Int := xor32 (xor32 (wrap32 (wx * 3129871)) (wrap32 (wz * 116129781))) wy
  let pr : Int := wrap64 (wrap64 (wrap64 (pr * pr) * 42317861) + wrap64 (pr * 11))
  let rotation : Int := wrap32 (and64 3 (pr >>> (16 : Nat)))
  (rotation % 65536).toNat

/-- The lilypad rule in the words of the specification: from the world coordinates
`(wx, wy, wz)`, every multiplication, XOR and addition in 64-bit signed arithmetic wrapping
modulo `2^64`; the result is the low two bits of `pr >> 16`. -/
def lilypad_rotation_spec (wx wy wz : Int) : Nat :=
  let pr : Int := xor64 (xor64 (wrap64 (wx * 3129871)) (wrap64 (wz * 116129781))) (wrap64 wy)
  let pr : Int := wrap64 (wrap64 (wrap64 (pr * pr) * 42317861) + wrap64 (pr * 11))
  to_u64 (pr >>> (16 : Nat)) % 4

/-- The function `generate_pseudo_data`. -/
def generate_pseudo_data (env : Env) (state : RenderState) (ancilData : Nat) : Nat :=
  let x := state.x
  let y := state.y
  let z := state.z
  if block_class_is_subset state.block [env.block_flowing_water, env.block_water] then
    let data := (check_adjacent_blocks env state x y z state.block ^^^ 0x0f) % 65536
    let data :=
      if env.get_data state DataType.BLOCKS x (wrap32 (y + 1)) z ≠ state.block then
        (data ||| 0x10) % 65536
      else data
    data
  else if block_class_is_subset state.block
      [env.block_glass, env.block_ice, env.block_stained_glass] then
    let data : Nat :=
      if env.get_data state DataType.BLOCKS x (wrap32 (y + 1)) z = 20
          ∨ env.get_data state DataType.BLOCKS x (wrap32 (y + 1)) z = 95 then 0
      else 16
    let data := ((check_adjacent_blocks env state x y z state.block ^^^ 0x0f) ||| data) % 65536
    ((data <<< 4) ||| (ancilData &&& 0x0f)) % 65536
  else if state.block = env.block_portal then
    check_adjacent_blocks env state x y z state.block
  else if state.block = env.block_waterlily then
    waterlily_rotation state x y z
  else if state.block = env.block_double_plant then
    let data :=
      if env.get_data state DataType.BLOCKS x (wrap32 (y - 1)) z = env.block_double_plant then
        (env.get_data state DataType.DATA x (wrap32 (y - 1)) z ||| 0x8) % 65536
      else ancilData
    data
  else 0

/-! ## Trace and machine state -/

/-- A call that leaves `iterate.c`, or one of the two bookkeeping steps whose occurrence the
specification constrains (`PyList_GET_ITEM` on the block map, `unload_all_chunks`).
Render-mode callees can read the cursor through `rendermode->state`, so it is recorded. -/
inductive Event where
  | render_mode_create
  | get_chunk (x z : Int)
  | render_mode_hidden (c : Cursor)
  | render_mode_occluded (c : Cursor)
  | atlas_read (index : Nat)
  | render_mode_draw (c : Cursor) (src mask mask_light : Option PyItem)
  | render_mode_destroy
  | unload_all_chunks
  deriving DecidableEq, Repr

/-- The running state: the C `RenderState`, the calls made so far (oldest first), the
number of `rand()` calls since the last `srand(1)`, and the Python error indicator. -/
structure Run where
  state : RenderState
  trace : List Event
  rand_calls : Nat
  err : Bool

/-- Append one call to the trace. -/
def Run.log (r : Run) (e : Event) : Run := { r with trace := r.trace ++ [e] }

/-- The globals of `iterate.c` that `chunk_render` reads. -/
structure Globals where
  max_blockid : Nat
  max_data : Nat

/-! ## Chunk cache (`iterate.c` lines 106-209) -/

/-- The helper `load_chunk_section`. -/
def load_chunk_section (dest : ChunkData) (i : Int) (sec : PySection) : ChunkData :=
  { dest with
    sections := dest.sections.set i.toNat
      { blocks := some sec.Blocks, data := some sec.Data,
        skylight := some sec.SkyLight, blocklight := some sec.BlockLight } }

/-- The loop of `load_chunk` over the `Sections` list (lines 173-184). -/
def load_sections (env : Env) (dest : ChunkData) (secs : List PySection) : ChunkData :=
  secs.foldl
    (fun dest sec =>
      match sec.Y with
      | none => dest
      | some ycoord =>
        let sectiony := wrap32 ycoord
        if 0 ≤ sectiony ∧ sectiony < (env.SECTIONS_PER_CHUNK : Int) then
          load_chunk_section dest sectiony sec
        else dest)
    dest

/-- Store `dest` into the grid cell with array indices `(i, j)`. -/
def set_chunk (state : RenderState) (i j : Int) (dest : ChunkData) : RenderState :=
  { state with chunks := fun a b => if a = i ∧ b = j then dest else state.chunks a b }

/-- The function `load_chunk`; the Boolean is its return value (`true` on error). -/
def load_chunk (env : Env) (r : Run) (x z : Int) (required : Bool) : Run × Bool :=
  let i := wrap32 (1 + x)
  let j := wrap32 (1 + z)
  let dest := r.state.chunks i j
  if dest.loaded then (r, false)
  else
    let dest : ChunkData :=
      { dest with
        biomes := none,
        sections := List.replicate env.SECTIONS_PER_CHUNK ChunkSection.null,
        loaded := true }
    let x := wrap32 (x + r.state.chunkx)
    let z := wrap32 (z + r.state.chunkz)
    let r := r.log (Event.get_chunk x z)
    match env.get_chunk x z with
    | none =>
      ({ r with state := set_chunk r.state i j dest, err := if required then true else false },
        true)
    | some chunk =>
      match chunk.Sections with
      | SectionsTag.missing =>
        ({ r with state := set_chunk r.state i j dest,
                  err := if required then r.err else false }, true)
      | SectionsTag.not_a_list =>
        ({ r with state := set_chunk r.state i j dest,
                  err := if required then true else false }, true)
      | SectionsTag.list secs =>
        let dest := { dest with biomes := some chunk.Biomes, new_biomes := chunk.NewBiomes }
        let dest := load_sections env dest secs
        ({ r with state := set_chunk r.state i j dest }, false)

/-- The helper `unload_all_chunks`: every loaded cell of the 3x3 grid is released and
marked unloaded. -/
def unload_all_chunks (r : Run) : Run :=
  let r := r.log Event.unload_all_chunks
  { r with
    state :=
      { r.state with
        chunks := fun i j =>
          if 0 ≤ i ∧ i < 3 ∧ 0 ≤ j ∧ j < 3 ∧ (r.state.chunks i j).loaded = true then
            { r.state.chunks i j with loaded := false }
          else r.state.chunks i j } }

/-- The read `chunk.sections[i]`. An index outside the array has no meaning in C; the model
reads a section without arrays there. -/
def section_at (c : ChunkData) (i : Int) : ChunkSection :=
  if 0 ≤ i then c.sections.getD i.toNat ChunkSection.null else ChunkSection.null

/-! ## `chunk_render` (`iterate.c` lines 310-498) -/

/-- The locals of `chunk_render` that stay fixed during the pixel loop. -/
structure LoopCtx where
  imgsize0 : Int
  imgsize1 : Int
  blockmap : List (Option PyObject)
  blocks_py : NDArray

/-- Lines 429-447: the data value used for the texture lookup, and the state with
`block_data` and `block_pdata` set. A `NULL` data array, which `load_chunk` never leaves
beside a block array, reads as 0. -/
def resolve_data (env : Env) (state : RenderState) : Nat × RenderState :=
  if env.block_has_property state.block BlockProperty.NODATA then
    (0, { state with block_data := 0, block_pdata := 0 })
  else
    let ancilData : Nat :=
      match state.blockdatas with
      | some a => getArrayByte3D a state.x state.y state.z
      | none => 0
    let state := { state with block_data := ancilData }
    if block_class_is_subset state.block env.block_class_ancil then
      let ancilData := generate_pseudo_data env state ancilData
      (ancilData, { state with block_pdata := ancilData })
    else
      (ancilData, { state with block_pdata := 0 })

/-- The test `t != NULL && t != Py_None`. -/
def is_texture (t : Option PyObject) : Bool :=
  match t with
  | some PyObject.None => false
  | some _ => true
  | none => false

/-- Lines 453-457: the two reads of the block map, with the indices read. -/
def lookup_texture (g : Globals) (blockmap : List (Option PyObject)) (block ancilData : Nat) :
    Option PyObject × List Event :=
  let i := (g.max_data * block + ancilData) % 4294967296
  let t := PyList_GET_ITEM blockmap i
  if ¬ is_texture t ∧ ancilData ≠ 0 then
    let j := (g.max_data * block) % 4294967296
    (PyList_GET_ITEM blockmap j, [Event.atlas_read i, Event.atlas_read j])
  else (t, [Event.atlas_read i])

/-- Lines 461-485: the draw call for a texture `t`, with the tall-grass jitter around it. -/
def draw_texture (env : Env) (r : Run) (t : PyObject) : Run :=
  let state := r.state
  let do_rand : Bool := decide (state.block = env.block_tallgrass)
  let src := PyTuple_GetItem t 0
  let mask := PyTuple_GetItem t 0
  let mask_light := PyTuple_GetItem t 1
  let err := r.err || src.isNone || mask_light.isNone
  let mask := if mask = some PyItem.None then src else mask
  if do_rand then
    let randx : Int := Int.ofNat (env.rand r.rand_calls % 6) + 1 - 3
    let randy : Int := Int.ofNat (env.rand (r.rand_calls + 1) % 6) + 1 - 3
    let state := { state with imgx := wrap32 (state.imgx + randx) }
    let state := { state with imgy := wrap32 (state.imgy + randy) }
    let trace := r.trace ++ [Event.render_mode_draw state.cursor src mask mask_light]
    let state := { state with imgx := wrap32 (state.imgx - randx) }
    let state := { state with imgy := wrap32 (state.imgy - randy) }
    { state := state, trace := trace, rand_calls := r.rand_calls + 2, err := err }
  else
    { r with
      trace := r.trace ++ [Event.render_mode_draw state.cursor src mask mask_light],
      err := err }

/-- Lines 408-486: the body of the innermost loop after `state.imgy -= 12`, for the voxel
at the cursor `(state.x, state.y, state.z)`. -/
def render_voxel (env : Env) (g : Globals) (c : LoopCtx) (r : Run) : Run :=
  let state := { r.state with
    block := getArrayShort3D c.blocks_py r.state.x r.state.y r.state.z }
  let r := { r with state := state }
  if state.block = env.block_air then r
  else
    let r := r.log (Event.render_mode_hidden state.cursor)
    if env.render_mode_hidden state state.x state.y state.z then r
    else if state.imgx ≥ wrap32 (c.imgsize0 + 24) ∨ state.imgx ≤ -24 then r
    else if state.imgy ≥ wrap32 (c.imgsize1 + 24) ∨ state.imgy ≤ -24 then r
    else
      let r := r.log (Event.render_mode_occluded state.cursor)
      if env.render_mode_occluded state state.x state.y state.z then r
      else
        let resolved := resolve_data env state
        let ancilData := resolved.1
        let state := resolved.2
        let r := { r with state := state }
        if state.block ≥ g.max_blockid ∨ ancilData ≥ g.max_data then r
        else
          let found := lookup_texture g c.blockmap state.block ancilData
          let r := { r with trace := r.trace ++ found.2 }
          match found.1 with
          | some PyObject.None => r
          | some t => draw_texture env r t
          | none => r

/-- One iteration of the `y` loop (lines 404-487). -/
def y_iteration (env : Env) (g : Globals) (c : LoopCtx) (r : Run) (y : Nat) : Run :=
  let state := { r.state with y := (y : Int) }
  let state := { state with imgy := wrap32 (state.imgy - 12) }
  render_voxel env g c { r with state := state }

/-- One iteration of the `z` loop (lines 397-488). -/
def z_iteration (env : Env) (g : Globals) (c : LoopCtx) (xoff yoff : Int) (r : Run) (z : Nat) :
    Run :=
  let state := { r.state with z := (z : Int) }
  let state := { state with
    imgx := wrap32 (wrap32 (xoff + wrap32 (state.x * 12)) + wrap32 (state.z * 12)) }
  let state := { state with
    imgy := wrap32 (wrap32 (wrap32 (wrap32 (yoff - wrap32 (state.x * 6)) + wrap32 (state.z * 6))
              + 16 * 12) + 15 * 6) }
  (List.range 16).foldl (y_iteration env g c) { r with state := state }

/-- One iteration of the `x` loop (lines 396-489). -/
def x_iteration (env : Env) (g : Globals) (c : LoopCtx) (xoff yoff : Int) (r : Run) (x : Nat) :
    Run :=
  (List.range 16).foldl (z_iteration env g c xoff yoff)
    { r with state := { r.state with x := (x : Int) } }

/-- The pixel loop (lines 396-489): `x` from 15 down to 0, `z` and `y` from 0 to 15. The
cursor is a local of `chunk_render`; the values `x = -1`, `z = 16`, `y = 16` left by the loop
exits are read by nobody and are not modelled. -/
def pixel_loop (env : Env) (g : Globals) (c : LoopCtx) (xoff yoff : Int) (r : Run) : Run :=
  (List.range 16).reverse.foldl (x_iteration env g c xoff yoff) r

/-- The `blockmap` attribute of the textures object. -/
inductive BlockmapAttr where
  | missing
  | None
  | list (items : List (Option PyObject))

/-- The arguments of `chunk_render` after `PyArg_ParseTuple`, with what its collaborators
answer before the pixel loop: whether `render_mode_create` succeeds, the `blockmap`
attribute, and the two components of the image size. -/
structure RenderArgs where
  chunkx : Int
  chunky : Int
  chunkz : Int
  xoff : Int
  yoff : Int
  render_mode_created : Bool
  blockmap : BlockmapAttr
  imgsize0 : Int
  imgsize1 : Int

/-- The return value of `chunk_render`: `NULL` (an error) or `None`. -/
inductive PyResult where
  | NULL
  | None
  deriving DecidableEq, Repr

/-- Lines 367-372: every cell of the grid is marked unloaded. -/
def mark_unloaded (state : RenderState) : RenderState :=
  { state with
    chunks := fun i j =>
      if 0 ≤ i ∧ i < 3 ∧ 0 ≤ j ∧ j < 3 then { state.chunks i j with loaded := false }
      else state.chunks i j }

/-- The function `chunk_render`, from the point where its arguments have been parsed.
`r.state` holds the uninitialised contents of the local `state`. -/
def chunk_render (env : Env) (g : Globals) (args : RenderArgs) (r : Run) : PyResult × Run :=
  let r := { r with state := { r.state with
    chunkx := args.chunkx, chunky := args.chunky, chunkz := args.chunkz } }
  let r := r.log Event.render_mode_create
  if ¬ args.render_mode_created then (PyResult.NULL, { r with err := true })
  else
    match args.blockmap with
    | BlockmapAttr.missing =>
      let r := r.log Event.render_mode_destroy
      (PyResult.NULL, { r with err := true })
    | BlockmapAttr.None =>
      let r := r.log Event.render_mode_destroy
      (PyResult.NULL, { r with err := true })
    | BlockmapAttr.list blockmap =>
      let imgsize0 := wrap32 args.imgsize0
      let imgsize1 := wrap32 args.imgsize1
      let r := { r with state := mark_unloaded r.state }
      let loaded := load_chunk env r 0 0 true
      let r := loaded.1
      if loaded.2 then
        let r := r.log Event.render_mode_destroy
        (PyResult.NULL, r)
      else
        match (section_at (r.state.chunks 1 1) r.state.chunky).blocks with
        | none =>
          let r := r.log Event.render_mode_destroy
          let r := unload_all_chunks r
          (PyResult.None, r)
        | some blocks_py =>
          let r := { r with state := { r.state with
            blocks := some blocks_py,
            blockdatas := (section_at (r.state.chunks 1 1) r.state.chunky).data } }
          let r := { r with rand_calls := 0 }
          let c : LoopCtx :=
            { imgsize0 := imgsize0, imgsize1 := imgsize1, blockmap := blockmap,
              blocks_py := blocks_py }
          let r := pixel_loop env g c args.xoff args.yoff r
          let r := r.log Event.render_mode_destroy
          let r := unload_all_chunks r
          (PyResult.None, r)

/-! ## Notions used to state the results -/

/-- The run with the cursor placed on voxel `(x, y, z)` and the screen anchor `(imgx, imgy)`. -/
def at_voxel (r : Run) (x y z imgx imgy : Int) : Run :=
  { r with state := { r.state with x := x, y := y, z := z, imgx := imgx, imgy := imgy } }

/-- Two runs agree on everything but the cursor position, the anchor and the current block
id, which the loop headers and the first statement of the loop body overwrite. -/
def Run.agree (r s : Run) : Prop :=
  r.trace = s.trace ∧ r.rand_calls = s.rand_calls ∧ r.err = s.err
  ∧ r.state.chunkx = s.state.chunkx ∧ r.state.chunky = s.state.chunky
  ∧ r.state.chunkz = s.state.chunkz ∧ r.state.block_data = s.state.block_data
  ∧ r.state.block_pdata = s.state.block_pdata ∧ r.state.chunks = s.state.chunks
  ∧ r.state.blocks = s.state.blocks ∧ r.state.blockdatas = s.state.blockdatas

/-- The draw calls of a trace, in order. -/
def draws (trace : List Event) : List Event :=
  trace.filter
    (fun e =>
      match e with
      | Event.render_mode_draw _ _ _ _ => true
      | _ => false)

/-- The loop body on voxel `(x, y, z)`, with the screen anchor given in closed form. -/
def step_y (env : Env) (g : Globals) (c : LoopCtx) (xoff yoff : Int) (x z : Nat) (r : Run)
    (y : Nat) : Run :=
  render_voxel env g c
    (at_voxel r (x : Int) (y : Int) (z : Int)
      (wrap32 (xoff + 12 * (x : Int) + 12 * (z : Int)))
      (wrap32 (yoff - 6 * (x : Int) + 6 * (z : Int) + 192 + 90 - 12 * ((y : Int) + 1))))

/-- The column `(x, z)`: `step_y` for `y` from 0 to 15. -/
def step_z (env : Env) (g : Globals) (c : LoopCtx) (xoff yoff : Int) (x : Nat) (r : Run)
    (z : Nat) : Run :=
  (List.range 16).foldl (step_y env g c xoff yoff x z) r

/-- The slice `x`: `step_z` for `z` from 0 to 15. -/
def step_x (env : Env) (g : Globals) (c : LoopCtx) (xoff yoff : Int) (r : Run) (x : Nat) :
    Run :=
  (List.range 16).foldl (step_z env g c xoff yoff x) r

/-- The data value that the loop body used for the texture lookup, read back from the
cursor it left: the pseudo data for a kind of `block_class_ancil`, else the persisted data
(both are 0 for a `NODATA` kind). -/
def Cursor.resolved (env : Env) (c : Cursor) : Nat :=
  if block_class_is_subset c.block env.block_class_ancil then c.block_pdata else c.block_data

/-- What the pixel loop may append to the trace: visibility and occlusion queries, reads of
the block map, and draw calls whose three arguments are component 0, component 0 and
component 1 of the texture found in the block map for the cursor's block id and resolved
data value. -/
def loop_event (env : Env) (g : Globals) (blockmap : List (Option PyObject)) (e : Event) :
    Prop :=
  match e with
  | Event.render_mode_hidden _ => True
  | Event.render_mode_occluded _ => True
  | Event.atlas_read _ => True
  | Event.render_mode_draw c src mask mask_light =>
    ∃ t : PyObject,
      (lookup_texture g blockmap c.block (c.resolved env)).1 = some t ∧ t ≠ PyObject.None
      ∧ src = PyTuple_GetItem t 0 ∧ mask = PyTuple_GetItem t 0
      ∧ mask_light = PyTuple_GetItem t 1
  | _ => False

/-- The texture triple in the words of the specification, for an atlas entry
`(source_image, alpha_mask | none, light_mask)`: the source image, the explicit alpha mask
(the source image when the entry has none), and the light mask. -/
def spec_texture_triple (t : PyObject) : Option PyItem × Option PyItem × Option PyItem :=
  (PyTuple_GetItem t 0,
   (if PyTuple_GetItem t 1 = some PyItem.None then PyTuple_GetItem t 0
    else PyTuple_GetItem t 1),
   PyTuple_GetItem t 2)

/-- The run that `chunk_render` hands to `load_chunk` when the render mode was created and
the block map is a list (lines 333-372). -/
def before_load (args : RenderArgs) (r : Run) : Run :=
  let r := { r with state := { r.state with
    chunkx := args.chunkx, chunky := args.chunky, chunkz := args.chunkz } }
  let r := r.log Event.render_mode_create
  { r with state := mark_unloaded r.state }

/-- The run that enters the pixel loop (lines 388-394), from the run left by `load_chunk`. -/
def loop_entry (r : Run) (blocks_py : NDArray) : Run :=
  { r with
    state := { r.state with
      blocks := some blocks_py,
      blockdatas := (section_at (r.state.chunks 1 1) r.state.chunky).data },
    rand_calls := 0 }

/-- The fixed locals of the pixel loop, from the arguments. -/
def loop_ctx (args : RenderArgs) (blockmap : List (Option PyObject)) (blocks_py : NDArray) :
    LoopCtx :=
  { imgsize0 := wrap32 args.imgsize0, imgsize1 := wrap32 args.imgsize1,
    blockmap := blockmap, blocks_py := blocks_py }

/-- The block id of the voxel at the cursor (line 409). -/
def voxel_block (c : LoopCtx) (r : Run) : Nat :=
  getArrayShort3D c.blocks_py r.state.x r.state.y r.state.z

/-- The resolved data value of the voxel at the cursor (lines 429-447). -/
def voxel_data (env : Env) (c : LoopCtx) (r : Run) : Nat :=
  (resolve_data env { r.state with block := voxel_block c r }).1

/-- The voxel at the cursor passes the visibility, bounds, occlusion and range checks of the
loop body (lines 410-451). -/
def passes_checks (env : Env) (g : Globals) (c : LoopCtx) (r : Run) : Prop :=
  voxel_block c r ≠ env.block_air
  ∧ env.render_mode_hidden { r.state with block := voxel_block c r }
      r.state.x r.state.y r.state.z = false
  ∧ ¬ (r.state.imgx ≥ wrap32 (c.imgsize0 + 24) ∨ r.state.imgx ≤ -24)
  ∧ ¬ (r.state.imgy ≥ wrap32 (c.imgsize1 + 24) ∨ r.state.imgy ≤ -24)
  ∧ env.render_mode_occluded { r.state with block := voxel_block c r }
      r.state.x r.state.y r.state.z = false
  ∧ voxel_block c r < g.max_blockid
  ∧ voxel_data env c r < g.max_data

/-- The run of the loop body after a voxel has passed the checks and the block map has
been read: the state with the data resolved, and the two queries and the reads appended. -/
def queried (env : Env) (g : Globals) (c : LoopCtx) (r : Run) : Run :=
  { state := (resolve_data env { r.state with block := voxel_block c r }).2,
    trace := r.trace
      ++ [Event.render_mode_hidden ({ r.state with block := voxel_block c r }).cursor,
          Event.render_mode_occluded ({ r.state with block := voxel_block c r }).cursor]
      ++ (lookup_texture g c.blockmap (voxel_block c r) (voxel_data env c r)).2,
    rand_calls := r.rand_calls,
    err := r.err }

/-! ## A small world on which the results are instantiated -/

/-- An atlas entry in the shape the specification gives: source image 1, alpha mask 2,
light mask 3. -/
def sample_texture : PyObject :=
  PyObject.Tuple [PyItem.Object 1, PyItem.Object 2, PyItem.Object 3]

/-- An array that holds `v` at the voxel `(0, 0, 0)` and `0` elsewhere. -/
def origin_only (v : Nat) : NDArray := fun x y z => if x = 0 ∧ y = 0 ∧ z = 0 then v else 0

/-- A chunk whose only section, `Y = 0`, holds block `b` with data `d` at `(0, 0, 0)`. -/
def origin_chunk (b d : Nat) : PyChunk :=
  { Sections := SectionsTag.list
      [{ Y := some 0, Blocks := origin_only b, Data := origin_only d,
         SkyLight := origin_only 0, BlockLight := origin_only 0 }],
    Biomes := 0,
    NewBiomes := false }

/-- Collaborators of the small world: the numeric block ids of Minecraft, sixteen sections per
chunk, a `get_data` that reads the home section only, no block flagged `NODATA`, a voxel
source that knows the chunk `(0, 0)` only, a render mode that hides and occludes nothing, and
the generator sequence `5, 10, 15, ...`. -/
def sample_env (chunk : PyChunk) : Env :=
  { block_air := 0,
    block_flowing_water := 8,
    block_water := 9,
    block_glass := 20,
    block_ice := 79,
    block_stained_glass := 95,
    block_portal := 90,
    block_waterlily := 111,
    block_double_plant := 175,
    block_tallgrass := 31,
    block_class_ancil := [8, 9, 20, 79, 90, 95, 111, 175],
    SECTIONS_PER_CHUNK := 16,
    get_data := fun state type x y z =>
      match type with
      | DataType.BLOCKS =>
        (match state.blocks with
         | some a => getArrayShort3D a x y z
         | none => 0)
      | DataType.DATA =>
        (match state.blockdatas with
         | some a => getArrayByte3D a x y z
         | none => 0)
      | _ => 0,
    block_has_property := fun _ _ => false,
    get_chunk := fun x z => if x = 0 ∧ z = 0 then some chunk else none,
    render_mode_hidden := fun _ _ _ _ => false,
    render_mode_occluded := fun _ _ _ _ => false,
    rand := fun n => 5 * (n + 1) }

/-- Globals of the small world: 256 block ids, 16 data values. -/
def sample_globals : Globals := { max_blockid := 256, max_data := 16 }

/-- A block map that is empty but for the entry `t` at index `i`. -/
def atlas_with (i : Nat) (t : PyObject) : List (Option PyObject) :=
  List.replicate i none ++ [some t]

/-- Arguments of the small world: chunk `(0, 0)`, section 0, offset `(0, 0)`, a 384 x 1000
image, and the given block map. -/
def sample_args (blockmap : BlockmapAttr) : RenderArgs :=
  { chunkx := 0, chunky := 0, chunkz := 0, xoff := 0, yoff := 0,
    render_mode_created := true, blockmap := blockmap, imgsize0 := 384, imgsize1 := 1000 }

/-- The run before the call: an empty trace, no error, and a local `state` that holds
whatever the stack held (here: every cell flagged loaded, cursor fields 7). -/
def sample_run : Run :=
  { state :=
      { chunkx := 7, chunky := 7, chunkz := 7, x := 7, y := 7, z := 7, imgx := 7, imgy := 7,
        block := 7, block_data := 7, block_pdata := 7,
        chunks := fun _ _ => { loaded := true, biomes := none, new_biomes := false,
                               sections := [] },
        blocks := none, blockdatas := none },
    trace := [],
    rand_calls := 7,
    err := false }

/-- An array that holds `v` at the voxel `(x0, y0, z0)` and `0` elsewhere. -/
def voxel_at (x0 y0 z0 : Int) (v : Nat) : NDArray :=
  fun x y z => if x = x0 ∧ y = y0 ∧ z = z0 then v else 0

/-- A run of the small world with an empty trace, placed on the voxel `(1, 1, 1)` of a
section that holds `block` there, at the anchor `(0, 0)`. -/
def sample_voxel_run (block data : Nat) : Run :=
  { state :=
      { chunkx := 0, chunky := 0, chunkz := 0, x := 1, y := 1, z := 1, imgx := 0, imgy := 0,
        block := block, block_data := 0, block_pdata := 0,
        chunks := fun _ _ => { loaded := false, biomes := none, new_biomes := false,
                               sections := [] },
        blocks := some (voxel_at 1 1 1 block), blockdatas := some (voxel_at 1 1 1 data) },
    trace := [],
    rand_calls := 0,
    err := false }

/-- The loop context of the small world for `sample_voxel_run`: a 384 x 1000 image and a
block map whose only entry is `sample_texture` at index `i`. -/
def sample_ctx (i block : Nat) : LoopCtx :=
  { imgsize0 := 384, imgsize1 := 1000, blockmap := atlas_with i sample_texture,
    blocks_py := voxel_at 1 1 1 block }

/-- An array that holds `v` at `(1, 0, 1)` and at `(1, 1, 1)` and `0` elsewhere. -/
def column_of_two (v : Nat) : NDArray :=
  fun x y z => if x = 1 ∧ z = 1 ∧ (y = 0 ∨ y = 1) then v else 0

/-- A render state of the small world: chunk `(0, 0, cz)`, the cursor on the voxel
`(1, 1, 1)` that holds `block`, and the given home section arrays. -/
def sample_state (cz : Int) (block : Nat) (blocks datas : NDArray) : RenderState :=
  { chunkx := 0, chunky := 0, chunkz := cz, x := 1, y := 1, z := 1, imgx := 0, imgy := 0,
    block := block, block_data := 0, block_pdata := 0,
    chunks := fun _ _ => { loaded := false, biomes := none, new_biomes := false,
                           sections := [] },
    blocks := some blocks, blockdatas := some datas }

/-- A chunk dictionary without a `Sections` entry. -/
def chunk_without_sections : PyChunk :=
  { Sections := SectionsTag.missing, Biomes := 0, NewBiomes := false }

/-- The voxel source fails for the chunk `(x, z)`: the chunk is not found, or its `Sections`
entry is missing or is not a list. -/
def source_fails (env : Env) (x z : Int) : Prop :=
  match env.get_chunk x z with
  | none => True
  | some chunk =>
    match chunk.Sections with
    | SectionsTag.missing => True
    | SectionsTag.not_a_list => True
    | SectionsTag.list _ => False

/-- The anchor of the run passes the two bounds tests of the loop body (lines 415-420). -/
def in_bounds (c : LoopCtx) (r : Run) : Prop :=
  ¬ (r.state.imgx ≥ wrap32 (c.imgsize0 + 24) ∨ r.state.imgx ≤ -24)
  ∧ ¬ (r.state.imgy ≥ wrap32 (c.imgsize1 + 24) ∨ r.state.imgy ≤ -24)

/-- The cursor that the visibility and occlusion predicates see for the voxel at the
cursor: the block id has been read, `block_data` and `block_pdata` are still those of the
voxel before. -/
def query_cursor (c : LoopCtx) (r : Run) : Cursor :=
  ({ r.state with block := voxel_block c r }).cursor


/-- The voxels of a section in the order of the three loop headers (lines 396-408): `x` from
15 down to 0, inside it `z` from 0 to 15, inside it `y` from 0 to 15. -/
def traversal : List (Int × Int × Int) :=
  (List.range 16).reverse.flatMap fun (x : Nat) =>
    (List.range 16).flatMap fun (z : Nat) =>
      (List.range 16).map fun (y : Nat) => ((x : Int), (y : Int), (z : Int))

/-- The loop body on the voxel `v = (x, y, z)`, with the screen anchor in closed form. -/
def visit (env : Env) (g : Globals) (c : LoopCtx) (xoff yoff : Int) (r : Run)
    (v : Int × Int × Int) : Run :=
  render_voxel env g c
    (at_voxel r v.1 v.2.1 v.2.2
      (wrap32 (xoff + 12 * v.1 + 12 * v.2.2))
      (wrap32 (yoff - 6 * v.1 + 6 * v.2.2 + 192 + 90 - 12 * (v.2.1 + 1))))

/-- The voxels `(x, y, z)` of the draw calls of a trace, in order. -/
def drawn_voxels (trace : List Event) : List (Int × Int × Int) :=
  trace.filterMap
    (fun e =>
      match e with
      | Event.render_mode_draw c _ _ _ => some (c.x, c.y, c.z)
      | _ => none)

/-- The order in the words of the specification: the voxel `v` comes before the voxel `w`
when `x` is larger, or `x` is equal and `z` is smaller, or `x` and `z` are equal and `y` is
smaller. -/
def spec_before (v w : Int × Int × Int) : Prop :=
  v.1 > w.1 ∨ (v.1 = w.1 ∧ v.2.2 < w.2.2) ∨ (v.1 = w.1 ∧ v.2.2 = w.2.2 ∧ v.2.1 < w.2.1)

/-- An array that holds `v` at the voxels `(15, 0, 0)` and `(0, 0, 0)` and `0` elsewhere. -/
def two_corners (v : Nat) : NDArray :=
  fun x y z => if (x = 15 ∨ x = 0) ∧ y = 0 ∧ z = 0 then v else 0

/-- A chunk whose only section, `Y = 0`, holds block `b` with data `d` at `(15, 0, 0)` and at
`(0, 0, 0)`. -/
def two_corner_chunk (b d : Nat) : PyChunk :=
  { Sections := SectionsTag.list
      [{ Y := some 0, Blocks := two_corners b, Data := two_corners d,
         SkyLight := two_corners 0, BlockLight := two_corners 0 }],
    Biomes := 0,
    NewBiomes := false }

/-- The small world with a render mode that hides the slice `x = 15` and nothing else. -/
def hiding_env (chunk : PyChunk) : Env :=
  { sample_env chunk with render_mode_hidden := fun _ x _ _ => decide (x = 15) }

/-! ## `init_chunk_render` (`iterate.c` lines 22-104) -/

/-- An attribute of the catalog that is used as a set of block ids, given by the value that
`PySequence_Contains(set, id)` returns for each id: 1 for a member, 0 for none, -1 when the
test raises. -/
abbrev IdSet := Nat → Int

/-- The module `overviewer_core.textures` as `init_chunk_render` reads it. An attribute is
`none` when `PyObject_GetAttrString` fails; the two limits are given by the value that
`PyLong_AsLong` returns for them. -/
structure Catalog where
  max_blockid : Option Int
  max_data : Option Int
  known_blocks : Option IdSet
  transparent_blocks : Option IdSet
  solid_blocks : Option IdSet
  fluid_blocks : Option IdSet
  nospawn_blocks : Option IdSet
  nodata_blocks : Option IdSet

/-- The attribute names that `init_chunk_render` asks for. -/
inductive Attr where
  | max_blockid
  | max_data
  | known_blocks
  | transparent_blocks
  | solid_blocks
  | fluid_blocks
  | nospawn_blocks
  | nodata_blocks
  deriving DecidableEq, Repr

/-- The accesses to the catalog: the import of the module, a `PyObject_GetAttrString`, a
`PySequence_Contains` on one of the six sets. -/
inductive Access where
  | import_module
  | getattr (a : Attr)
  | contains (a : Attr) (i : Nat)
  deriving DecidableEq, Repr

/-- The file-level variables of lines 22-33, with the accesses made to the catalog so far and
the Python error flag. A null pointer is `none`; `block_properties` is an array of
`uint8_t`. -/
structure Statics where
  textures : Option Catalog
  max_blockid : Nat
  max_data : Nat
  block_properties : Option (List Nat)
  known_blocks : Option IdSet
  transparent_blocks : Option IdSet
  solid_blocks : Option IdSet
  fluid_blocks : Option IdSet
  nospawn_blocks : Option IdSet
  nodata_blocks : Option IdSet
  accesses : List Access
  err : Bool

/-- The variables as the initialisers of lines 22-33 leave them. -/
def Statics.fresh : Statics :=
  { textures := none, max_blockid := 0, max_data := 0, block_properties := none,
    known_blocks := none, transparent_blocks := none, solid_blocks := none,
    fluid_blocks := none, nospawn_blocks := none, nodata_blocks := none,
    accesses := [], err := false }

/-- The statement `block_properties[i] |= 1 << p` on a `uint8_t` cell. The value of the
enumerator `p` comes from `overviewer.h` and is the parameter `bit`. -/
def set_property (bit : BlockProperty → Nat) (table : List Nat) (i : Nat)
    (p : BlockProperty) : List Nat :=
  table.set i ((table.getD i 0 ||| 1 <<< bit p) % 256)

/-- The body of the loop of lines 86-101 for the id `i`, on the table. -/
def classify_block (bit : BlockProperty → Nat)
    (known transparent solid fluid nospawn nodata : IdSet) (table : List Nat) (i : Nat) :
    List Nat :=
  let table := if known i ≠ 0 then set_property bit table i BlockProperty.KNOWN else table
  let table :=
    if transparent i ≠ 0 then set_property bit table i BlockProperty.TRANSPARENT else table
  let table := if solid i ≠ 0 then set_property bit table i BlockProperty.SOLID else table
  let table := if fluid i ≠ 0 then set_property bit table i BlockProperty.FLUID else table
  let table := if nospawn i ≠ 0 then set_property bit table i BlockProperty.NOSPAWN else table
  let table := if nodata i ≠ 0 then set_property bit table i BlockProperty.NODATA else table
  table

/-- Lines 85-101: the table that `calloc` returns, zero-filled, after the loop over the ids
below `n`. -/
def build_table (bit : BlockProperty → Nat)
    (known transparent solid fluid nospawn nodata : IdSet) (n : Nat) : List Nat :=
  (List.range n).foldl (classify_block bit known transparent solid fluid nospawn nodata)
    (List.replicate n 0)

/-- The membership tests that the loop of lines 86-101 makes, in order. -/
def table_accesses (n : Nat) : List Access :=
  (List.range n).flatMap fun (i : Nat) =>
    [Access.contains Attr.known_blocks i, Access.contains Attr.transparent_blocks i,
     Access.contains Attr.solid_blocks i, Access.contains Attr.fluid_blocks i,
     Access.contains Attr.nospawn_blocks i, Access.contains Attr.nodata_blocks i]

/-- Append one access to the catalog. -/
def Statics.log (s : Statics) (a : Access) : Statics := { s with accesses := s.accesses ++ [a] }

/-- A `PyObject_GetAttrString` that fails: `AttributeError` is raised and the caller
returns `NULL`. -/
def attr_missing (s : Statics) : PyResult × Statics := (PyResult.NULL, { s with err := true })

/-- The function `init_chunk_render`. `module` is what `PyImport_ImportModule` returns
(`none` for a failed import). `calloc` is taken to succeed. -/
def init_chunk_render (bit : BlockProperty → Nat) (module : Option Catalog) (s : Statics) :
    PyResult × Statics :=
  match s.textures with
  | some _ => (PyResult.None, s)
  | none =>
    let s := { s.log Access.import_module with textures := module }
    match module with
    | none => (PyResult.NULL, { s with err := true })
    | some textures =>
      let s := s.log (Access.getattr Attr.max_blockid)
      match textures.max_blockid with
      | none => attr_missing s
      | some tmp =>
        let s := { s with max_blockid := to_u32 tmp }
        let s := s.log (Access.getattr Attr.max_data)
        match textures.max_data with
        | none => attr_missing s
        | some tmp =>
          let s := { s with max_data := to_u32 tmp }
          let s := { s.log (Access.getattr Attr.known_blocks) with
            known_blocks := textures.known_blocks }
          match textures.known_blocks with
          | none => attr_missing s
          | some known =>
            let s := { s.log (Access.getattr Attr.transparent_blocks) with
              transparent_blocks := textures.transparent_blocks }
            match textures.transparent_blocks with
            | none => attr_missing s
            | some transparent =>
              let s := { s.log (Access.getattr Attr.solid_blocks) with
                solid_blocks := textures.solid_blocks }
              match textures.solid_blocks with
              | none => attr_missing s
              | some solid =>
                let s := { s.log (Access.getattr Attr.fluid_blocks) with
                  fluid_blocks := textures.fluid_blocks }
                match textures.fluid_blocks with
                | none => attr_missing s
                | some fluid =>
                  let s := { s.log (Access.getattr Attr.nospawn_blocks) with
                    nospawn_blocks := textures.nospawn_blocks }
                  match textures.nospawn_blocks with
                  | none => attr_missing s
                  | some nospawn =>
                    let s := { s.log (Access.getattr Attr.nodata_blocks) with
                      nodata_blocks := textures.nodata_blocks }
                    match textures.nodata_blocks with
                    | none => attr_missing s
                    | some nodata =>
                      (PyResult.None,
                        { s with
                          block_properties := some
                            (build_table bit known transparent solid fluid nospawn nodata
                              s.max_blockid),
                          accesses := s.accesses ++ table_accesses s.max_blockid })

/-- The value of `PySequence_Contains` on the set of the catalog that belongs to the
property `p`, for the id `i`; 0 when the catalog lacks the set. -/
def Catalog.contains (cat : Catalog) (p : BlockProperty) (i : Nat) : Int :=
  let set : Option IdSet :=
    match p with
    | BlockProperty.KNOWN => cat.known_blocks
    | BlockProperty.TRANSPARENT => cat.transparent_blocks
    | BlockProperty.SOLID => cat.solid_blocks
    | BlockProperty.FLUID => cat.fluid_blocks
    | BlockProperty.NOSPAWN => cat.nospawn_blocks
    | BlockProperty.NODATA => cat.nodata_blocks
  match set with
  | some f => f i
  | none => 0

/-- The positions of the six properties as `overviewer.h` numbers them from 0. -/
def sample_bit (p : BlockProperty) : Nat :=
  match p with
  | BlockProperty.KNOWN => 0
  | BlockProperty.TRANSPARENT => 1
  | BlockProperty.SOLID => 2
  | BlockProperty.FLUID => 3
  | BlockProperty.NOSPAWN => 4
  | BlockProperty.NODATA => 5

/-- A catalog of the small world: four block ids, sixteen data values; ids 1 to 3 are known,
1 is solid, 2 is transparent and a fluid, 3 is transparent and without data; spawning is
barred on 2 and 3. -/
def sample_catalog : Catalog :=
  { max_blockid := some 4, max_data := some 16,
    known_blocks := some (fun i => if i = 1 ∨ i = 2 ∨ i = 3 then 1 else 0),
    transparent_blocks := some (fun i => if i = 2 ∨ i = 3 then 1 else 0),
    solid_blocks := some (fun i => if i = 1 then 1 else 0),
    fluid_blocks := some (fun i => if i = 2 then 1 else 0),
    nospawn_blocks := some (fun i => if i = 2 ∨ i = 3 then 1 else 0),
    nodata_blocks := some (fun i => if i = 3 then 1 else 0) }

/-- The catalog of the small world without the attribute `max_data`. -/
def catalog_without_max_data : Catalog := { sample_catalog with max_data := none }
/-! ## Facts about machine integers -/

theorem wrap32_eq_self {v : Int} (h : in_int32 v) : wrap32 v = v := by
  unfold in_int32 at h
  unfold wrap32
  omega

theorem wrap32_in_int32 (v : Int) : in_int32 (wrap32 v) := by
  unfold in_int32 wrap32
  omega

/-! ## The lilypad rotation: only the low 18 bits matter -/

/-- XOR commutes with taking the low `n` bits. -/
theorem xor_mod_two_pow (a b n : Nat) : (a ^^^ b) % 2 ^ n = (a % 2 ^ n) ^^^ (b % 2 ^ n) := by
  apply Nat.eq_of_testBit_eq
  intro i
  simp only [Nat.testBit_mod_two_pow, Nat.testBit_xor]
  by_cases h : i < n <;> simp [h]

theorem low_wrap32 (v : Int) : (wrap32 v % 262144).toNat = (v % 262144).toNat := by
  unfold wrap32
  omega

theorem low_wrap64 (v : Int) : (wrap64 v % 262144).toNat = (v % 262144).toNat := by
  unfold wrap64
  omega

theorem low_ofNat (n : Nat) : (Int.ofNat n % 262144).toNat = n % 262144 := by
  simp only [Int.ofNat_eq_coe]
  omega

theorem to_u32_low (v : Int) : to_u32 v % 262144 = (v % 262144).toNat := by
  unfold to_u32
  omega

theorem to_u64_low (v : Int) : to_u64 v % 262144 = (v % 262144).toNat := by
  unfold to_u64
  omega

theorem low_xor32 (a b : Int) :
    (xor32 a b % 262144).toNat = (a % 262144).toNat ^^^ (b % 262144).toNat := by
  unfold xor32
  rw [low_wrap32, low_ofNat]
  have h := xor_mod_two_pow (to_u32 a) (to_u32 b) 18
  simp only [Nat.reducePow] at h
  rw [h, to_u32_low, to_u32_low]

theorem low_xor64 (a b : Int) :
    (xor64 a b % 262144).toNat = (a % 262144).toNat ^^^ (b % 262144).toNat := by
  unfold xor64
  rw [low_wrap64, low_ofNat]
  have h := xor_mod_two_pow (to_u64 a) (to_u64 b) 18
  simp only [Nat.reducePow] at h
  rw [h, to_u64_low, to_u64_low]

/-- The second assignment to `pr` keeps the low 18 bits a function of the low 18 bits. -/
theorem low_mix (p q : Int) (h : (p % 262144).toNat = (q % 262144).toNat) :
    (wrap64 (wrap64 (wrap64 (p * p) * 42317861) + wrap64 (p * 11)) % 262144).toNat
      = (wrap64 (wrap64 (wrap64 (q * q) * 42317861) + wrap64 (q * 11)) % 262144).toNat := by
  have h2 : p % 262144 = q % 262144 := by omega
  have hpp : (p * p) % 262144 = (q * q) % 262144 := by
    rw [Int.mul_emod, h2, ← Int.mul_emod]
  have key : ∀ s t a b : Int, s % 262144 = t % 262144 → a % 262144 = b % 262144 →
      wrap64 (wrap64 (wrap64 s * 42317861) + wrap64 (a * 11)) % 262144
        = wrap64 (wrap64 (wrap64 t * 42317861) + wrap64 (b * 11)) % 262144 := by
    intro s t a b hst hab
    unfold wrap64
    omega
  rw [key (p * p) (q * q) p q hpp h2]

theorem shiftRight_16 (pr : Int) : pr >>> (16 : Nat) = pr / 65536 := by
  rw [Int.shiftRight_eq_div_pow pr 16]
  rfl

theorem and_three (n : Nat) : 3 &&& n = n % 4 := by
  have h := Nat.and_pow_two_sub_one_eq_mod n 2
  rw [Nat.and_comm]
  exact h

theorem to_u64_three : to_u64 3 = 3 := by decide

/-- The value returned by the lilypad branch is bits 16 and 17 of `pr`. -/
theorem rotation_bits (pr : Int) :
    ((wrap32 (and64 3 (pr >>> (16 : Nat)))) % 65536).toNat = (pr % 262144).toNat / 65536 := by
  rw [shiftRight_16]
  unfold and64
  rw [to_u64_three, and_three]
  unfold wrap32 wrap64 to_u64
  simp only [Int.ofNat_eq_coe]
  omega

theorem spec_rotation_bits (pr : Int) :
    to_u64 (pr >>> (16 : Nat)) % 4 = (pr % 262144).toNat / 65536 := by
  rw [shiftRight_16]
  unfold to_u64
  omega

theorem low_coordinate (c v : Int) :
    wrap32 (wrap32 (c * 16) + v) % 262144 = (c * 16 + v) % 262144 := by
  unfold wrap32
  omega

theorem low_mul (a b k : Int) (h : a % 262144 = b % 262144) :
    ((a * k) % 262144).toNat = ((b * k) % 262144).toNat := by
  rw [Int.mul_emod, h, ← Int.mul_emod]

/-- The first assignment to `pr`: the code (products and XOR in 32 bits) and the rule of the
specification (64 bits) agree on the low 18 bits. -/
theorem low_first_assignment (cx cy cz x y z : Int) :
    ((xor32 (xor32 (wrap32 (wrap32 (wrap32 (cx * 16) + x) * 3129871))
              (wrap32 (wrap32 (wrap32 (cz * 16) + z) * 116129781)))
              (wrap32 (wrap32 (cy * 16) + y))) % 262144).toNat
      = ((xor64 (xor64 (wrap64 ((cx * 16 + x) * 3129871))
              (wrap64 ((cz * 16 + z) * 116129781)))
              (wrap64 (cy * 16 + y))) % 262144).toNat := by
  have hy : ((wrap32 (cy * 16) + y) % 262144).toNat = ((cy * 16 + y) % 262144).toNat := by
    unfold wrap32
    omega
  rw [low_xor32, low_xor32, low_xor64, low_xor64, low_wrap32, low_wrap32, low_wrap32,
    low_wrap64, low_wrap64, low_wrap64, low_mul _ _ 3129871 (low_coordinate cx x),
    low_mul _ _ 116129781 (low_coordinate cz z), hy]

theorem waterlily_rotation_unfold (state : RenderState) (x y z : Int) :
    waterlily_rotation state x y z
      = ((wrap32 (and64 3 ((wrap64 (wrap64 (wrap64
          ((xor32 (xor32 (wrap32 (wrap32 (wrap32 (state.chunkx * 16) + x) * 3129871))
              (wrap32 (wrap32 (wrap32 (state.chunkz * 16) + z) * 116129781)))
              (wrap32 (wrap32 (state.chunky * 16) + y)))
            * (xor32 (xor32 (wrap32 (wrap32 (wrap32 (state.chunkx * 16) + x) * 3129871))
              (wrap32 (wrap32 (wrap32 (state.chunkz * 16) + z) * 116129781)))
              (wrap32 (wrap32 (state.chunky * 16) + y)))) * 42317861)
          + wrap64 ((xor32 (xor32 (wrap32 (wrap32 (wrap32 (state.chunkx * 16) + x) * 3129871))
              (wrap32 (wrap32 (wrap32 (state.chunkz * 16) + z) * 116129781)))
              (wrap32 (wrap32 (state.chunky * 16) + y))) * 11))) >>> (16 : Nat)))) % 65536).toNat :=
  rfl

theorem lilypad_rotation_spec_unfold (wx wy wz : Int) :
    lilypad_rotation_spec wx wy wz
      = to_u64 ((wrap64 (wrap64 (wrap64
          ((xor64 (xor64 (wrap64 (wx * 3129871)) (wrap64 (wz * 116129781))) (wrap64 wy))
            * (xor64 (xor64 (wrap64 (wx * 3129871)) (wrap64 (wz * 116129781))) (wrap64 wy)))
            * 42317861)
          + wrap64 ((xor64 (xor64 (wrap64 (wx * 3129871)) (wrap64 (wz * 116129781)))
              (wrap64 wy)) * 11))) >>> (16 : Nat)) % 4 :=
  rfl

theorem waterlily_rotation_eq_spec (state : RenderState) (x y z : Int) :
    waterlily_rotation state x y z
      = lilypad_rotation_spec (state.chunkx * 16 + x) (state.chunky * 16 + y)
          (state.chunkz * 16 + z) := by
  rw [waterlily_rotation_unfold, lilypad_rotation_spec_unfold, rotation_bits,
    spec_rotation_bits,
    low_mix _ _ (low_first_assignment state.chunkx state.chunky state.chunkz x y z)]

theorem lilypad_rotation_spec_lt (wx wy wz : Int) : lilypad_rotation_spec wx wy wz < 4 := by
  unfold lilypad_rotation_spec
  simp only []
  omega

/-! ## `check_adjacent_blocks` -/

/-- Closed form of `check_adjacent_blocks`: one weight per matching neighbour. -/
theorem check_adjacent_blocks_value (env : Env) (state : RenderState) (x y z : Int) (k : Nat)
    (hx : in_int32 (x + 1) ∧ in_int32 (x - 1)) (hz : in_int32 (z + 1) ∧ in_int32 (z - 1)) :
    check_adjacent_blocks env state x y z k
      = (if env.get_data state DataType.BLOCKS (x + 1) y z = k then 8 else 0)
        + (if env.get_data state DataType.BLOCKS x y (z + 1) = k then 4 else 0)
        + (if env.get_data state DataType.BLOCKS (x - 1) y z = k then 2 else 0)
        + (if env.get_data state DataType.BLOCKS x y (z - 1) = k then 1 else 0) := by
  unfold check_adjacent_blocks
  rw [wrap32_eq_self hx.1, wrap32_eq_self hx.2, wrap32_eq_self hz.1, wrap32_eq_self hz.2]
  by_cases h1 : env.get_data state DataType.BLOCKS (x + 1) y z = k <;>
  by_cases h2 : env.get_data state DataType.BLOCKS x y (z + 1) = k <;>
  by_cases h3 : env.get_data state DataType.BLOCKS (x - 1) y z = k <;>
  by_cases h4 : env.get_data state DataType.BLOCKS x y (z - 1) = k <;>
  simp only [h1, h2, h3, h4, if_true, if_false] <;>
  decide

theorem check_adjacent_blocks_le (env : Env) (state : RenderState) (x y z : Int) (k : Nat) :
    check_adjacent_blocks env state x y z k ≤ 15 := by
  unfold check_adjacent_blocks
  split_ifs <;> decide

/-- C4. For positions whose four horizontal neighbour coordinates are representable,
`check_adjacent_blocks` returns a value `r ≤ 15` whose bit 3, 2, 1, 0 is set iff the block
at `x+1`, `z+1`, `x-1`, `z-1` (read through `get_data`) equals the given kind; a single
matching neighbour at `+x`, `+z`, `-x`, `-z` gives exactly `0b1000`, `0b0100`, `0b0010`,
`0b0001`. -/
theorem check_adjacent_blocks_bits (env : Env) (state : RenderState) (x y z : Int) (k : Nat)
    (hx : in_int32 (x + 1) ∧ in_int32 (x - 1)) (hz : in_int32 (z + 1) ∧ in_int32 (z - 1)) :
    check_adjacent_blocks env state x y z k ≤ 15
    ∧ ((check_adjacent_blocks env state x y z k).testBit 3 = true
        ↔ env.get_data state DataType.BLOCKS (x + 1) y z = k)
    ∧ ((check_adjacent_blocks env state x y z k).testBit 2 = true
        ↔ env.get_data state DataType.BLOCKS x y (z + 1) = k)
    ∧ ((check_adjacent_blocks env state x y z k).testBit 1 = true
        ↔ env.get_data state DataType.BLOCKS (x - 1) y z = k)
    ∧ ((check_adjacent_blocks env state x y z k).testBit 0 = true
        ↔ env.get_data state DataType.BLOCKS x y (z - 1) = k)
    ∧ (env.get_data state DataType.BLOCKS (x + 1) y z = k
        → env.get_data state DataType.BLOCKS x y (z + 1) ≠ k
        → env.get_data state DataType.BLOCKS (x - 1) y z ≠ k
        → env.get_data state DataType.BLOCKS x y (z - 1) ≠ k
        → check_adjacent_blocks env state x y z k = 0b1000)
    ∧ (env.get_data state DataType.BLOCKS (x + 1) y z ≠ k
        → env.get_data state DataType.BLOCKS x y (z + 1) = k
        → env.get_data state DataType.BLOCKS (x - 1) y z ≠ k
        → env.get_data state DataType.BLOCKS x y (z - 1) ≠ k
        → check_adjacent_blocks env state x y z k = 0b0100)
    ∧ (env.get_data state DataType.BLOCKS (x + 1) y z ≠ k
        → env.get_data state DataType.BLOCKS x y (z + 1) ≠ k
        → env.get_data state DataType.BLOCKS (x - 1) y z = k
        → env.get_data state DataType.BLOCKS x y (z - 1) ≠ k
        → check_adjacent_blocks env state x y z k = 0b0010)
    ∧ (env.get_data state DataType.BLOCKS (x + 1) y z ≠ k
        → env.get_data state DataType.BLOCKS x y (z + 1) ≠ k
        → env.get_data state DataType.BLOCKS (x - 1) y z ≠ k
        → env.get_data state DataType.BLOCKS x y (z - 1) = k
        → check_adjacent_blocks env state x y z k = 0b0001) := by
  rw [check_adjacent_blocks_value env state x y z k hx hz]
  by_cases h1 : env.get_data state DataType.BLOCKS (x + 1) y z = k <;>
  by_cases h2 : env.get_data state DataType.BLOCKS x y (z + 1) = k <;>
  by_cases h3 : env.get_data state DataType.BLOCKS (x - 1) y z = k <;>
  by_cases h4 : env.get_data state DataType.BLOCKS x y (z - 1) = k <;>
  simp only [h1, h2, h3, h4, if_true, if_false, ne_eq, not_true_eq_false, not_false_eq_true,
    eq_self_iff_true, true_implies, false_implies, implies_true, iff_true, iff_false,
    and_true, true_and] <;>
  decide

/-! ## `generate_pseudo_data` -/

theorem not_subset_of_ne {b : Nat} {l : List Nat} (h : b ∉ l) :
    block_class_is_subset b l = false := by
  simp [block_class_is_subset, h]

theorem subset_of_mem {b : Nat} {l : List Nat} (h : b ∈ l) :
    block_class_is_subset b l = true := by
  simp [block_class_is_subset, h]

/-- C5. For a liquid voxel (flowing water or water) the pseudo data is
`check_adjacent_blocks XOR 0x0F`, with bit `0x10` set exactly when the block above differs
from the voxel's kind: all four neighbours and the block above equal to the kind give `0`,
no matching neighbour and a different block above give `0x1F`. -/
theorem generate_pseudo_data_liquid (env : Env) (state : RenderState) (ancilData : Nat)
    (hk : state.block = env.block_flowing_water ∨ state.block = env.block_water)
    (hx : in_int32 (state.x + 1) ∧ in_int32 (state.x - 1))
    (hz : in_int32 (state.z + 1) ∧ in_int32 (state.z - 1))
    (hy : in_int32 (state.y + 1)) :
    generate_pseudo_data env state ancilData
      = ((check_adjacent_blocks env state state.x state.y state.z state.block ^^^ 0x0F)
          ||| (if env.get_data state DataType.BLOCKS state.x (state.y + 1) state.z ≠ state.block
                then 0x10 else 0))
    ∧ ((generate_pseudo_data env state ancilData).testBit 4 = true
        ↔ env.get_data state DataType.BLOCKS state.x (state.y + 1) state.z ≠ state.block)
    ∧ (env.get_data state DataType.BLOCKS (state.x + 1) state.y state.z = state.block
        → env.get_data state DataType.BLOCKS state.x state.y (state.z + 1) = state.block
        → env.get_data state DataType.BLOCKS (state.x - 1) state.y state.z = state.block
        → env.get_data state DataType.BLOCKS state.x state.y (state.z - 1) = state.block
        → env.get_data state DataType.BLOCKS state.x (state.y + 1) state.z = state.block
        → generate_pseudo_data env state ancilData = 0)
    ∧ (env.get_data state DataType.BLOCKS (state.x + 1) state.y state.z ≠ state.block
        → env.get_data state DataType.BLOCKS state.x state.y (state.z + 1) ≠ state.block
        → env.get_data state DataType.BLOCKS (state.x - 1) state.y state.z ≠ state.block
        → env.get_data state DataType.BLOCKS state.x state.y (state.z - 1) ≠ state.block
        → env.get_data state DataType.BLOCKS state.x (state.y + 1) state.z ≠ state.block
        → generate_pseudo_data env state ancilData = 0x1F) := by
  have hsub : block_class_is_subset state.block [env.block_flowing_water, env.block_water]
      = true := by
    apply subset_of_mem
    rcases hk with h | h <;> simp [h]
  have hgen : generate_pseudo_data env state ancilData
      = if env.get_data state DataType.BLOCKS state.x (state.y + 1) state.z ≠ state.block then
          ((check_adjacent_blocks env state state.x state.y state.z state.block ^^^ 0x0f) % 65536
            ||| 0x10) % 65536
        else (check_adjacent_blocks env state state.x state.y state.z state.block ^^^ 0x0f)
            % 65536 := by
    unfold generate_pseudo_data
    simp only [hsub, if_true, wrap32_eq_self hy]
  rw [hgen, check_adjacent_blocks_value env state state.x state.y state.z state.block hx hz]
  by_cases h1 : env.get_data state DataType.BLOCKS (state.x + 1) state.y state.z = state.block <;>
  by_cases h2 : env.get_data state DataType.BLOCKS state.x state.y (state.z + 1) = state.block <;>
  by_cases h3 : env.get_data state DataType.BLOCKS (state.x - 1) state.y state.z = state.block <;>
  by_cases h4 : env.get_data state DataType.BLOCKS state.x state.y (state.z - 1) = state.block <;>
  by_cases h5 : env.get_data state DataType.BLOCKS state.x (state.y + 1) state.z = state.block <;>
  simp only [h1, h2, h3, h4, h5, if_true, if_false, ne_eq, not_true_eq_false,
    not_false_eq_true, eq_self_iff_true, true_implies, false_implies, implies_true, iff_true,
    iff_false, and_true, true_and] <;>
  decide

/-- C6. For glass, ice and stained glass the pseudo data is `(adj_code << 4) | (d & 0x0F)`
with `adj_code = (check_adjacent_blocks XOR 0x0F) | top_flag`, where `top_flag` is `0` when
the block above is 20 or 95 and `16` otherwise; the 16-bit result loses nothing and is at
most `0x1FF`. -/
theorem generate_pseudo_data_glass (env : Env) (state : RenderState) (d : Nat)
    (hk : state.block = env.block_glass ∨ state.block = env.block_ice
          ∨ state.block = env.block_stained_glass)
    (hliquid : state.block ≠ env.block_flowing_water ∧ state.block ≠ env.block_water)
    (hy : in_int32 (state.y + 1)) :
    generate_pseudo_data env state d
      = ((((check_adjacent_blocks env state state.x state.y state.z state.block ^^^ 0x0F)
            ||| (if env.get_data state DataType.BLOCKS state.x (state.y + 1) state.z = 20
                    ∨ env.get_data state DataType.BLOCKS state.x (state.y + 1) state.z = 95
                 then 0 else 16)) <<< 4)
          ||| (d &&& 0x0F))
    ∧ generate_pseudo_data env state d ≤ 0x1FF := by
  have hsub1 : block_class_is_subset state.block [env.block_flowing_water, env.block_water]
      = false := by
    apply not_subset_of_ne
    simp [hliquid.1, hliquid.2]
  have hsub2 : block_class_is_subset state.block
      [env.block_glass, env.block_ice, env.block_stained_glass] = true := by
    apply subset_of_mem
    rcases hk with h | h | h <;> simp [h]
  have hle := check_adjacent_blocks_le env state state.x state.y state.z state.block
  have hd : d &&& 0x0F < 2 ^ 9 :=
    Nat.and_lt_two_pow d (by decide)
  have key : ∀ c f : Nat, c ≤ 15 → (f = 0 ∨ f = 16) →
      ((((c ^^^ 0x0f) ||| f) % 65536) <<< 4 ||| (d &&& 0x0f)) % 65536
        = (((c ^^^ 0x0F) ||| f) <<< 4) ||| (d &&& 0x0F)
      ∧ (((c ^^^ 0x0F) ||| f) <<< 4) ||| (d &&& 0x0F) ≤ 0x1FF := by
    intro c f hc hf
    have h9 : ((c ^^^ 0x0F) ||| f) <<< 4 < 2 ^ 9 := by
      rcases hf with rfl | rfl <;> interval_cases c <;> decide
    have hm : ((c ^^^ 0x0f) ||| f) % 65536 = (c ^^^ 0x0F) ||| f := by
      rcases hf with rfl | rfl <;> interval_cases c <;> decide
    have hlt : (((c ^^^ 0x0F) ||| f) <<< 4) ||| (d &&& 0x0F) < 2 ^ 9 :=
      Nat.or_lt_two_pow h9 hd
    rw [hm]
    constructor
    · apply Nat.mod_eq_of_lt
      omega
    · omega
  have hgen : generate_pseudo_data env state d
      = ((((check_adjacent_blocks env state state.x state.y state.z state.block ^^^ 0x0f)
            ||| (if env.get_data state DataType.BLOCKS state.x (state.y + 1) state.z = 20
                    ∨ env.get_data state DataType.BLOCKS state.x (state.y + 1) state.z = 95
                 then 0 else 16)) % 65536) <<< 4 ||| (d &&& 0x0f)) % 65536 := by
    unfold generate_pseudo_data
    simp only [hsub1, hsub2, if_true, wrap32_eq_self hy]
    rfl
  have hf : (if env.get_data state DataType.BLOCKS state.x (state.y + 1) state.z = 20
                    ∨ env.get_data state DataType.BLOCKS state.x (state.y + 1) state.z = 95
                 then 0 else 16) = 0
      ∨ (if env.get_data state DataType.BLOCKS state.x (state.y + 1) state.z = 20
                    ∨ env.get_data state DataType.BLOCKS state.x (state.y + 1) state.z = 95
                 then 0 else 16) = 16 := by
    split_ifs
    · exact Or.inl rfl
    · exact Or.inr rfl
  have hkey := key _ _ hle hf
  rw [hgen]
  exact ⟨hkey.1, hkey.1 ▸ hkey.2⟩

/-- C7. For a double-height plant the pseudo data is the persisted data of the voxel below
OR `0x8` when the block below is a double plant too, and the voxel's own data `d`
otherwise. -/
theorem generate_pseudo_data_double_plant (env : Env) (state : RenderState) (d : Nat)
    (hk : state.block = env.block_double_plant)
    (hkind : env.block_double_plant ∉ [env.block_flowing_water, env.block_water,
      env.block_glass, env.block_ice, env.block_stained_glass, env.block_portal,
      env.block_waterlily])
    (hy : in_int32 (state.y - 1))
    (hdata : env.get_data state DataType.DATA state.x (state.y - 1) state.z < 65536) :
    generate_pseudo_data env state d
      = if env.get_data state DataType.BLOCKS state.x (state.y - 1) state.z
            = env.block_double_plant then
          env.get_data state DataType.DATA state.x (state.y - 1) state.z ||| 0x8
        else d := by
  simp only [List.mem_cons, List.mem_singleton, not_or, List.not_mem_nil, not_false_eq_true,
    and_true] at hkind
  obtain ⟨h1, h2, h3, h4, h5, h6, h7⟩ := hkind
  have hsub1 : block_class_is_subset env.block_double_plant
      [env.block_flowing_water, env.block_water] = false := by
    apply not_subset_of_ne
    simp [h1, h2]
  have hsub2 : block_class_is_subset env.block_double_plant
      [env.block_glass, env.block_ice, env.block_stained_glass] = false := by
    apply not_subset_of_ne
    simp [h3, h4, h5]
  have hor : env.get_data state DataType.DATA state.x (state.y - 1) state.z ||| 0x8 < 2 ^ 16 :=
    Nat.or_lt_two_pow (by simpa using hdata) (by decide)
  unfold generate_pseudo_data
  simp only [hk, hsub1, hsub2, h6, h7, Bool.false_eq_true, if_true, if_false,
    wrap32_eq_self hy]
  split_ifs
  · apply Nat.mod_eq_of_lt
    simpa using hor
  · rfl

/-- C3. For the lilypad kind `generate_pseudo_data` returns what the all-64-bit rule of the
specification returns on the world coordinates `wx = chunkx*16 + x`, `wy = chunky*16 + y`,
`wz = chunkz*16 + z` (the two products that the code forms in 32 bits agree with it on every
bit that reaches the result); the value is in `{0,1,2,3}` and two lilypads with the same
world coordinates get the same value. -/
theorem generate_pseudo_data_waterlily (env : Env) (state : RenderState) (d : Nat)
    (hk : state.block = env.block_waterlily)
    (hkind : env.block_waterlily ∉ [env.block_flowing_water, env.block_water,
      env.block_glass, env.block_ice, env.block_stained_glass, env.block_portal]) :
    generate_pseudo_data env state d
      = lilypad_rotation_spec (state.chunkx * 16 + state.x) (state.chunky * 16 + state.y)
          (state.chunkz * 16 + state.z)
    ∧ generate_pseudo_data env state d < 4
    ∧ ∀ (state2 : RenderState) (d2 : Nat), state2.block = env.block_waterlily →
        state2.chunkx * 16 + state2.x = state.chunkx * 16 + state.x →
        state2.chunky * 16 + state2.y = state.chunky * 16 + state.y →
        state2.chunkz * 16 + state2.z = state.chunkz * 16 + state.z →
        generate_pseudo_data env state2 d2 = generate_pseudo_data env state d := by
  simp only [List.mem_cons, List.mem_singleton, not_or, List.not_mem_nil, not_false_eq_true,
    and_true] at hkind
  obtain ⟨h1, h2, h3, h4, h5, h6⟩ := hkind
  have hsub1 : block_class_is_subset env.block_waterlily
      [env.block_flowing_water, env.block_water] = false := by
    apply not_subset_of_ne
    simp [h1, h2]
  have hsub2 : block_class_is_subset env.block_waterlily
      [env.block_glass, env.block_ice, env.block_stained_glass] = false := by
    apply not_subset_of_ne
    simp [h3, h4, h5]
  have hgen : ∀ (s : RenderState) (a : Nat), s.block = env.block_waterlily →
      generate_pseudo_data env s a
        = lilypad_rotation_spec (s.chunkx * 16 + s.x) (s.chunky * 16 + s.y)
            (s.chunkz * 16 + s.z) := by
    intro s a hs
    unfold generate_pseudo_data
    simp only [hs, hsub1, hsub2, h6, Bool.false_eq_true, if_true, if_false]
    exact waterlily_rotation_eq_spec s s.x s.y s.z
  refine ⟨hgen state d hk, ?_, ?_⟩
  · rw [hgen state d hk]
    exact lilypad_rotation_spec_lt _ _ _
  · intro state2 d2 hk2 hx hy hz
    rw [hgen state2 d2 hk2, hgen state d hk, hx, hy, hz]

/-! ## The loop body -/

theorem wrap32_add_sub {a : Int} (d : Int) (h : in_int32 a) :
    wrap32 (wrap32 (a + d) - d) = a := by
  unfold in_int32 at h
  unfold wrap32
  omega

theorem eq_of_fields {s t : RenderState}
    (h1 : s.chunkx = t.chunkx) (h2 : s.chunky = t.chunky) (h3 : s.chunkz = t.chunkz)
    (h4 : s.x = t.x) (h5 : s.y = t.y) (h6 : s.z = t.z) (h7 : s.imgx = t.imgx)
    (h8 : s.imgy = t.imgy) (h9 : s.block = t.block) (h10 : s.block_data = t.block_data)
    (h11 : s.block_pdata = t.block_pdata) (h12 : s.chunks = t.chunks)
    (h13 : s.blocks = t.blocks) (h14 : s.blockdatas = t.blockdatas) : s = t := by
  cases s
  cases t
  simp only [RenderState.mk.injEq]
  exact ⟨h1, h2, h3, h4, h5, h6, h7, h8, h9, h10, h11, h12, h13, h14⟩

/-- The draw step leaves the render state as it found it: the jitter is undone. -/
theorem draw_texture_state (env : Env) (r : Run) (t : PyObject)
    (hx : in_int32 r.state.imgx) (hy : in_int32 r.state.imgy) :
    (draw_texture env r t).state = r.state := by
  unfold draw_texture
  simp only []
  split_ifs
  all_goals first
    | rfl
    | (apply eq_of_fields <;>
        first | rfl | exact wrap32_add_sub _ hx | exact wrap32_add_sub _ hy)

/-- Resolving the data value touches `block_data` and `block_pdata` only. -/
theorem resolve_data_state (env : Env) (s : RenderState) :
    (resolve_data env s).2
      = { s with block_data := (resolve_data env s).2.block_data,
                 block_pdata := (resolve_data env s).2.block_pdata } := by
  unfold resolve_data
  simp only []
  split_ifs <;> rfl

/-- The loop body touches `block`, `block_data` and `block_pdata` only. -/
theorem render_voxel_state (env : Env) (g : Globals) (c : LoopCtx) (r : Run)
    (hx : in_int32 r.state.imgx) (hy : in_int32 r.state.imgy) :
    (render_voxel env g c r).state
      = { r.state with block := (render_voxel env g c r).state.block,
                       block_data := (render_voxel env g c r).state.block_data,
                       block_pdata := (render_voxel env g c r).state.block_pdata } := by
  have hres := resolve_data_state env
    { r.state with block := getArrayShort3D c.blocks_py r.state.x r.state.y r.state.z }
  unfold render_voxel
  simp only [Run.log]
  split_ifs
  · rfl
  · rfl
  · rfl
  · rfl
  · rfl
  · rw [hres]
  · split
    · rw [hres]
    · rw [draw_texture_state env _ _ (by rw [hres]; exact hx) (by rw [hres]; exact hy)]
      rw [hres]
    · rw [hres]

theorem at_voxel_imgx (r : Run) (x y z ix iy : Int) : (at_voxel r x y z ix iy).state.imgx = ix :=
  rfl

theorem at_voxel_imgy (r : Run) (x y z ix iy : Int) : (at_voxel r x y z ix iy).state.imgy = iy :=
  rfl

/-- After the body has run on a placed cursor, position and anchor are as placed. -/
theorem render_voxel_at_voxel (env : Env) (g : Globals) (c : LoopCtx) (r : Run)
    (x y z ix iy : Int) (hx : in_int32 ix) (hy : in_int32 iy) :
    (render_voxel env g c (at_voxel r x y z ix iy)).state.x = x
    ∧ (render_voxel env g c (at_voxel r x y z ix iy)).state.y = y
    ∧ (render_voxel env g c (at_voxel r x y z ix iy)).state.z = z
    ∧ (render_voxel env g c (at_voxel r x y z ix iy)).state.imgx = ix
    ∧ (render_voxel env g c (at_voxel r x y z ix iy)).state.imgy = iy := by
  have h := render_voxel_state env g c (at_voxel r x y z ix iy) hx hy
  refine ⟨?_, ?_, ?_, ?_, ?_⟩ <;> rw [h] <;> rfl

/-! ## The pixel loop in closed form -/

theorem foldl_congr_inv {α : Type} (P : Run → Prop) (f h : Run → α → Run)
    (hfh : ∀ r a, P r → f r a = h r a) (hP : ∀ r a, P r → P (h r a)) :
    ∀ (l : List α) (r : Run), P r → l.foldl f r = l.foldl h r := by
  intro l
  induction l with
  | nil => intro r _; rfl
  | cons a l ih =>
    intro r hr
    rw [List.foldl_cons, List.foldl_cons, hfh r a hr]
    exact ih (h r a) (hP r a hr)

theorem foldl_first {α : Type} (f : Run → α → Run) (a : α) (l : List α) (r s : Run)
    (h : f r a = f s a) : (a :: l).foldl f r = (a :: l).foldl f s := by
  rw [List.foldl_cons, List.foldl_cons, h]

theorem foldl_inv {α : Type} (P : Run → Prop) (f : Run → α → Run)
    (hP : ∀ r a, P r → P (f r a)) :
    ∀ (l : List α) (r : Run), P r → P (l.foldl f r) := by
  intro l
  induction l with
  | nil => intro r hr; exact hr
  | cons a l ih =>
    intro r hr
    rw [List.foldl_cons]
    exact ih (f r a) (hP r a hr)

/-- The `y` loop from `y = k` on, entered with `imgy = wrap32 (B - 12 * k)`, runs the body on
the anchor `wrap32 (B - 12 * (y + 1))` for each `y`. -/
theorem y_loop_closed (env : Env) (g : Globals) (c : LoopCtx) (X Z IX B : Int)
    (hIX : in_int32 IX) :
    ∀ (n k : Nat) (r : Run), r.state.x = X → r.state.z = Z → r.state.imgx = IX →
      r.state.imgy = wrap32 (B - 12 * (k : Int)) →
      (List.range' k n).foldl (y_iteration env g c) r
        = (List.range' k n).foldl
            (fun (r : Run) (y : Nat) => render_voxel env g c
              (at_voxel r X (y : Int) Z IX (wrap32 (B - 12 * ((y : Int) + 1))))) r := by
  intro n
  induction n with
  | zero => intro k r _ _ _ _; rfl
  | succ n ih =>
    intro k r hX hZ hI hY
    have hstep : y_iteration env g c r k
        = render_voxel env g c
            (at_voxel r X (k : Int) Z IX (wrap32 (B - 12 * ((k : Int) + 1)))) := by
      have hw : wrap32 (r.state.imgy - 12) = wrap32 (B - 12 * ((k : Int) + 1)) := by
        rw [hY]
        unfold wrap32
        omega
      subst hX hZ hI
      unfold y_iteration at_voxel
      simp only []
      rw [hw]
    have hnext := render_voxel_at_voxel env g c r X (k : Int) Z IX
      (wrap32 (B - 12 * ((k : Int) + 1))) hIX (wrap32_in_int32 _)
    show (List.foldl (y_iteration env g c) r (k :: List.range' (k + 1) n)) = _
    rw [List.foldl_cons, hstep]
    show _ = List.foldl _ r (k :: List.range' (k + 1) n)
    rw [List.foldl_cons]
    apply ih (k + 1) _ hnext.1 hnext.2.2.1 hnext.2.2.2.1
    rw [hnext.2.2.2.2]
    push_cast
    rfl

theorem range_16 : List.range 16 = 0 :: List.range' 1 15 := by decide

/-- One `z` iteration in closed form. -/
theorem z_iteration_closed (env : Env) (g : Globals) (c : LoopCtx) (xoff yoff X : Int)
    (r : Run) (z : Nat) (hX : r.state.x = X) :
    z_iteration env g c xoff yoff r z
      = (List.range 16).foldl
          (fun (r : Run) (y : Nat) => render_voxel env g c
            (at_voxel r X (y : Int) (z : Int) (wrap32 (xoff + 12 * X + 12 * (z : Int)))
              (wrap32 (yoff - 6 * X + 6 * (z : Int) + 192 + 90 - 12 * ((y : Int) + 1))))) r := by
  have hix : wrap32 (wrap32 (xoff + wrap32 (X * 12)) + wrap32 ((z : Int) * 12))
      = wrap32 (xoff + 12 * X + 12 * (z : Int)) := by
    unfold wrap32
    omega
  have hiy : wrap32 (wrap32 (wrap32 (wrap32 (yoff - wrap32 (X * 6)) + wrap32 ((z : Int) * 6))
              + 16 * 12) + 15 * 6)
      = wrap32 ((yoff - 6 * X + 6 * (z : Int) + 192 + 90) - 12 * ((0 : Nat) : Int)) := by
    unfold wrap32
    omega
  have hy := y_loop_closed env g c X (z : Int) (wrap32 (xoff + 12 * X + 12 * (z : Int)))
    (yoff - 6 * X + 6 * (z : Int) + 192 + 90) (wrap32_in_int32 _) 16 0
    (at_voxel r X r.state.y (z : Int) (wrap32 (xoff + 12 * X + 12 * (z : Int)))
      (wrap32 ((yoff - 6 * X + 6 * (z : Int) + 192 + 90) - 12 * ((0 : Nat) : Int))))
    rfl rfl rfl rfl
  have hstart : z_iteration env g c xoff yoff r z
      = (List.range' 0 16).foldl (y_iteration env g c)
          (at_voxel r X r.state.y (z : Int) (wrap32 (xoff + 12 * X + 12 * (z : Int)))
            (wrap32 ((yoff - 6 * X + 6 * (z : Int) + 192 + 90) - 12 * ((0 : Nat) : Int)))) := by
    subst hX
    unfold z_iteration at_voxel
    simp only []
    rw [hix, hiy, List.range_eq_range']
  rw [hstart, hy, List.range_eq_range']
  rfl

/-- One `x` iteration in closed form. -/
theorem x_iteration_closed (env : Env) (g : Globals) (c : LoopCtx) (xoff yoff : Int)
    (r : Run) (x : Nat) :
    x_iteration env g c xoff yoff r x
      = (List.range 16).foldl
          (fun (r : Run) (z : Nat) => (List.range 16).foldl
            (fun (r : Run) (y : Nat) => render_voxel env g c
              (at_voxel r (x : Int) (y : Int) (z : Int)
                (wrap32 (xoff + 12 * (x : Int) + 12 * (z : Int)))
                (wrap32 (yoff - 6 * (x : Int) + 6 * (z : Int) + 192 + 90
                          - 12 * ((y : Int) + 1))))) r) r := by
  unfold x_iteration
  have hz := foldl_congr_inv (fun r => r.state.x = (x : Int))
    (z_iteration env g c xoff yoff)
    (fun (r : Run) (z : Nat) => (List.range 16).foldl
      (fun (r : Run) (y : Nat) => render_voxel env g c
        (at_voxel r (x : Int) (y : Int) (z : Int)
          (wrap32 (xoff + 12 * (x : Int) + 12 * (z : Int)))
          (wrap32 (yoff - 6 * (x : Int) + 6 * (z : Int) + 192 + 90
                    - 12 * ((y : Int) + 1))))) r)
    (fun r z hr => z_iteration_closed env g c xoff yoff (x : Int) r z hr)
    (by
      intro r z _
      beta_reduce
      rw [range_16, List.foldl_cons]
      apply foldl_inv (fun r => r.state.x = (x : Int))
      · intro r y _
        exact (render_voxel_at_voxel env g c r _ _ _ _ _ (wrap32_in_int32 _)
          (wrap32_in_int32 _)).1
      · exact (render_voxel_at_voxel env g c r _ _ _ _ _ (wrap32_in_int32 _)
          (wrap32_in_int32 _)).1)
    (List.range 16) { r with state := { r.state with x := (x : Int) } } rfl
  rw [hz, range_16]
  apply foldl_first
  apply foldl_first
  rfl

/-- The pixel loop runs the body, for `x` from 15 down to 0, `z` and `y` from 0 to 15, on
the anchor given in closed form. -/
theorem pixel_loop_closed (env : Env) (g : Globals) (c : LoopCtx) (xoff yoff : Int) (r : Run) :
    pixel_loop env g c xoff yoff r
      = (List.range 16).reverse.foldl
          (fun (r : Run) (x : Nat) => (List.range 16).foldl
            (fun (r : Run) (z : Nat) => (List.range 16).foldl
              (fun (r : Run) (y : Nat) => render_voxel env g c
                (at_voxel r (x : Int) (y : Int) (z : Int)
                  (wrap32 (xoff + 12 * (x : Int) + 12 * (z : Int)))
                  (wrap32 (yoff - 6 * (x : Int) + 6 * (z : Int) + 192 + 90
                            - 12 * ((y : Int) + 1))))) r) r) r := by
  unfold pixel_loop
  exact congrArg (fun f => List.foldl f r (List.range 16).reverse)
    (funext fun r => funext fun x => x_iteration_closed env g c xoff yoff r x)

/-! ## Sections that are air but for the voxel at the origin -/

theorem agree_refl (r : Run) : r.agree r :=
  ⟨rfl, rfl, rfl, rfl, rfl, rfl, rfl, rfl, rfl, rfl, rfl⟩

theorem agree_trans {r s t : Run} (h1 : r.agree s) (h2 : s.agree t) : r.agree t := by
  unfold Run.agree at *
  obtain ⟨a1, a2, a3, a4, a5, a6, a7, a8, a9, a10, a11⟩ := h1
  obtain ⟨b1, b2, b3, b4, b5, b6, b7, b8, b9, b10, b11⟩ := h2
  exact ⟨a1.trans b1, a2.trans b2, a3.trans b3, a4.trans b4, a5.trans b5, a6.trans b6,
    a7.trans b7, a8.trans b8, a9.trans b9, a10.trans b10, a11.trans b11⟩

/-- The body overwrites `state.block` before it reads it. -/
theorem render_voxel_block (env : Env) (g : Globals) (c : LoopCtx) (r : Run) (b : Nat) :
    render_voxel env g c { r with state := { r.state with block := b } }
      = render_voxel env g c r :=
  rfl

/-- Runs that agree give the same run once the cursor is placed and the body has run. -/
theorem render_voxel_congr (env : Env) (g : Globals) (c : LoopCtx) {r s : Run}
    (h : r.agree s) (x y z ix iy : Int) :
    render_voxel env g c (at_voxel r x y z ix iy)
      = render_voxel env g c (at_voxel s x y z ix iy) := by
  obtain ⟨a1, a2, a3, a4, a5, a6, a7, a8, a9, a10, a11⟩ := h
  have hrs : at_voxel r x y z ix iy
      = { at_voxel s x y z ix iy with
          state := { (at_voxel s x y z ix iy).state with block := r.state.block } } := by
    cases r with
    | mk rs rt rr re =>
      cases s with
      | mk ss st sr se =>
        simp only at a1 a2 a3 a4 a5 a6 a7 a8 a9 a10 a11
        subst a1 a2 a3
        unfold at_voxel
        simp only [Run.mk.injEq, and_true]
        apply eq_of_fields <;> first | rfl | assumption
  rw [hrs, render_voxel_block]

/-- On an air voxel the body does nothing that outlives the iteration. -/
theorem render_voxel_air (env : Env) (g : Globals) (c : LoopCtx) (r : Run)
    (x y z ix iy : Int) (h : getArrayShort3D c.blocks_py x y z = env.block_air) :
    (render_voxel env g c (at_voxel r x y z ix iy)).agree r := by
  have hrv : render_voxel env g c (at_voxel r x y z ix iy)
      = { at_voxel r x y z ix iy with
          state := { (at_voxel r x y z ix iy).state with block := env.block_air } } := by
    unfold render_voxel
    simp only [at_voxel, h, if_true]
  rw [hrv]
  exact ⟨rfl, rfl, rfl, rfl, rfl, rfl, rfl, rfl, rfl, rfl, rfl⟩

theorem foldl_agree {α : Type} (f : Run → α → Run) :
    ∀ (l : List α) (r s : Run), r.agree s → (∀ a ∈ l, ∀ t : Run, (f t a).agree t) →
      (l.foldl f r).agree s := by
  intro l
  induction l with
  | nil => intro r s h _; exact h
  | cons a l ih =>
    intro r s h hall
    rw [List.foldl_cons]
    apply ih
    · exact agree_trans (hall a (List.mem_cons_self a l) r) h
    · intro b hb t
      exact hall b (List.mem_cons_of_mem a hb) t

theorem reverse_range_16 : (List.range 16).reverse = (List.range' 1 15).reverse ++ [0] := by
  decide

theorem pixel_loop_steps (env : Env) (g : Globals) (c : LoopCtx) (xoff yoff : Int) (r : Run) :
    pixel_loop env g c xoff yoff r
      = (List.range 16).reverse.foldl (step_x env g c xoff yoff) r :=
  pixel_loop_closed env g c xoff yoff r

theorem foldl_agree_head {α : Type} (f : Run → α → Run) (l : List α) (a : α) (rest : List α)
    (hl : l = a :: rest) (r : Run) (h : ∀ b ∈ rest, ∀ t : Run, (f t b).agree t) :
    (l.foldl f r).agree (f r a) := by
  subst hl
  rw [List.foldl_cons]
  exact foldl_agree f rest (f r a) (f r a) (agree_refl _) h

theorem mem_range_16 {a : Nat} (h : a ∈ List.range 16) : a < 16 :=
  List.mem_range.mp h

theorem mem_range_1_15 {a : Nat} (h : a ∈ List.range' 1 15) : a < 16 ∧ a ≠ 0 := by
  rw [List.mem_range'_1] at h
  omega

/-- If every voxel of the section other than `(0, 0, 0)` is air, the pixel loop does what
the loop body does on `(0, 0, 0)` with the anchor `(xoff, yoff + 270)`. -/
theorem pixel_loop_origin (env : Env) (g : Globals) (c : LoopCtx) (xoff yoff : Int) (r : Run)
    (hair : ∀ x y z : Nat, x < 16 → y < 16 → z < 16 → ¬ (x = 0 ∧ y = 0 ∧ z = 0) →
      getArrayShort3D c.blocks_py (x : Int) (y : Int) (z : Int) = env.block_air) :
    (pixel_loop env g c xoff yoff r).agree
      (render_voxel env g c (at_voxel r 0 0 0 (wrap32 xoff) (wrap32 (yoff + 270)))) := by
  have sy : ∀ x y z : Nat, x < 16 → y < 16 → z < 16 → ¬ (x = 0 ∧ y = 0 ∧ z = 0) →
      ∀ t : Run, (step_y env g c xoff yoff x z t y).agree t := by
    intro x y z hx hy hz hne t
    exact render_voxel_air env g c t _ _ _ _ _ (hair x y z hx hy hz hne)
  have sz : ∀ x z : Nat, x < 16 → z < 16 → ¬ (x = 0 ∧ z = 0) →
      ∀ t : Run, (step_z env g c xoff yoff x t z).agree t := by
    intro x z hx hz hne t
    apply foldl_agree _ _ t t (agree_refl t)
    intro y hy s
    exact sy x y z hx (mem_range_16 hy) hz (fun h => hne ⟨h.1, h.2.2⟩) s
  have sx : ∀ x : Nat, x < 16 → x ≠ 0 → ∀ t : Run, (step_x env g c xoff yoff t x).agree t := by
    intro x hx hne t
    apply foldl_agree _ _ t t (agree_refl t)
    intro z hz s
    exact sz x z hx (mem_range_16 hz) (fun h => hne h.1) s
  have h1 : ((List.range' 1 15).reverse.foldl (step_x env g c xoff yoff) r).agree r := by
    apply foldl_agree _ _ r r (agree_refl r)
    intro x hx t
    have hm := mem_range_1_15 (List.mem_reverse.mp hx)
    exact sx x hm.1 hm.2 t
  have h2 : ∀ s : Run, (step_x env g c xoff yoff s 0).agree (step_z env g c xoff yoff 0 s 0) := by
    intro s
    apply foldl_agree_head _ _ 0 (List.range' 1 15) range_16 s
    intro z hz t
    have hm := mem_range_1_15 hz
    exact sz 0 z (by decide) hm.1 (fun h => hm.2 h.2) t
  have h3 : ∀ s : Run, (step_z env g c xoff yoff 0 s 0).agree (step_y env g c xoff yoff 0 0 s 0) := by
    intro s
    apply foldl_agree_head _ _ 0 (List.range' 1 15) range_16 s
    intro y hy t
    have hm := mem_range_1_15 hy
    exact sy 0 y 0 (by decide) hm.1 (by decide) (fun h => hm.2 h.2.1) t
  have h4 : ∀ s : Run, s.agree r → step_y env g c xoff yoff 0 0 s 0
      = render_voxel env g c (at_voxel r 0 0 0 (wrap32 xoff) (wrap32 (yoff + 270))) := by
    intro s hs
    have hax : wrap32 (xoff + 12 * ((0 : Nat) : Int) + 12 * ((0 : Nat) : Int)) = wrap32 xoff := by
      congr 1
      simp
    have hay : wrap32 (yoff - 6 * ((0 : Nat) : Int) + 6 * ((0 : Nat) : Int) + 192 + 90
                - 12 * (((0 : Nat) : Int) + 1)) = wrap32 (yoff + 270) := by
      congr 1
      simp
      ring
    unfold step_y
    rw [hax, hay]
    exact render_voxel_congr env g c hs _ _ _ _ _
  rw [pixel_loop_steps, reverse_range_16, List.foldl_append, List.foldl_cons, List.foldl_nil]
  have h5 := h4 _ h1
  rw [← h5]
  exact agree_trans (h2 _) (h3 _)

/-! ## `chunk_render` along its paths -/

/-- The normal path: the render mode is created, the block map is a list, the centre chunk
loads and has the requested section. -/
theorem chunk_render_rendered (env : Env) (g : Globals) (args : RenderArgs) (r : Run)
    (blockmap : List (Option PyObject)) (blocks_py : NDArray)
    (hc : args.render_mode_created = true) (hb : args.blockmap = BlockmapAttr.list blockmap)
    (hl : (load_chunk env (before_load args r) 0 0 true).2 = false)
    (hs : (section_at ((load_chunk env (before_load args r) 0 0 true).1.state.chunks 1 1)
            (load_chunk env (before_load args r) 0 0 true).1.state.chunky).blocks
          = some blocks_py) :
    chunk_render env g args r
      = (PyResult.None,
          unload_all_chunks
            ((pixel_loop env g (loop_ctx args blockmap blocks_py) args.xoff args.yoff
                (loop_entry (load_chunk env (before_load args r) 0 0 true).1 blocks_py)).log
              Event.render_mode_destroy)) := by
  unfold chunk_render
  simp only [hc, hb, not_true_eq_false, if_false]
  change (if (load_chunk env (before_load args r) 0 0 true).2 = true then _ else _) = _
  simp only [hl, Bool.false_eq_true, if_false]
  change (match (section_at ((load_chunk env (before_load args r) 0 0 true).1.state.chunks 1 1)
            (load_chunk env (before_load args r) 0 0 true).1.state.chunky).blocks with
    | none => _
    | some blocks_py => _) = _
  rw [hs]
  rfl

/-! ## What the pixel loop appends to the trace -/

/-- The draw step appends one draw call, with component 0 of the texture as source image
and as mask and component 1 as light mask, for a cursor that holds the same voxel. -/
theorem draw_texture_trace (env : Env) (r : Run) (t : PyObject) :
    ∃ cur : Cursor, cur.block = r.state.block ∧ cur.block_data = r.state.block_data
      ∧ cur.block_pdata = r.state.block_pdata
      ∧ (draw_texture env r t).trace
          = r.trace ++ [Event.render_mode_draw cur (PyTuple_GetItem t 0) (PyTuple_GetItem t 0)
                          (PyTuple_GetItem t 1)] := by
  have hmask : (if PyTuple_GetItem t 0 = some PyItem.None then PyTuple_GetItem t 0
      else PyTuple_GetItem t 0) = PyTuple_GetItem t 0 := by
    split_ifs <;> rfl
  unfold draw_texture
  simp only [hmask]
  split_ifs
  · exact ⟨_, rfl, rfl, rfl, rfl⟩
  · exact ⟨_, rfl, rfl, rfl, rfl⟩

theorem resolve_data_block (env : Env) (s : RenderState) :
    (resolve_data env s).2.block = s.block := by
  rw [resolve_data_state]

/-- The data value used for the lookup can be read back from the state. -/
theorem resolve_data_value (env : Env) (s : RenderState) :
    (resolve_data env s).1
      = if block_class_is_subset (resolve_data env s).2.block env.block_class_ancil then
          (resolve_data env s).2.block_pdata
        else (resolve_data env s).2.block_data := by
  rw [resolve_data_block]
  unfold resolve_data
  simp only []
  cases h1 : env.block_has_property s.block BlockProperty.NODATA <;>
  cases h2 : block_class_is_subset s.block env.block_class_ancil <;>
  simp only [Bool.false_eq_true, if_true, if_false, ite_self]

theorem loop_event_hidden (env : Env) (g : Globals) (bm : List (Option PyObject))
    (c : Cursor) : loop_event env g bm (Event.render_mode_hidden c) := by
  simp [loop_event]

theorem loop_event_occluded (env : Env) (g : Globals) (bm : List (Option PyObject))
    (c : Cursor) : loop_event env g bm (Event.render_mode_occluded c) := by
  simp [loop_event]

theorem loop_event_atlas_read (env : Env) (g : Globals) (bm : List (Option PyObject))
    (i : Nat) : loop_event env g bm (Event.atlas_read i) := by
  simp [loop_event]

theorem loop_event_queries (env : Env) (g : Globals) (bm : List (Option PyObject))
    (c1 c2 : Cursor) (rest : List Event) (h : ∀ e ∈ rest, loop_event env g bm e) :
    ∀ e ∈ [Event.render_mode_hidden c1, Event.render_mode_occluded c2] ++ rest,
      loop_event env g bm e := by
  intro e he
  simp only [List.cons_append, List.nil_append, List.mem_cons] at he
  rcases he with rfl | rfl | he
  · exact loop_event_hidden env g bm c1
  · exact loop_event_occluded env g bm c2
  · exact h e he

theorem lookup_texture_events (env : Env) (g : Globals) (bm : List (Option PyObject))
    (b d : Nat) : ∀ e ∈ (lookup_texture g bm b d).2, loop_event env g bm e := by
  intro e he
  unfold lookup_texture at he
  simp only [] at he
  split_ifs at he
  · simp only [List.mem_cons, List.mem_singleton, List.not_mem_nil, or_false] at he
    rcases he with rfl | rfl <;> exact loop_event_atlas_read env g bm _
  · simp only [List.mem_cons, List.mem_singleton, List.not_mem_nil, or_false] at he
    rcases he with rfl
    exact loop_event_atlas_read env g bm _

/-- The loop body appends loop events only. -/
theorem render_voxel_new (env : Env) (g : Globals) (c : LoopCtx) (r : Run) :
    ∃ new : List Event, (render_voxel env g c r).trace = r.trace ++ new
      ∧ ∀ e ∈ new, loop_event env g c.blockmap e := by
  unfold render_voxel
  simp only [Run.log]
  set st : RenderState :=
    { r.state with block := getArrayShort3D c.blocks_py r.state.x r.state.y r.state.z }
    with hst
  have hfound := lookup_texture_events env g c.blockmap (resolve_data env st).2.block
    (resolve_data env st).1
  split_ifs with h1 h2 h3 h4 h5 h6
  · exact ⟨[], (List.append_nil _).symm, fun e he => absurd he (List.not_mem_nil e)⟩
  · refine ⟨[Event.render_mode_hidden st.cursor], rfl, ?_⟩
    intro e he
    rw [List.mem_singleton] at he
    subst he
    exact loop_event_hidden _ _ _ _
  · refine ⟨[Event.render_mode_hidden st.cursor], rfl, ?_⟩
    intro e he
    rw [List.mem_singleton] at he
    subst he
    exact loop_event_hidden _ _ _ _
  · refine ⟨[Event.render_mode_hidden st.cursor], rfl, ?_⟩
    intro e he
    rw [List.mem_singleton] at he
    subst he
    exact loop_event_hidden _ _ _ _
  · exact ⟨[Event.render_mode_hidden st.cursor, Event.render_mode_occluded st.cursor] ++ [],
      by simp, loop_event_queries _ _ _ _ _ [] (fun e he => absurd he (List.not_mem_nil e))⟩
  · exact ⟨[Event.render_mode_hidden st.cursor, Event.render_mode_occluded st.cursor] ++ [],
      by simp, loop_event_queries _ _ _ _ _ [] (fun e he => absurd he (List.not_mem_nil e))⟩
  · split
    · exact ⟨[Event.render_mode_hidden st.cursor, Event.render_mode_occluded st.cursor]
          ++ (lookup_texture g c.blockmap (resolve_data env st).2.block
                (resolve_data env st).1).2,
        by simp, loop_event_queries _ _ _ _ _ _ hfound⟩
    · rename_i t hne heq
      obtain ⟨cur, hcur, hcd, hcp, htr⟩ := draw_texture_trace env
        { state := (resolve_data env st).2,
          trace := r.trace ++ [Event.render_mode_hidden st.cursor]
            ++ [Event.render_mode_occluded st.cursor]
            ++ (lookup_texture g c.blockmap (resolve_data env st).2.block
                (resolve_data env st).1).2,
          rand_calls := r.rand_calls, err := r.err } t
      refine ⟨[Event.render_mode_hidden st.cursor, Event.render_mode_occluded st.cursor]
          ++ ((lookup_texture g c.blockmap (resolve_data env st).2.block
                (resolve_data env st).1).2
              ++ [Event.render_mode_draw cur (PyTuple_GetItem t 0) (PyTuple_GetItem t 0)
                    (PyTuple_GetItem t 1)]),
        by rw [htr]; simp, ?_⟩
      apply loop_event_queries
      intro e he
      rw [List.mem_append, List.mem_singleton] at he
      rcases he with he | rfl
      · exact hfound e he
      · refine ⟨t, ?_, fun hn => hne hn, rfl, rfl, rfl⟩
        have hres : cur.resolved env = (resolve_data env st).1 := by
          rw [resolve_data_value]
          unfold Cursor.resolved
          rw [hcur, hcd, hcp]
        rw [hres, hcur]
        exact heq
    · exact ⟨[Event.render_mode_hidden st.cursor, Event.render_mode_occluded st.cursor]
          ++ (lookup_texture g c.blockmap (resolve_data env st).2.block
                (resolve_data env st).1).2,
        by simp, loop_event_queries _ _ _ _ _ _ hfound⟩

theorem foldl_new {α : Type} (Q : Event → Prop) (f : Run → α → Run)
    (hf : ∀ (r : Run) (a : α), ∃ new : List Event,
      (f r a).trace = r.trace ++ new ∧ ∀ e ∈ new, Q e) :
    ∀ (l : List α) (r : Run), ∃ new : List Event,
      (l.foldl f r).trace = r.trace ++ new ∧ ∀ e ∈ new, Q e := by
  intro l
  induction l with
  | nil =>
    intro r
    exact ⟨[], (List.append_nil _).symm, fun e he => absurd he (List.not_mem_nil e)⟩
  | cons a l ih =>
    intro r
    obtain ⟨n1, h1, q1⟩ := hf r a
    obtain ⟨n2, h2, q2⟩ := ih (f r a)
    refine ⟨n1 ++ n2, ?_, ?_⟩
    · rw [List.foldl_cons, h2, h1, List.append_assoc]
    · intro e he
      rcases List.mem_append.mp he with h | h
      · exact q1 e h
      · exact q2 e h

/-- The pixel loop appends loop events only. -/
theorem pixel_loop_new (env : Env) (g : Globals) (c : LoopCtx) (xoff yoff : Int) (r : Run) :
    ∃ new : List Event, (pixel_loop env g c xoff yoff r).trace = r.trace ++ new
      ∧ ∀ e ∈ new, loop_event env g c.blockmap e := by
  have hy : ∀ (r : Run) (y : Nat), ∃ new : List Event,
      (y_iteration env g c r y).trace = r.trace ++ new
        ∧ ∀ e ∈ new, loop_event env g c.blockmap e := by
    intro r y
    unfold y_iteration
    exact render_voxel_new env g c _
  have hz : ∀ (r : Run) (z : Nat), ∃ new : List Event,
      (z_iteration env g c xoff yoff r z).trace = r.trace ++ new
        ∧ ∀ e ∈ new, loop_event env g c.blockmap e := by
    intro r z
    unfold z_iteration
    exact foldl_new (loop_event env g c.blockmap) (y_iteration env g c) hy (List.range 16) _
  have hx : ∀ (r : Run) (x : Nat), ∃ new : List Event,
      (x_iteration env g c xoff yoff r x).trace = r.trace ++ new
        ∧ ∀ e ∈ new, loop_event env g c.blockmap e := by
    intro r x
    unfold x_iteration
    exact foldl_new (loop_event env g c.blockmap) (z_iteration env g c xoff yoff) hz
      (List.range 16) _
  unfold pixel_loop
  exact foldl_new (loop_event env g c.blockmap) (x_iteration env g c xoff yoff) hx _ r

/-- The cache lookup appends at most one call, to the voxel source. -/
theorem load_chunk_trace (env : Env) (r : Run) (x z : Int) (required : Bool) :
    (load_chunk env r x z required).1.trace = r.trace
    ∨ (load_chunk env r x z required).1.trace
        = r.trace ++ [Event.get_chunk (wrap32 (x + r.state.chunkx))
                        (wrap32 (z + r.state.chunkz))] := by
  unfold load_chunk
  simp only [Run.log]
  split_ifs
  all_goals first
    | exact Or.inl rfl
    | (right
       split
       · rfl
       · split <;> rfl)

theorem before_load_trace (args : RenderArgs) (r : Run) :
    (before_load args r).trace = r.trace ++ [Event.render_mode_create] :=
  rfl

theorem chunk_render_missing (env : Env) (g : Globals) (args : RenderArgs) (r : Run)
    (hc : args.render_mode_created = true) (hb : args.blockmap = BlockmapAttr.missing) :
    (chunk_render env g args r).1 = PyResult.NULL
    ∧ (chunk_render env g args r).2.trace
        = r.trace ++ [Event.render_mode_create, Event.render_mode_destroy] := by
  unfold chunk_render
  simp only [hc, hb, not_true_eq_false, if_false, Run.log, List.append_assoc,
    List.singleton_append, and_self]

theorem chunk_render_none (env : Env) (g : Globals) (args : RenderArgs) (r : Run)
    (hc : args.render_mode_created = true) (hb : args.blockmap = BlockmapAttr.None) :
    (chunk_render env g args r).1 = PyResult.NULL
    ∧ (chunk_render env g args r).2.trace
        = r.trace ++ [Event.render_mode_create, Event.render_mode_destroy] := by
  unfold chunk_render
  simp only [hc, hb, not_true_eq_false, if_false, Run.log, List.append_assoc,
    List.singleton_append, and_self]

theorem chunk_render_load_failed (env : Env) (g : Globals) (args : RenderArgs) (r : Run)
    (blockmap : List (Option PyObject))
    (hc : args.render_mode_created = true) (hb : args.blockmap = BlockmapAttr.list blockmap)
    (hl : (load_chunk env (before_load args r) 0 0 true).2 = true) :
    (chunk_render env g args r).1 = PyResult.NULL
    ∧ (chunk_render env g args r).2.trace
        = (load_chunk env (before_load args r) 0 0 true).1.trace
            ++ [Event.render_mode_destroy] := by
  have h : chunk_render env g args r
      = (PyResult.NULL,
          (load_chunk env (before_load args r) 0 0 true).1.log Event.render_mode_destroy) := by
    unfold chunk_render
    simp only [hc, hb, not_true_eq_false, if_false]
    change (if (load_chunk env (before_load args r) 0 0 true).2 = true then _ else _) = _
    simp only [hl, if_true]
    rfl
  rw [h]
  exact ⟨rfl, rfl⟩

theorem chunk_render_absent (env : Env) (g : Globals) (args : RenderArgs) (r : Run)
    (blockmap : List (Option PyObject))
    (hc : args.render_mode_created = true) (hb : args.blockmap = BlockmapAttr.list blockmap)
    (hl : (load_chunk env (before_load args r) 0 0 true).2 = false)
    (hs : (section_at ((load_chunk env (before_load args r) 0 0 true).1.state.chunks 1 1)
            (load_chunk env (before_load args r) 0 0 true).1.state.chunky).blocks = none) :
    (chunk_render env g args r).1 = PyResult.None
    ∧ (chunk_render env g args r).2.trace
        = (load_chunk env (before_load args r) 0 0 true).1.trace
            ++ [Event.render_mode_destroy, Event.unload_all_chunks] := by
  have h : chunk_render env g args r
      = (PyResult.None,
          unload_all_chunks
            ((load_chunk env (before_load args r) 0 0 true).1.log Event.render_mode_destroy)) := by
    unfold chunk_render
    simp only [hc, hb, not_true_eq_false, if_false]
    change (if (load_chunk env (before_load args r) 0 0 true).2 = true then _ else _) = _
    simp only [hl, Bool.false_eq_true, if_false]
    change (match (section_at
              ((load_chunk env (before_load args r) 0 0 true).1.state.chunks 1 1)
              (load_chunk env (before_load args r) 0 0 true).1.state.chunky).blocks with
      | none => _
      | some blocks_py => _) = _
    rw [hs]
    rfl
  rw [h]
  refine ⟨rfl, ?_⟩
  simp only [unload_all_chunks, Run.log, List.append_assoc, List.singleton_append]

/-! ## Instances in the small world -/

/-- C4 at a concrete input: the only matching neighbour of `(1, 1, 1)` is at `+x`, and the
result is `0b1000`. -/
theorem check_adjacent_blocks_bits_witness :
    (in_int32 ((1 : Int) + 1) ∧ in_int32 ((1 : Int) - 1))
    ∧ check_adjacent_blocks (sample_env (origin_chunk 0 0))
        (sample_state 0 9 (voxel_at 2 1 1 9) (origin_only 0)) 1 1 1 9 = 0b1000 :=
  ⟨by decide,
    (check_adjacent_blocks_bits (sample_env (origin_chunk 0 0))
      (sample_state 0 9 (voxel_at 2 1 1 9) (origin_only 0)) 1 1 1 9
      (by decide) (by decide)).2.2.2.2.2.1 (by decide) (by decide) (by decide) (by decide)⟩

/-- C5 at a concrete input: a lone water voxel gets `0x1F`. -/
theorem generate_pseudo_data_liquid_witness :
    ((sample_state 0 9 (voxel_at 1 1 1 9) (origin_only 0)).block
        = (sample_env (origin_chunk 0 0)).block_water)
    ∧ generate_pseudo_data (sample_env (origin_chunk 0 0))
        (sample_state 0 9 (voxel_at 1 1 1 9) (origin_only 0)) 0 = 0x1F :=
  ⟨rfl,
    (generate_pseudo_data_liquid (sample_env (origin_chunk 0 0))
      (sample_state 0 9 (voxel_at 1 1 1 9) (origin_only 0)) 0 (Or.inr rfl)
      (by decide) (by decide) (by decide)).2.2.2
      (by decide) (by decide) (by decide) (by decide) (by decide)⟩

/-- C6 at a concrete input: a lone glass voxel with persisted data 3 gets
`(0x1F << 4) | 3 = 499`. -/
theorem generate_pseudo_data_glass_witness :
    ((sample_state 0 20 (voxel_at 1 1 1 20) (voxel_at 1 1 1 3)).block
        = (sample_env (origin_chunk 0 0)).block_glass)
    ∧ generate_pseudo_data (sample_env (origin_chunk 0 0))
        (sample_state 0 20 (voxel_at 1 1 1 20) (voxel_at 1 1 1 3)) 3 = 499
    ∧ generate_pseudo_data (sample_env (origin_chunk 0 0))
        (sample_state 0 20 (voxel_at 1 1 1 20) (voxel_at 1 1 1 3)) 3 ≤ 0x1FF :=
  ⟨rfl,
    (generate_pseudo_data_glass (sample_env (origin_chunk 0 0))
      (sample_state 0 20 (voxel_at 1 1 1 20) (voxel_at 1 1 1 3)) 3 (Or.inl rfl)
      (by decide) (by decide)).1.trans (by decide),
    (generate_pseudo_data_glass (sample_env (origin_chunk 0 0))
      (sample_state 0 20 (voxel_at 1 1 1 20) (voxel_at 1 1 1 3)) 3 (Or.inl rfl)
      (by decide) (by decide)).2⟩

/-- C7 at a concrete input: the bottom half holds data 5, the top half yields 13. -/
theorem generate_pseudo_data_double_plant_witness :
    ((sample_state 0 175 (column_of_two 175) (voxel_at 1 0 1 5)).block
        = (sample_env (origin_chunk 0 0)).block_double_plant)
    ∧ generate_pseudo_data (sample_env (origin_chunk 0 0))
        (sample_state 0 175 (column_of_two 175) (voxel_at 1 0 1 5)) 0 = 13 :=
  ⟨rfl,
    (generate_pseudo_data_double_plant (sample_env (origin_chunk 0 0))
      (sample_state 0 175 (column_of_two 175) (voxel_at 1 0 1 5)) 0 rfl
      (by decide) (by decide) (by decide)).trans (by decide)⟩

/-- C3 at a concrete input: the lilypad at world position `(1, 1, 65)`, where the product
`wz * 116129781` does not fit in 32 bits, gets rotation 3. -/
theorem generate_pseudo_data_waterlily_witness :
    ((sample_state 4 111 (voxel_at 1 1 1 111) (origin_only 0)).block
        = (sample_env (origin_chunk 0 0)).block_waterlily)
    ∧ ¬ in_int32 (65 * 116129781)
    ∧ generate_pseudo_data (sample_env (origin_chunk 0 0))
        (sample_state 4 111 (voxel_at 1 1 1 111) (origin_only 0)) 0 = 3 :=
  ⟨rfl, by decide,
    (generate_pseudo_data_waterlily (sample_env (origin_chunk 0 0))
      (sample_state 4 111 (voxel_at 1 1 1 111) (origin_only 0)) 0 rfl (by decide)).1.trans
      (by decide)⟩

theorem origin_only_air (v : Nat) (x y z : Nat) (h : ¬ (x = 0 ∧ y = 0 ∧ z = 0)) :
    getArrayShort3D (origin_only v) (x : Int) (y : Int) (z : Int) = 0 := by
  have hne : ¬ ((x : Int) = 0 ∧ (y : Int) = 0 ∧ (z : Int) = 0) := by
    intro hh
    apply h
    exact ⟨by exact_mod_cast hh.1, by exact_mod_cast hh.2.1, by exact_mod_cast hh.2.2⟩
  unfold getArrayShort3D origin_only
  simp only [hne, if_false]

theorem unload_log_trace (r : Run) :
    (unload_all_chunks (r.log Event.render_mode_destroy)).trace
      = r.trace ++ [Event.render_mode_destroy, Event.unload_all_chunks] := by
  simp only [unload_all_chunks, Run.log, List.append_assoc, List.singleton_append]

/-- The trace of `chunk_render` in the small world: one stone voxel at `(0, 0, 0)`, the
texture `sample_texture` at index 16 of the block map, offset `(0, 0)`. -/
theorem small_world_trace :
    (chunk_render (sample_env (origin_chunk 1 0)) sample_globals
        (sample_args (BlockmapAttr.list (atlas_with 16 sample_texture))) sample_run).2.trace
      = [Event.render_mode_create, Event.get_chunk 0 0,
         Event.render_mode_hidden
           { x := 0, y := 0, z := 0, imgx := 0, imgy := 270, block := 1, block_data := 7,
             block_pdata := 7 },
         Event.render_mode_occluded
           { x := 0, y := 0, z := 0, imgx := 0, imgy := 270, block := 1, block_data := 7,
             block_pdata := 7 },
         Event.atlas_read 16,
         Event.render_mode_draw
           { x := 0, y := 0, z := 0, imgx := 0, imgy := 270, block := 1, block_data := 0,
             block_pdata := 0 }
           (some (PyItem.Object 1)) (some (PyItem.Object 1)) (some (PyItem.Object 2)),
         Event.render_mode_destroy, Event.unload_all_chunks] := by
  rw [chunk_render_rendered (sample_env (origin_chunk 1 0)) sample_globals
    (sample_args (BlockmapAttr.list (atlas_with 16 sample_texture))) sample_run
    (atlas_with 16 sample_texture) (origin_only 1) rfl rfl rfl rfl]
  rw [unload_log_trace]
  rw [(pixel_loop_origin (sample_env (origin_chunk 1 0)) sample_globals _ _ _ _
    (fun x y z _ _ _ h => origin_only_air 1 x y z h)).1]
  decide

/-- C1 (amended). On the path that reaches the pixel loop, `chunk_render` runs the loop
body, for `x` from 15 down to 0 and `z`, `y` from 0 to 15, holding the anchor
`imgx = xoff + 12*x + 12*z`, `imgy = yoff - 6*x + 6*z + 192 + 90 - 12*(y + 1)` (as signed
32-bit values): `imgy` is decremented before the voxel `y` is processed. If `(0, 0, 0)` is the
only voxel that is not air, everything the loop does is the body at the anchor
`(xoff, yoff + 270)`. -/
theorem chunk_render_anchor (env : Env) (g : Globals) (args : RenderArgs) (r : Run)
    (blockmap : List (Option PyObject)) (blocks_py : NDArray)
    (hc : args.render_mode_created = true) (hb : args.blockmap = BlockmapAttr.list blockmap)
    (hl : (load_chunk env (before_load args r) 0 0 true).2 = false)
    (hs : (section_at ((load_chunk env (before_load args r) 0 0 true).1.state.chunks 1 1)
            (load_chunk env (before_load args r) 0 0 true).1.state.chunky).blocks
          = some blocks_py) :
    chunk_render env g args r
      = (PyResult.None,
          unload_all_chunks
            (((List.range 16).reverse.foldl
                (fun (r : Run) (x : Nat) => (List.range 16).foldl
                  (fun (r : Run) (z : Nat) => (List.range 16).foldl
                    (fun (r : Run) (y : Nat) =>
                      render_voxel env g (loop_ctx args blockmap blocks_py)
                        (at_voxel r (x : Int) (y : Int) (z : Int)
                          (wrap32 (args.xoff + 12 * (x : Int) + 12 * (z : Int)))
                          (wrap32 (args.yoff - 6 * (x : Int) + 6 * (z : Int) + 192 + 90
                                    - 12 * ((y : Int) + 1))))) r) r)
                (loop_entry (load_chunk env (before_load args r) 0 0 true).1 blocks_py)).log
              Event.render_mode_destroy))
    ∧ ((∀ x y z : Nat, x < 16 → y < 16 → z < 16 → ¬ (x = 0 ∧ y = 0 ∧ z = 0) →
          getArrayShort3D blocks_py (x : Int) (y : Int) (z : Int) = env.block_air) →
        (chunk_render env g args r).2.trace
          = (render_voxel env g (loop_ctx args blockmap blocks_py)
              (at_voxel (loop_entry (load_chunk env (before_load args r) 0 0 true).1 blocks_py)
                0 0 0 (wrap32 args.xoff) (wrap32 (args.yoff + 270)))).trace
            ++ [Event.render_mode_destroy, Event.unload_all_chunks]) := by
  have h := chunk_render_rendered env g args r blockmap blocks_py hc hb hl hs
  constructor
  · rw [h, pixel_loop_closed]
  · intro hair
    rw [h, unload_log_trace]
    rw [(pixel_loop_origin env g (loop_ctx args blockmap blocks_py) args.xoff args.yoff _
      hair).1]

/-- C1 (amended) in the small world: the trace of the call, with the voxel `(0, 0, 0)` seen
at the anchor `(0, 270)` by the visibility test, the occlusion test and the draw routine. -/
theorem chunk_render_anchor_witness :
    (sample_args (BlockmapAttr.list (atlas_with 16 sample_texture))).render_mode_created = true
    ∧ (chunk_render (sample_env (origin_chunk 1 0)) sample_globals
        (sample_args (BlockmapAttr.list (atlas_with 16 sample_texture))) sample_run).2.trace
      = [Event.render_mode_create, Event.get_chunk 0 0,
         Event.render_mode_hidden
           { x := 0, y := 0, z := 0, imgx := 0, imgy := 270, block := 1, block_data := 7,
             block_pdata := 7 },
         Event.render_mode_occluded
           { x := 0, y := 0, z := 0, imgx := 0, imgy := 270, block := 1, block_data := 7,
             block_pdata := 7 },
         Event.atlas_read 16,
         Event.render_mode_draw
           { x := 0, y := 0, z := 0, imgx := 0, imgy := 270, block := 1, block_data := 0,
             block_pdata := 0 }
           (some (PyItem.Object 1)) (some (PyItem.Object 1)) (some (PyItem.Object 2)),
         Event.render_mode_destroy, Event.unload_all_chunks] :=
  ⟨rfl,
    ((chunk_render_anchor (sample_env (origin_chunk 1 0)) sample_globals
      (sample_args (BlockmapAttr.list (atlas_with 16 sample_texture))) sample_run
      (atlas_with 16 sample_texture) (origin_only 1) rfl rfl rfl rfl).2
      (fun x y z _ _ _ h => origin_only_air 1 x y z h)).trans (by decide)⟩

/-- C1 as stated fails: in the small world (offset `(0, 0)`) the draw call for the voxel
`(0, 0, 0)` does not see `imgy = yoff - 6*x + 6*z + 192 + 90 - 12*y = 282`; it sees 270. -/
theorem chunk_render_anchor_counterexample :
    ¬ (∀ (c : Cursor) (src mask mask_light : Option PyItem),
        Event.render_mode_draw c src mask mask_light
          ∈ (chunk_render (sample_env (origin_chunk 1 0)) sample_globals
              (sample_args (BlockmapAttr.list (atlas_with 16 sample_texture)))
              sample_run).2.trace →
        c.imgx = (sample_args (BlockmapAttr.list (atlas_with 16 sample_texture))).xoff
                  + 12 * c.x + 12 * c.z
        ∧ c.imgy = (sample_args (BlockmapAttr.list (atlas_with 16 sample_texture))).yoff
                  - 6 * c.x + 6 * c.z + 192 + 90 - 12 * c.y) := by
  intro h
  have hd := h
    { x := 0, y := 0, z := 0, imgx := 0, imgy := 270, block := 1, block_data := 0,
      block_pdata := 0 }
    (some (PyItem.Object 1)) (some (PyItem.Object 1)) (some (PyItem.Object 2))
    (by rw [small_world_trace]; decide)
  exact absurd hd.2 (by decide)

/-! ## All paths of `chunk_render` -/

theorem chunk_render_not_created (env : Env) (g : Globals) (args : RenderArgs) (r : Run)
    (hc : args.render_mode_created = false) :
    (chunk_render env g args r).1 = PyResult.NULL
    ∧ (chunk_render env g args r).2.trace = r.trace ++ [Event.render_mode_create] := by
  unfold chunk_render
  simp only [hc, Bool.false_eq_true, not_false_eq_true, if_true, Run.log, and_self]

theorem load_chunk_new (env : Env) (r : Run) (x z : Int) (required : Bool) :
    ∃ ln : List Event, (load_chunk env r x z required).1.trace = r.trace ++ ln
      ∧ ∀ e ∈ ln, ∃ a b : Int, e = Event.get_chunk a b := by
  rcases load_chunk_trace env r x z required with h | h
  · exact ⟨[], by rw [h, List.append_nil], fun e he => absurd he (List.not_mem_nil e)⟩
  · refine ⟨[Event.get_chunk (wrap32 (x + r.state.chunkx)) (wrap32 (z + r.state.chunkz))],
      h, ?_⟩
    intro e he
    rw [List.mem_singleton] at he
    exact ⟨_, _, he⟩

/-- The paths of `chunk_render` once the render mode has been created, with the return
value and the calls made on each. -/
theorem chunk_render_paths (env : Env) (g : Globals) (args : RenderArgs) (r : Run)
    (hc : args.render_mode_created = true) :
    ((args.blockmap = BlockmapAttr.missing ∨ args.blockmap = BlockmapAttr.None)
      ∧ (chunk_render env g args r).1 = PyResult.NULL
      ∧ (chunk_render env g args r).2.trace
          = r.trace ++ [Event.render_mode_create, Event.render_mode_destroy])
    ∨ (∃ (blockmap : List (Option PyObject)) (ln : List Event),
        args.blockmap = BlockmapAttr.list blockmap
        ∧ (load_chunk env (before_load args r) 0 0 true).2 = true
        ∧ (chunk_render env g args r).1 = PyResult.NULL
        ∧ (∀ e ∈ ln, ∃ a b : Int, e = Event.get_chunk a b)
        ∧ (chunk_render env g args r).2.trace
            = r.trace ++ ([Event.render_mode_create] ++ ln ++ [Event.render_mode_destroy]))
    ∨ (∃ (blockmap : List (Option PyObject)) (ln : List Event),
        args.blockmap = BlockmapAttr.list blockmap
        ∧ (load_chunk env (before_load args r) 0 0 true).2 = false
        ∧ (chunk_render env g args r).1 = PyResult.None
        ∧ (∀ e ∈ ln, ∃ a b : Int, e = Event.get_chunk a b)
        ∧ (chunk_render env g args r).2.trace
            = r.trace ++ ([Event.render_mode_create] ++ ln
                ++ [Event.render_mode_destroy, Event.unload_all_chunks]))
    ∨ (∃ (blockmap : List (Option PyObject)) (ln loop : List Event),
        args.blockmap = BlockmapAttr.list blockmap
        ∧ (load_chunk env (before_load args r) 0 0 true).2 = false
        ∧ (chunk_render env g args r).1 = PyResult.None
        ∧ (∀ e ∈ ln, ∃ a b : Int, e = Event.get_chunk a b)
        ∧ (∀ e ∈ loop, loop_event env g blockmap e)
        ∧ (chunk_render env g args r).2.trace
            = r.trace ++ ([Event.render_mode_create] ++ ln ++ loop
                ++ [Event.render_mode_destroy, Event.unload_all_chunks])) := by
  obtain ⟨ln, hln, hget⟩ := load_chunk_new env (before_load args r) 0 0 true
  rw [before_load_trace] at hln
  cases hb : args.blockmap with
  | missing =>
    left
    exact ⟨Or.inl rfl, chunk_render_missing env g args r hc hb⟩
  | None =>
    left
    exact ⟨Or.inr rfl, chunk_render_none env g args r hc hb⟩
  | list blockmap =>
    right
    cases hl : (load_chunk env (before_load args r) 0 0 true).2 with
    | true =>
      left
      have h := chunk_render_load_failed env g args r blockmap hc hb hl
      refine ⟨blockmap, ln, rfl, rfl, h.1, hget, ?_⟩
      rw [h.2, hln]
      simp only [List.append_assoc]
    | false =>
      right
      cases hs : (section_at ((load_chunk env (before_load args r) 0 0 true).1.state.chunks 1 1)
            (load_chunk env (before_load args r) 0 0 true).1.state.chunky).blocks with
      | none =>
        left
        have h := chunk_render_absent env g args r blockmap hc hb hl hs
        refine ⟨blockmap, ln, rfl, rfl, h.1, hget, ?_⟩
        rw [h.2, hln]
        simp only [List.append_assoc]
      | some blocks_py =>
        right
        have h := chunk_render_rendered env g args r blockmap blocks_py hc hb hl hs
        obtain ⟨loop, hloop, hev⟩ := pixel_loop_new env g (loop_ctx args blockmap blocks_py)
          args.xoff args.yoff
          (loop_entry (load_chunk env (before_load args r) 0 0 true).1 blocks_py)
        refine ⟨blockmap, ln, loop, rfl, rfl, ?_, hget, hev, ?_⟩
        · rw [h]
        · rw [h, unload_log_trace, hloop]
          have he : (loop_entry (load_chunk env (before_load args r) 0 0 true).1
              blocks_py).trace = (load_chunk env (before_load args r) 0 0 true).1.trace := rfl
          rw [he, hln]
          simp only [List.append_assoc]

theorem count_get_chunk (ln : List Event) (h : ∀ e ∈ ln, ∃ a b : Int, e = Event.get_chunk a b)
    (e : Event) (he : ∀ a b : Int, e ≠ Event.get_chunk a b) : ln.count e = 0 := by
  apply List.count_eq_zero_of_not_mem
  intro hm
  obtain ⟨a, b, hab⟩ := h e hm
  exact he a b hab

theorem count_loop (env : Env) (g : Globals) (bm : List (Option PyObject)) (loop : List Event)
    (h : ∀ e ∈ loop, loop_event env g bm e) (e : Event) (he : ¬ loop_event env g bm e) :
    loop.count e = 0 := by
  apply List.count_eq_zero_of_not_mem
  intro hm
  exact he (h e hm)

theorem not_loop_event_destroy (env : Env) (g : Globals) (bm : List (Option PyObject)) :
    ¬ loop_event env g bm Event.render_mode_destroy := by
  simp [loop_event]

theorem not_loop_event_unload (env : Env) (g : Globals) (bm : List (Option PyObject)) :
    ¬ loop_event env g bm Event.unload_all_chunks := by
  simp [loop_event]

/-- C10 (amended). On every path by which `chunk_render` returns after the render mode has
been created, the render mode is destroyed exactly once. `unload_all_chunks` is called (once)
exactly on the two paths that return `None`, normal completion and absent section; on the
paths that return `NULL` (block map missing or `None`, centre chunk not loaded) it is not
called. -/
theorem chunk_render_teardown (env : Env) (g : Globals) (args : RenderArgs) (r : Run)
    (hc : args.render_mode_created = true) :
    ∃ new : List Event, (chunk_render env g args r).2.trace = r.trace ++ new
      ∧ new.count Event.render_mode_destroy = 1
      ∧ ((chunk_render env g args r).1 = PyResult.None →
          new.count Event.unload_all_chunks = 1)
      ∧ ((chunk_render env g args r).1 = PyResult.NULL →
          new.count Event.unload_all_chunks = 0)
      ∧ ((chunk_render env g args r).1 = PyResult.NULL ↔
          (args.blockmap = BlockmapAttr.missing ∨ args.blockmap = BlockmapAttr.None
            ∨ (load_chunk env (before_load args r) 0 0 true).2 = true)) := by
  rcases chunk_render_paths env g args r hc with
    ⟨hb, hres, htr⟩ | ⟨bm, ln, hb, hl, hres, hln, htr⟩ | ⟨bm, ln, hb, hl, hres, hln, htr⟩
      | ⟨bm, ln, loop, hb, hl, hres, hln, hloop, htr⟩
  · refine ⟨_, htr, by decide, ?_, fun _ => by decide, ?_⟩
    · intro h
      rw [hres] at h
      exact absurd h (by decide)
    · constructor
      · intro _
        rcases hb with h | h
        · exact Or.inl h
        · exact Or.inr (Or.inl h)
      · intro _
        exact hres
  · have d1 := count_get_chunk ln hln Event.render_mode_destroy (by intro a b h; cases h)
    have d2 := count_get_chunk ln hln Event.unload_all_chunks (by intro a b h; cases h)
    refine ⟨_, htr, ?_, ?_, ?_, ?_⟩
    · simp [List.count_append, d1]
    · intro h
      rw [hres] at h
      exact absurd h (by decide)
    · intro _
      simp [List.count_append, d2]
    · exact ⟨fun _ => Or.inr (Or.inr hl), fun _ => hres⟩
  · have d1 := count_get_chunk ln hln Event.render_mode_destroy (by intro a b h; cases h)
    have d2 := count_get_chunk ln hln Event.unload_all_chunks (by intro a b h; cases h)
    refine ⟨_, htr, ?_, ?_, ?_, ?_⟩
    · simp [List.count_append, d1]
    · intro _
      simp [List.count_append, d2]
    · intro h
      rw [hres] at h
      exact absurd h (by decide)
    · constructor
      · intro h
        rw [hres] at h
        exact absurd h (by decide)
      · intro h
        rcases h with h | h | h
        · rw [hb] at h
          cases h
        · rw [hb] at h
          cases h
        · rw [hl] at h
          cases h
  · have d1 := count_get_chunk ln hln Event.render_mode_destroy (by intro a b h; cases h)
    have d2 := count_get_chunk ln hln Event.unload_all_chunks (by intro a b h; cases h)
    have l1 := count_loop env g bm loop hloop Event.render_mode_destroy
      (not_loop_event_destroy env g bm)
    have l2 := count_loop env g bm loop hloop Event.unload_all_chunks
      (not_loop_event_unload env g bm)
    refine ⟨_, htr, ?_, ?_, ?_, ?_⟩
    · simp [List.count_append, d1, l1]
    · intro _
      simp [List.count_append, d2, l2]
    · intro h
      rw [hres] at h
      exact absurd h (by decide)
    · constructor
      · intro h
        rw [hres] at h
        exact absurd h (by decide)
      · intro h
        rcases h with h | h | h
        · rw [hb] at h
          cases h
        · rw [hb] at h
          cases h
        · rw [hl] at h
          cases h

/-- C10 (amended) in the small world: the call that renders the stone voxel destroys the
render mode once and calls `unload_all_chunks` once. -/
theorem chunk_render_teardown_witness :
    (sample_args (BlockmapAttr.list (atlas_with 16 sample_texture))).render_mode_created = true
    ∧ ∃ new : List Event,
        (chunk_render (sample_env (origin_chunk 1 0)) sample_globals
          (sample_args (BlockmapAttr.list (atlas_with 16 sample_texture))) sample_run).2.trace
          = sample_run.trace ++ new
        ∧ new.count Event.render_mode_destroy = 1 :=
  ⟨rfl,
    (chunk_render_teardown (sample_env (origin_chunk 1 0)) sample_globals
      (sample_args (BlockmapAttr.list (atlas_with 16 sample_texture))) sample_run rfl).imp
      (fun _ h => ⟨h.1, h.2.1⟩)⟩

/-- C10 as stated fails: with the render mode created, `unload_all_chunks` is not called
when the block map is missing, nor when it is `None`, nor when the centre chunk cannot be
loaded (here chunk `(5, 0)`, unknown to the voxel source). -/
theorem chunk_render_teardown_counterexample :
    (sample_args BlockmapAttr.missing).render_mode_created = true
    ∧ Event.unload_all_chunks ∉
        (chunk_render (sample_env (origin_chunk 1 0)) sample_globals
          (sample_args BlockmapAttr.missing) sample_run).2.trace
    ∧ Event.unload_all_chunks ∉
        (chunk_render (sample_env (origin_chunk 1 0)) sample_globals
          (sample_args BlockmapAttr.None) sample_run).2.trace
    ∧ (chunk_render (sample_env (origin_chunk 1 0)) sample_globals
          { sample_args (BlockmapAttr.list (atlas_with 16 sample_texture)) with chunkx := 5 }
          sample_run).2.trace
        = [Event.render_mode_create, Event.get_chunk 5 0, Event.render_mode_destroy] := by
  refine ⟨rfl, ?_, ?_, ?_⟩
  · decide
  · decide
  · decide

/-- C2 (amended). Every draw call that `chunk_render` makes carries, for the texture found
in the block map for the cursor's block id and resolved data value, component 0 of the
texture as source image and again as alpha mask, and component 1 as light mask; no third
component is read, and the test `mask == Py_None` can only replace component 0 by itself. -/
theorem chunk_render_texture_triple (env : Env) (g : Globals) (args : RenderArgs) (r : Run) :
    ∃ new : List Event, (chunk_render env g args r).2.trace = r.trace ++ new
      ∧ ∀ (c : Cursor) (src mask mask_light : Option PyItem),
          Event.render_mode_draw c src mask mask_light ∈ new →
          ∃ (blockmap : List (Option PyObject)) (t : PyObject),
            args.blockmap = BlockmapAttr.list blockmap
            ∧ (lookup_texture g blockmap c.block (c.resolved env)).1 = some t
            ∧ t ≠ PyObject.None
            ∧ src = PyTuple_GetItem t 0 ∧ mask = PyTuple_GetItem t 0
            ∧ mask_light = PyTuple_GetItem t 1 := by
  cases hc : args.render_mode_created with
  | false =>
    refine ⟨_, (chunk_render_not_created env g args r hc).2, ?_⟩
    intro c s m l h
    simp at h
  | true =>
    rcases chunk_render_paths env g args r hc with
      ⟨_, _, htr⟩ | ⟨bm, ln, _, _, _, hln, htr⟩ | ⟨bm, ln, _, _, _, hln, htr⟩
        | ⟨bm, ln, loop, hb, _, _, hln, hloop, htr⟩
    · refine ⟨_, htr, ?_⟩
      intro c s m l h
      simp at h
    · refine ⟨_, htr, ?_⟩
      intro c s m l h
      simp only [List.mem_append, List.mem_singleton, List.mem_cons, List.not_mem_nil,
        or_false] at h
      rcases h with (h | h) | h
      · cases h
      · obtain ⟨a, b, hab⟩ := hln _ h
        cases hab
      · cases h
    · refine ⟨_, htr, ?_⟩
      intro c s m l h
      simp only [List.mem_append, List.mem_singleton, List.mem_cons, List.not_mem_nil,
        or_false] at h
      rcases h with (h | h) | h | h
      · cases h
      · obtain ⟨a, b, hab⟩ := hln _ h
        cases hab
      · cases h
      · cases h
    · refine ⟨_, htr, ?_⟩
      intro c s m l h
      simp only [List.mem_append, List.mem_singleton, List.mem_cons, List.not_mem_nil,
        or_false] at h
      rcases h with ((h | h) | h) | h | h
      · cases h
      · obtain ⟨a, b, hab⟩ := hln _ h
        cases hab
      · obtain ⟨t, h1, h2, h3, h4, h5⟩ := hloop _ h
        exact ⟨bm, t, hb, h1, h2, h3, h4, h5⟩
      · cases h
      · cases h

/-- C2 as stated fails: with an atlas entry `(source 1, alpha mask 2, light mask 3)` the
draw call of the small world is not made with the entry's triple `(1, 2, 3)`; it is made
with `(1, 1, 2)`. -/
theorem chunk_render_texture_triple_counterexample :
    ¬ (∀ (c : Cursor) (src mask mask_light : Option PyItem),
        Event.render_mode_draw c src mask mask_light
          ∈ (chunk_render (sample_env (origin_chunk 1 0)) sample_globals
              (sample_args (BlockmapAttr.list (atlas_with 16 sample_texture)))
              sample_run).2.trace →
        ∃ t : PyObject, some t ∈ atlas_with 16 sample_texture
          ∧ (src, mask, mask_light) = spec_texture_triple t) := by
  intro h
  obtain ⟨t, ht, heq⟩ := h
    { x := 0, y := 0, z := 0, imgx := 0, imgy := 270, block := 1, block_data := 0,
      block_pdata := 0 }
    (some (PyItem.Object 1)) (some (PyItem.Object 1)) (some (PyItem.Object 2))
    (by rw [small_world_trace]; decide)
  have ht2 : t = sample_texture := by
    unfold atlas_with at ht
    rw [List.mem_append, List.mem_singleton] at ht
    rcases ht with ht | ht
    · exact absurd (List.eq_of_mem_replicate ht) (by simp)
    · exact Option.some.inj ht
  subst ht2
  exact absurd heq (by decide)

/-! ## Jitter and texture lookup -/

/-- C9. The tall-grass jitter `dx = (r1 mod 6) + 1 - 3`, `dy = (r2 mod 6) + 1 - 3`, for the
next two values `r1`, `r2` of `rand()`, lies in `[-2, 3]` on each axis; the draw call of a
tall-grass voxel sees the anchor `(imgx + dx, imgy + dy)`, the draw call of any other kind
sees `(imgx, imgy)`, and after the draw step the anchor is `(imgx, imgy)` again. -/
theorem draw_texture_jitter (env : Env) (r : Run) (t : PyObject)
    (hx : in_int32 (r.state.imgx - 2) ∧ in_int32 (r.state.imgx + 3))
    (hy : in_int32 (r.state.imgy - 2) ∧ in_int32 (r.state.imgy + 3)) :
    (-2 ≤ Int.ofNat (env.rand r.rand_calls % 6) + 1 - 3
      ∧ Int.ofNat (env.rand r.rand_calls % 6) + 1 - 3 ≤ 3
      ∧ -2 ≤ Int.ofNat (env.rand (r.rand_calls + 1) % 6) + 1 - 3
      ∧ Int.ofNat (env.rand (r.rand_calls + 1) % 6) + 1 - 3 ≤ 3)
    ∧ (r.state.block = env.block_tallgrass →
        (draw_texture env r t).trace
          = r.trace ++ [Event.render_mode_draw
              { r.state.cursor with
                imgx := r.state.imgx + (Int.ofNat (env.rand r.rand_calls % 6) + 1 - 3),
                imgy := r.state.imgy + (Int.ofNat (env.rand (r.rand_calls + 1) % 6) + 1 - 3) }
              (PyTuple_GetItem t 0) (PyTuple_GetItem t 0) (PyTuple_GetItem t 1)])
    ∧ (r.state.block ≠ env.block_tallgrass →
        (draw_texture env r t).trace
          = r.trace ++ [Event.render_mode_draw r.state.cursor
              (PyTuple_GetItem t 0) (PyTuple_GetItem t 0) (PyTuple_GetItem t 1)])
    ∧ (draw_texture env r t).state.imgx = r.state.imgx
    ∧ (draw_texture env r t).state.imgy = r.state.imgy := by
  have hb1 : -2 ≤ Int.ofNat (env.rand r.rand_calls % 6) + 1 - 3
      ∧ Int.ofNat (env.rand r.rand_calls % 6) + 1 - 3 ≤ 3 := by
    simp only [Int.ofNat_eq_coe]
    omega
  have hb2 : -2 ≤ Int.ofNat (env.rand (r.rand_calls + 1) % 6) + 1 - 3
      ∧ Int.ofNat (env.rand (r.rand_calls + 1) % 6) + 1 - 3 ≤ 3 := by
    simp only [Int.ofNat_eq_coe]
    omega
  have hix : in_int32 r.state.imgx := by
    unfold in_int32 at *
    omega
  have hiy : in_int32 r.state.imgy := by
    unfold in_int32 at *
    omega
  have hwx : wrap32 (r.state.imgx + (Int.ofNat (env.rand r.rand_calls % 6) + 1 - 3))
      = r.state.imgx + (Int.ofNat (env.rand r.rand_calls % 6) + 1 - 3) := by
    apply wrap32_eq_self
    unfold in_int32 at *
    omega
  have hwy : wrap32 (r.state.imgy + (Int.ofNat (env.rand (r.rand_calls + 1) % 6) + 1 - 3))
      = r.state.imgy + (Int.ofNat (env.rand (r.rand_calls + 1) % 6) + 1 - 3) := by
    apply wrap32_eq_self
    unfold in_int32 at *
    omega
  have hmask : (if PyTuple_GetItem t 0 = some PyItem.None then PyTuple_GetItem t 0
      else PyTuple_GetItem t 0) = PyTuple_GetItem t 0 := by
    split_ifs <;> rfl
  have hst := draw_texture_state env r t hix hiy
  refine ⟨⟨hb1.1, hb1.2, hb2.1, hb2.2⟩, ?_, ?_, by rw [hst], by rw [hst]⟩
  · intro hk
    unfold draw_texture
    simp only [hmask, decide_eq_true hk, if_true, hwx, hwy]
    rfl
  · intro hk
    unfold draw_texture
    simp only [hmask, decide_eq_false hk, Bool.false_eq_true, if_false]

/-- C9 in the small world: `rand()` returns 5 and 10, so the tall-grass voxel at the anchor
`(0, 0)` is drawn at `(3, 2)`, and the anchor is `(0, 0)` afterwards. -/
theorem draw_texture_jitter_witness :
    (in_int32 ((sample_voxel_run 31 0).state.imgx - 2)
      ∧ in_int32 ((sample_voxel_run 31 0).state.imgx + 3))
    ∧ (draw_texture (sample_env (origin_chunk 31 0)) (sample_voxel_run 31 0)
          sample_texture).trace
        = [Event.render_mode_draw
            { x := 1, y := 1, z := 1, imgx := 3, imgy := 2, block := 31, block_data := 0,
              block_pdata := 0 }
            (some (PyItem.Object 1)) (some (PyItem.Object 1)) (some (PyItem.Object 2))]
    ∧ (draw_texture (sample_env (origin_chunk 31 0)) (sample_voxel_run 31 0)
          sample_texture).state.imgx = 0 :=
  ⟨by decide,
    ((draw_texture_jitter (sample_env (origin_chunk 31 0)) (sample_voxel_run 31 0)
      sample_texture (by decide) (by decide)).2.1 rfl).trans (by decide),
    (draw_texture_jitter (sample_env (origin_chunk 31 0)) (sample_voxel_run 31 0)
      sample_texture (by decide) (by decide)).2.2.2.1⟩

theorem draws_append (a b : List Event) : draws (a ++ b) = draws a ++ draws b := by
  unfold draws
  exact List.filter_append _ _

theorem draws_lookup (g : Globals) (bm : List (Option PyObject)) (b d : Nat) :
    draws (lookup_texture g bm b d).2 = [] := by
  unfold lookup_texture
  simp only []
  split_ifs <;> rfl

theorem draws_queried (env : Env) (g : Globals) (c : LoopCtx) (r : Run) :
    draws (queried env g c r).trace = draws r.trace := by
  unfold queried
  simp only [draws_append, draws_lookup, List.append_nil]
  exact List.append_nil _

theorem is_texture_some {t : PyObject} (h : t ≠ PyObject.None) : is_texture (some t) = true := by
  cases t with
  | None => exact absurd rfl h
  | Object _ => rfl
  | Tuple _ => rfl

/-- The index `max_data * block + data`, formed in 32 bits, is `block * max_data + data`
when the block map has at most `2^32` slots. -/
theorem atlas_index (g : Globals) (b d : Nat) (hb : b < g.max_blockid) (hd : d < g.max_data)
    (hsize : g.max_blockid * g.max_data ≤ 4294967296) :
    (g.max_data * b + d) % 4294967296 = b * g.max_data + d
    ∧ (g.max_data * b) % 4294967296 = b * g.max_data := by
  have h1 : (b + 1) * g.max_data ≤ g.max_blockid * g.max_data :=
    Nat.mul_le_mul_right _ hb
  rw [Nat.succ_mul] at h1
  rw [Nat.mul_comm g.max_data b]
  constructor
  · apply Nat.mod_eq_of_lt
    omega
  · apply Nat.mod_eq_of_lt
    omega

/-- A voxel that passes the checks ends in the lookup and, if a texture is found, the draw
step. -/
theorem render_voxel_checked (env : Env) (g : Globals) (c : LoopCtx) (r : Run)
    (hp : passes_checks env g c r) :
    render_voxel env g c r
      = match (lookup_texture g c.blockmap (voxel_block c r) (voxel_data env c r)).1 with
        | some PyObject.None => queried env g c r
        | some t => draw_texture env (queried env g c r) t
        | none => queried env g c r := by
  obtain ⟨h1, h2, h3, h4, h5, h6, h7⟩ := hp
  have hblock : (resolve_data env { r.state with block := voxel_block c r }).2.block
      = voxel_block c r := resolve_data_block env _
  unfold voxel_data at h7
  unfold voxel_block at h1 h2 h5 h6 h7 hblock
  have hrange : ¬ (getArrayShort3D c.blocks_py r.state.x r.state.y r.state.z ≥ g.max_blockid
      ∨ (resolve_data env { r.state with
            block := getArrayShort3D c.blocks_py r.state.x r.state.y r.state.z }).1
          ≥ g.max_data) := by
    omega
  unfold render_voxel queried voxel_data voxel_block
  simp only [Run.log, h1, h2, h3, h4, h5, hblock, hrange, if_false, Bool.false_eq_true,
    List.append_assoc, List.singleton_append]

/-- C8. For a voxel that passes the visibility, bounds, occlusion and range checks, with
block id `b` and resolved data `d`: if `atlas[b*max_data + d]` is present it is the texture
drawn; if it is absent or `None`, `d ≠ 0` and `atlas[b*max_data]` is present, that one is
drawn; if neither holds, no draw call is made. -/
theorem render_voxel_texture_lookup (env : Env) (g : Globals) (c : LoopCtx) (r : Run)
    (hp : passes_checks env g c r)
    (hsize : g.max_blockid * g.max_data ≤ 4294967296) :
    (∀ t : PyObject,
        PyList_GET_ITEM c.blockmap (voxel_block c r * g.max_data + voxel_data env c r) = some t →
        t ≠ PyObject.None →
        ∃ cur : Cursor, draws (render_voxel env g c r).trace
          = draws r.trace ++ [Event.render_mode_draw cur (PyTuple_GetItem t 0)
              (PyTuple_GetItem t 0) (PyTuple_GetItem t 1)])
    ∧ (∀ t : PyObject,
        is_texture (PyList_GET_ITEM c.blockmap
          (voxel_block c r * g.max_data + voxel_data env c r)) = false →
        voxel_data env c r ≠ 0 →
        PyList_GET_ITEM c.blockmap (voxel_block c r * g.max_data) = some t →
        t ≠ PyObject.None →
        ∃ cur : Cursor, draws (render_voxel env g c r).trace
          = draws r.trace ++ [Event.render_mode_draw cur (PyTuple_GetItem t 0)
              (PyTuple_GetItem t 0) (PyTuple_GetItem t 1)])
    ∧ (is_texture (PyList_GET_ITEM c.blockmap
          (voxel_block c r * g.max_data + voxel_data env c r)) = false →
        (voxel_data env c r = 0
          ∨ is_texture (PyList_GET_ITEM c.blockmap (voxel_block c r * g.max_data)) = false) →
        draws (render_voxel env g c r).trace = draws r.trace) := by
  have hidx := atlas_index g (voxel_block c r) (voxel_data env c r) hp.2.2.2.2.2.1
    hp.2.2.2.2.2.2 hsize
  have hdrawn : ∀ t : PyObject,
      (lookup_texture g c.blockmap (voxel_block c r) (voxel_data env c r)).1 = some t →
      t ≠ PyObject.None →
      ∃ cur : Cursor, draws (render_voxel env g c r).trace
        = draws r.trace ++ [Event.render_mode_draw cur (PyTuple_GetItem t 0)
            (PyTuple_GetItem t 0) (PyTuple_GetItem t 1)] := by
    intro t ht hne
    obtain ⟨cur, _, _, _, htr⟩ := draw_texture_trace env (queried env g c r) t
    refine ⟨cur, ?_⟩
    rw [render_voxel_checked env g c r hp, ht]
    cases t with
    | None => exact absurd rfl hne
    | Object h =>
      simp only []
      rw [htr, draws_append, draws_queried]
      rfl
    | Tuple items =>
      simp only []
      rw [htr, draws_append, draws_queried]
      rfl
  have hskipped : ∀ found : Option PyObject,
      (lookup_texture g c.blockmap (voxel_block c r) (voxel_data env c r)).1 = found →
      is_texture found = false →
      draws (render_voxel env g c r).trace = draws r.trace := by
    intro found hf hnt
    rw [render_voxel_checked env g c r hp, hf]
    cases found with
    | none => exact draws_queried env g c r
    | some t =>
      cases t with
      | None => exact draws_queried env g c r
      | Object h => exact absurd hnt (by simp [is_texture])
      | Tuple items => exact absurd hnt (by simp [is_texture])
  refine ⟨?_, ?_, ?_⟩
  · intro t ht hne
    apply hdrawn t _ hne
    unfold lookup_texture
    simp only [hidx.1, ht, is_texture_some hne, not_true_eq_false, false_and, if_false]
  · intro t hnt hd ht hne
    apply hdrawn t _ hne
    unfold lookup_texture
    simp only [hidx.1, hidx.2, hnt, Bool.false_eq_true, not_false_eq_true, ne_eq, hd,
      and_self, if_true, ht]
  · intro hnt hor
    rcases hor with hd | hn0
    · apply hskipped _ _ hnt
      unfold lookup_texture
      simp only [hidx.1, hidx.2, hd, ne_eq, not_true_eq_false, and_false, if_false,
        Nat.add_zero]
    · by_cases hd : voxel_data env c r = 0
      · apply hskipped _ _ hnt
        unfold lookup_texture
        simp only [hidx.1, hidx.2, hd, ne_eq, not_true_eq_false, and_false, if_false,
        Nat.add_zero]
      · apply hskipped _ _ hn0
        unfold lookup_texture
        simp only [hidx.1, hidx.2, hnt, Bool.false_eq_true, not_false_eq_true, ne_eq, hd,
          and_self, if_true]

/-- C8 in the small world: a stone voxel with data 3 has no entry at index `1*16 + 3`, the
entry at index `1*16` is used, and one draw call is made with it. -/
theorem render_voxel_texture_lookup_witness :
    passes_checks (sample_env (origin_chunk 1 3)) sample_globals (sample_ctx 16 1)
      (sample_voxel_run 1 3)
    ∧ sample_globals.max_blockid * sample_globals.max_data ≤ 4294967296
    ∧ voxel_data (sample_env (origin_chunk 1 3)) (sample_ctx 16 1) (sample_voxel_run 1 3) = 3
    ∧ ∃ cur : Cursor,
        draws (render_voxel (sample_env (origin_chunk 1 3)) sample_globals (sample_ctx 16 1)
          (sample_voxel_run 1 3)).trace
          = draws (sample_voxel_run 1 3).trace
            ++ [Event.render_mode_draw cur (PyTuple_GetItem sample_texture 0)
                  (PyTuple_GetItem sample_texture 0) (PyTuple_GetItem sample_texture 1)] :=
  ⟨by unfold passes_checks; decide, by decide, by decide,
    (render_voxel_texture_lookup (sample_env (origin_chunk 1 3)) sample_globals
      (sample_ctx 16 1) (sample_voxel_run 1 3) (by unfold passes_checks; decide)
      (by decide)).2.1 sample_texture (by decide) (by decide) (by decide) (by decide)⟩

/-! ## The chunk cache -/

theorem load_sections_keeps (env : Env) (secs : List PySection) :
    ∀ dest : ChunkData, (load_sections env dest secs).loaded = dest.loaded := by
  unfold load_sections
  induction secs with
  | nil => intro dest; rfl
  | cons sec secs ih =>
    intro dest
    rw [List.foldl_cons, ih]
    cases hY : sec.Y with
    | none => rfl
    | some ycoord =>
      simp only []
      split_ifs <;> rfl

/-- After `load_chunk` the cell is marked loaded, whatever the outcome. -/
theorem load_chunk_marks_loaded (env : Env) (r : Run) (x z : Int) (required : Bool) :
    ((load_chunk env r x z required).1.state.chunks (wrap32 (1 + x)) (wrap32 (1 + z))).loaded
      = true := by
  unfold load_chunk
  simp only [Run.log]
  by_cases h : (r.state.chunks (wrap32 (1 + x)) (wrap32 (1 + z))).loaded = true
  · simp only [h, if_true]
  · simp only [h, Bool.false_eq_true, if_false]
    split
    · simp [set_chunk]
    · split
      · simp [set_chunk]
      · simp [set_chunk]
      · simp [set_chunk, load_sections_keeps]

theorem load_chunk_of_loaded (env : Env) (r : Run) (x z : Int) (required : Bool)
    (h : (r.state.chunks (wrap32 (1 + x)) (wrap32 (1 + z))).loaded = true) :
    load_chunk env r x z required = (r, false) := by
  unfold load_chunk
  simp only [h, if_true]

theorem load_chunk_chunkx (env : Env) (r : Run) (x z : Int) (required : Bool) :
    (load_chunk env r x z required).1.state.chunkx = r.state.chunkx
    ∧ (load_chunk env r x z required).1.state.chunkz = r.state.chunkz := by
  unfold load_chunk
  simp only [Run.log]
  split_ifs
  all_goals first
    | exact ⟨rfl, rfl⟩
    | (split
       · exact ⟨rfl, rfl⟩
       · split <;> exact ⟨rfl, rfl⟩)

/-- C12. If the cell `(dx, dz)` is marked loaded, `load_chunk` returns false for either value
of `required`, leaves the run as it was (no call to the voxel source is appended, every cell
of the grid is unchanged); and a call that follows any earlier call for the same cell,
failed or not, finds the cell loaded and does the same. -/
theorem load_chunk_loaded (env : Env) (r : Run) (dx dz : Int) (required : Bool)
    (hx : -1 ≤ dx ∧ dx ≤ 1) (hz : -1 ≤ dz ∧ dz ≤ 1)
    (h : (r.state.chunks (1 + dx) (1 + dz)).loaded = true) :
    load_chunk env r dx dz required = (r, false)
    ∧ (load_chunk env r dx dz required).2 = false
    ∧ (load_chunk env r dx dz required).1.trace = r.trace
    ∧ (∀ i j : Int, (load_chunk env r dx dz required).1.state.chunks i j = r.state.chunks i j)
    ∧ ∀ earlier : Bool,
        load_chunk env (load_chunk env r dx dz earlier).1 dx dz required
          = ((load_chunk env r dx dz earlier).1, false) := by
  have hwx : wrap32 (1 + dx) = 1 + dx := by
    apply wrap32_eq_self
    unfold in_int32
    omega
  have hwz : wrap32 (1 + dz) = 1 + dz := by
    apply wrap32_eq_self
    unfold in_int32
    omega
  have h1 : load_chunk env r dx dz required = (r, false) :=
    load_chunk_of_loaded env r dx dz required (by rw [hwx, hwz]; exact h)
  refine ⟨h1, ?_, ?_, ?_, ?_⟩
  · rw [h1]
  · rw [h1]
  · intro i j
    rw [h1]
  · intro earlier
    exact load_chunk_of_loaded env _ dx dz required
      (load_chunk_marks_loaded env r dx dz earlier)

/-- C12 in the small world: the centre cell, loaded by a first call that failed (the voxel
source has no chunk `(5, 0)`), is not fetched again. -/
theorem load_chunk_loaded_witness :
    ((load_chunk (sample_env (origin_chunk 1 0))
        (before_load { sample_args BlockmapAttr.missing with chunkx := 5 } sample_run)
        0 0 false).1.state.chunks (1 + 0) (1 + 0)).loaded = true
    ∧ (load_chunk (sample_env (origin_chunk 1 0))
        (before_load { sample_args BlockmapAttr.missing with chunkx := 5 } sample_run)
        0 0 false).2 = true
    ∧ (load_chunk (sample_env (origin_chunk 1 0))
        (load_chunk (sample_env (origin_chunk 1 0))
          (before_load { sample_args BlockmapAttr.missing with chunkx := 5 } sample_run)
          0 0 false).1 0 0 true).2 = false
    ∧ (load_chunk (sample_env (origin_chunk 1 0))
        (load_chunk (sample_env (origin_chunk 1 0))
          (before_load { sample_args BlockmapAttr.missing with chunkx := 5 } sample_run)
          0 0 false).1 0 0 true).1.trace
        = [Event.render_mode_create, Event.get_chunk 5 0] :=
  ⟨rfl, rfl,
    (load_chunk_loaded (sample_env (origin_chunk 1 0))
      (load_chunk (sample_env (origin_chunk 1 0))
        (before_load { sample_args BlockmapAttr.missing with chunkx := 5 } sample_run)
        0 0 false).1 0 0 true (by decide) (by decide) rfl).2.1,
    ((load_chunk_loaded (sample_env (origin_chunk 1 0))
      (load_chunk (sample_env (origin_chunk 1 0))
        (before_load { sample_args BlockmapAttr.missing with chunkx := 5 } sample_run)
        0 0 false).1 0 0 true (by decide) (by decide) rfl).2.2.1).trans (by decide)⟩

/-- What C11 says of `required = false` holds: on an unloaded cell whose voxel source fails,
`load_chunk` reports the failure, leaves the cell loaded with every section array null and
no biome array, leaves no error raised, and leaves every other cell unchanged. With
`required = true` the failure is reported too, and the error is raised when the chunk is not
found or `Sections` is not a list. -/
theorem load_chunk_failure (env : Env) (r : Run) (dx dz : Int) (required : Bool)
    (hx : -1 ≤ dx ∧ dx ≤ 1) (hz : -1 ≤ dz ∧ dz ≤ 1)
    (h : (r.state.chunks (1 + dx) (1 + dz)).loaded = false)
    (hf : source_fails env (wrap32 (dx + r.state.chunkx)) (wrap32 (dz + r.state.chunkz))) :
    (load_chunk env r dx dz required).2 = true
    ∧ ((load_chunk env r dx dz required).1.state.chunks (1 + dx) (1 + dz)).loaded = true
    ∧ ((load_chunk env r dx dz required).1.state.chunks (1 + dx) (1 + dz)).biomes = none
    ∧ ((load_chunk env r dx dz required).1.state.chunks (1 + dx) (1 + dz)).sections
        = List.replicate env.SECTIONS_PER_CHUNK ChunkSection.null
    ∧ (∀ i j : Int, ¬ (i = 1 + dx ∧ j = 1 + dz) →
        (load_chunk env r dx dz required).1.state.chunks i j = r.state.chunks i j)
    ∧ (required = false → (load_chunk env r dx dz required).1.err = false)
    ∧ (required = true →
        (env.get_chunk (wrap32 (dx + r.state.chunkx)) (wrap32 (dz + r.state.chunkz)) = none
          ∨ ∃ chunk, env.get_chunk (wrap32 (dx + r.state.chunkx))
                (wrap32 (dz + r.state.chunkz)) = some chunk
              ∧ chunk.Sections = SectionsTag.not_a_list) →
        (load_chunk env r dx dz required).1.err = true) := by
  have hwx : wrap32 (1 + dx) = 1 + dx := by
    apply wrap32_eq_self
    unfold in_int32
    omega
  have hwz : wrap32 (1 + dz) = 1 + dz := by
    apply wrap32_eq_self
    unfold in_int32
    omega
  unfold source_fails at hf
  unfold load_chunk
  simp only [Run.log, hwx, hwz, h, Bool.false_eq_true, if_false]
  cases hg : env.get_chunk (wrap32 (dx + r.state.chunkx)) (wrap32 (dz + r.state.chunkz)) with
  | none =>
    simp only [set_chunk, and_self, if_true, true_and]
    refine ⟨?_, ?_, ?_⟩
    · intro i j hij
      simp only [hij, if_false]
    · intro hr
      simp only [hr, Bool.false_eq_true, if_false]
    · intro hr _
      simp only [hr, if_true]
  | some chunk =>
    rw [hg] at hf
    simp only [] at hf
    cases hs : chunk.Sections with
    | missing =>
      simp only [hs, set_chunk, and_self, if_true, true_and]
      refine ⟨?_, ?_, ?_⟩
      · intro i j hij
        simp only [hij, if_false]
      · intro hr
        simp only [hr, Bool.false_eq_true, if_false]
      · intro hr hcase
        rcases hcase with hc | ⟨c2, hc, hn⟩
        · cases hc
        · cases hc
          rw [hs] at hn
          cases hn
    | not_a_list =>
      simp only [hs, set_chunk, and_self, if_true, true_and]
      refine ⟨?_, ?_, ?_⟩
      · intro i j hij
        simp only [hij, if_false]
      · intro hr
        simp only [hr, Bool.false_eq_true, if_false]
      · intro hr _
        simp only [hr, if_true]
    | list secs =>
      rw [hs] at hf
      exact absurd hf (by simp)

/-- C11, the failing input: the cell is unloaded, no error is pending, the chunk has no
`Sections` entry and `required` is true. `load_chunk` reports the failure and leaves the
error indicator clear, and `chunk_render` then returns `NULL` with no error raised. -/
theorem load_chunk_sections_missing :
    (before_load (sample_args (BlockmapAttr.list [])) sample_run).err = false
    ∧ (load_chunk (sample_env chunk_without_sections)
        (before_load (sample_args (BlockmapAttr.list [])) sample_run) 0 0 true).2 = true
    ∧ (load_chunk (sample_env chunk_without_sections)
        (before_load (sample_args (BlockmapAttr.list [])) sample_run) 0 0 true).1.err = false
    ∧ (chunk_render (sample_env chunk_without_sections) sample_globals
        (sample_args (BlockmapAttr.list [])) sample_run).1 = PyResult.NULL
    ∧ (chunk_render (sample_env chunk_without_sections) sample_globals
        (sample_args (BlockmapAttr.list [])) sample_run).2.err = false := by
  refine ⟨rfl, rfl, rfl, ?_, ?_⟩
  · decide
  · decide

/-! ## The loop body, case by case -/

/-- A voxel that does not pass the checks: what the body appends, and that it raises
nothing and draws no random number. -/
theorem render_voxel_rejected (env : Env) (g : Globals) (c : LoopCtx) (r : Run)
    (hp : ¬ passes_checks env g c r) :
    (voxel_block c r = env.block_air
      ∧ (render_voxel env g c r).trace = r.trace
      ∧ (render_voxel env g c r).err = r.err
      ∧ (render_voxel env g c r).rand_calls = r.rand_calls)
    ∨ (voxel_block c r ≠ env.block_air
      ∧ (env.render_mode_hidden { r.state with block := voxel_block c r }
            r.state.x r.state.y r.state.z = true ∨ ¬ in_bounds c r)
      ∧ (render_voxel env g c r).trace
          = r.trace ++ [Event.render_mode_hidden (query_cursor c r)]
      ∧ (render_voxel env g c r).err = r.err
      ∧ (render_voxel env g c r).rand_calls = r.rand_calls)
    ∨ (voxel_block c r ≠ env.block_air
      ∧ env.render_mode_hidden { r.state with block := voxel_block c r }
            r.state.x r.state.y r.state.z = false
      ∧ in_bounds c r
      ∧ (env.render_mode_occluded { r.state with block := voxel_block c r }
            r.state.x r.state.y r.state.z = true
          ∨ voxel_block c r ≥ g.max_blockid ∨ voxel_data env c r ≥ g.max_data)
      ∧ (render_voxel env g c r).trace
          = r.trace ++ [Event.render_mode_hidden (query_cursor c r),
                        Event.render_mode_occluded (query_cursor c r)]
      ∧ (render_voxel env g c r).err = r.err
      ∧ (render_voxel env g c r).rand_calls = r.rand_calls) := by
  have hblock : (resolve_data env { r.state with block := voxel_block c r }).2.block
      = voxel_block c r := resolve_data_block env _
  unfold passes_checks at hp
  unfold in_bounds query_cursor
  unfold voxel_data voxel_block at *
  by_cases h1 : getArrayShort3D c.blocks_py r.state.x r.state.y r.state.z = env.block_air
  · left
    have hrv : render_voxel env g c r
        = { r with state := { r.state with
              block := getArrayShort3D c.blocks_py r.state.x r.state.y r.state.z } } := by
      unfold render_voxel
      simp only [h1, if_true]
    rw [hrv]
    exact ⟨h1, rfl, rfl, rfl⟩
  · right
    have hq : ∀ hid : Prop, hid →
        (render_voxel env g c r
          = { state := { r.state with
                block := getArrayShort3D c.blocks_py r.state.x r.state.y r.state.z },
              trace := r.trace ++ [Event.render_mode_hidden ({ r.state with
                block := getArrayShort3D c.blocks_py r.state.x r.state.y r.state.z }).cursor],
              rand_calls := r.rand_calls, err := r.err }) →
        (render_voxel env g c r).trace
            = r.trace ++ [Event.render_mode_hidden ({ r.state with
                block := getArrayShort3D c.blocks_py r.state.x r.state.y r.state.z }).cursor]
          ∧ (render_voxel env g c r).err = r.err
          ∧ (render_voxel env g c r).rand_calls = r.rand_calls := by
      intro _ _ hrv
      rw [hrv]
      exact ⟨rfl, rfl, rfl⟩
    cases h2 : env.render_mode_hidden
        { r.state with block := getArrayShort3D c.blocks_py r.state.x r.state.y r.state.z }
        r.state.x r.state.y r.state.z with
    | true =>
      left
      refine ⟨h1, Or.inl rfl, hq True trivial ?_⟩
      unfold render_voxel
      simp only [Run.log, h1, h2, if_true, if_false]
    | false =>
      by_cases h3 : (r.state.imgx ≥ wrap32 (c.imgsize0 + 24) ∨ r.state.imgx ≤ -24)
      · left
        refine ⟨h1, Or.inr (fun hh => hh.1 h3), hq True trivial ?_⟩
        unfold render_voxel
        simp only [Run.log, h1, h2, h3, if_true, if_false, Bool.false_eq_true]
      · by_cases h4 : (r.state.imgy ≥ wrap32 (c.imgsize1 + 24) ∨ r.state.imgy ≤ -24)
        · left
          refine ⟨h1, Or.inr (fun hh => hh.2 h4), hq True trivial ?_⟩
          unfold render_voxel
          simp only [Run.log, h1, h2, h3, h4, if_true, if_false, Bool.false_eq_true]
        · right
          cases h5 : env.render_mode_occluded
              { r.state with
                block := getArrayShort3D c.blocks_py r.state.x r.state.y r.state.z }
              r.state.x r.state.y r.state.z with
          | true =>
            have hrv : render_voxel env g c r
                = { state := { r.state with
                      block := getArrayShort3D c.blocks_py r.state.x r.state.y r.state.z },
                    trace := r.trace ++ [Event.render_mode_hidden ({ r.state with
                      block := getArrayShort3D c.blocks_py r.state.x r.state.y
                        r.state.z }).cursor] ++ [Event.render_mode_occluded ({ r.state with
                      block := getArrayShort3D c.blocks_py r.state.x r.state.y
                        r.state.z }).cursor],
                    rand_calls := r.rand_calls, err := r.err } := by
              unfold render_voxel
              simp only [Run.log, h1, h2, h3, h4, h5, if_true, if_false, Bool.false_eq_true]
            rw [hrv]
            refine ⟨h1, rfl, ⟨h3, h4⟩, Or.inl rfl, ?_, rfl, rfl⟩
            simp only [List.append_assoc, List.singleton_append]
          | false =>
            have hrange : getArrayShort3D c.blocks_py r.state.x r.state.y r.state.z
                  ≥ g.max_blockid
                ∨ (resolve_data env { r.state with
                    block := getArrayShort3D c.blocks_py r.state.x r.state.y r.state.z }).1
                  ≥ g.max_data := by
              by_contra hcon
              apply hp
              refine ⟨h1, h2, h3, h4, h5, ?_, ?_⟩ <;> omega
            have hrv : render_voxel env g c r
                = { state := (resolve_data env { r.state with
                      block := getArrayShort3D c.blocks_py r.state.x r.state.y r.state.z }).2,
                    trace := r.trace ++ [Event.render_mode_hidden ({ r.state with
                      block := getArrayShort3D c.blocks_py r.state.x r.state.y
                        r.state.z }).cursor] ++ [Event.render_mode_occluded ({ r.state with
                      block := getArrayShort3D c.blocks_py r.state.x r.state.y
                        r.state.z }).cursor],
                    rand_calls := r.rand_calls, err := r.err } := by
              unfold render_voxel
              simp only [Run.log, h1, h2, h3, h4, h5, hblock, hrange, if_true, if_false,
                Bool.false_eq_true]
            rw [hrv]
            refine ⟨h1, rfl, ⟨h3, h4⟩, Or.inr hrange, ?_, rfl, rfl⟩
            simp only [List.append_assoc, List.singleton_append]

theorem queried_trace (env : Env) (g : Globals) (c : LoopCtx) (r : Run) :
    (queried env g c r).trace
      = r.trace ++ ([Event.render_mode_hidden (query_cursor c r),
                      Event.render_mode_occluded (query_cursor c r)]
          ++ (lookup_texture g c.blockmap (voxel_block c r) (voxel_data env c r)).2) := by
  unfold queried query_cursor
  simp only [List.append_assoc]

/-- A voxel that passes the checks: the two queries and the reads are appended, and then
either nothing more or the draw step for the texture found. -/
theorem render_voxel_passed (env : Env) (g : Globals) (c : LoopCtx) (r : Run)
    (hp : passes_checks env g c r) :
    render_voxel env g c r = queried env g c r
    ∨ ∃ t : PyObject, t ≠ PyObject.None
        ∧ (lookup_texture g c.blockmap (voxel_block c r) (voxel_data env c r)).1 = some t
        ∧ render_voxel env g c r = draw_texture env (queried env g c r) t := by
  rw [render_voxel_checked env g c r hp]
  cases hf : (lookup_texture g c.blockmap (voxel_block c r) (voxel_data env c r)).1 with
  | none => exact Or.inl rfl
  | some t =>
    cases t with
    | None => exact Or.inl rfl
    | Object h => exact Or.inr ⟨_, by simp, rfl, rfl⟩
    | Tuple items => exact Or.inr ⟨_, by simp, rfl, rfl⟩

/-- The block map is read below `max_blockid * max_data` when the range check passed. -/
theorem lookup_texture_index (g : Globals) (bm : List (Option PyObject)) (b d : Nat)
    (hb : b < g.max_blockid) (hd : d < g.max_data) :
    ∀ e ∈ (lookup_texture g bm b d).2,
      ∃ i : Nat, e = Event.atlas_read i ∧ i < g.max_blockid * g.max_data := by
  have h1 : (b + 1) * g.max_data ≤ g.max_blockid * g.max_data :=
    Nat.mul_le_mul_right _ hb
  rw [Nat.succ_mul] at h1
  have hi : (g.max_data * b + d) % 4294967296 < g.max_blockid * g.max_data := by
    have := Nat.mod_le (g.max_data * b + d) 4294967296
    rw [Nat.mul_comm g.max_data b] at *
    omega
  have hj : (g.max_data * b) % 4294967296 < g.max_blockid * g.max_data := by
    have := Nat.mod_le (g.max_data * b) 4294967296
    rw [Nat.mul_comm g.max_data b] at *
    omega
  intro e he
  unfold lookup_texture at he
  simp only [] at he
  split_ifs at he
  · simp only [List.mem_cons, List.mem_singleton, List.not_mem_nil, or_false] at he
    rcases he with rfl | rfl
    · exact ⟨_, rfl, hi⟩
    · exact ⟨_, rfl, hj⟩
  · simp only [List.mem_cons, List.mem_singleton, List.not_mem_nil, or_false] at he
    rcases he with rfl
    exact ⟨_, rfl, hi⟩

/-- The pixel loop appends only events of a kind that the loop body appends. -/
theorem pixel_loop_new_of (env : Env) (g : Globals) (c : LoopCtx) (xoff yoff : Int)
    (Q : Event → Prop)
    (hQ : ∀ r : Run, ∃ new : List Event,
      (render_voxel env g c r).trace = r.trace ++ new ∧ ∀ e ∈ new, Q e) (r : Run) :
    ∃ new : List Event, (pixel_loop env g c xoff yoff r).trace = r.trace ++ new
      ∧ ∀ e ∈ new, Q e := by
  have hy : ∀ (r : Run) (y : Nat), ∃ new : List Event,
      (y_iteration env g c r y).trace = r.trace ++ new ∧ ∀ e ∈ new, Q e := by
    intro r y
    unfold y_iteration
    exact hQ _
  have hz : ∀ (r : Run) (z : Nat), ∃ new : List Event,
      (z_iteration env g c xoff yoff r z).trace = r.trace ++ new ∧ ∀ e ∈ new, Q e := by
    intro r z
    unfold z_iteration
    exact foldl_new Q (y_iteration env g c) hy (List.range 16) _
  have hx : ∀ (r : Run) (x : Nat), ∃ new : List Event,
      (x_iteration env g c xoff yoff r x).trace = r.trace ++ new ∧ ∀ e ∈ new, Q e := by
    intro r x
    unfold x_iteration
    exact foldl_new Q (z_iteration env g c xoff yoff) hz (List.range 16) _
  unfold pixel_loop
  exact foldl_new Q (x_iteration env g c xoff yoff) hx _ r

/-- Every call of `chunk_render` appends the creation and destruction of the render mode,
`unload_all_chunks`, calls to the voxel source, and events of a kind that the loop body
appends. -/
theorem chunk_render_new_of (env : Env) (g : Globals) (args : RenderArgs) (Q : Event → Prop)
    (hQ : ∀ (blockmap : List (Option PyObject)) (blocks_py : NDArray) (r : Run),
      ∃ new : List Event,
        (render_voxel env g (loop_ctx args blockmap blocks_py) r).trace = r.trace ++ new
        ∧ ∀ e ∈ new, Q e) (r : Run) :
    ∃ new : List Event, (chunk_render env g args r).2.trace = r.trace ++ new
      ∧ ∀ e ∈ new, e = Event.render_mode_create ∨ e = Event.render_mode_destroy
          ∨ e = Event.unload_all_chunks ∨ (∃ a b : Int, e = Event.get_chunk a b) ∨ Q e := by
  obtain ⟨ln, hln, hget⟩ := load_chunk_new env (before_load args r) 0 0 true
  rw [before_load_trace] at hln
  have hfixed : ∀ (tail : List Event),
      (∀ e ∈ tail, e = Event.render_mode_destroy ∨ e = Event.unload_all_chunks) →
      ∀ e ∈ [Event.render_mode_create] ++ ln ++ tail,
        e = Event.render_mode_create ∨ e = Event.render_mode_destroy
          ∨ e = Event.unload_all_chunks ∨ (∃ a b : Int, e = Event.get_chunk a b) ∨ Q e := by
    intro tail htail e he
    simp only [List.mem_append, List.mem_singleton] at he
    rcases he with (he | he) | he
    · exact Or.inl he
    · exact Or.inr (Or.inr (Or.inr (Or.inl (hget e he))))
    · rcases htail e he with h | h
      · exact Or.inr (Or.inl h)
      · exact Or.inr (Or.inr (Or.inl h))
  cases hc : args.render_mode_created with
  | false =>
    refine ⟨_, (chunk_render_not_created env g args r hc).2, ?_⟩
    intro e he
    rw [List.mem_singleton] at he
    exact Or.inl he
  | true =>
    cases hb : args.blockmap with
    | missing =>
      refine ⟨_, (chunk_render_missing env g args r hc hb).2, ?_⟩
      intro e he
      simp only [List.mem_cons, List.mem_singleton, List.not_mem_nil, or_false] at he
      rcases he with h | h
      · exact Or.inl h
      · exact Or.inr (Or.inl h)
    | None =>
      refine ⟨_, (chunk_render_none env g args r hc hb).2, ?_⟩
      intro e he
      simp only [List.mem_cons, List.mem_singleton, List.not_mem_nil, or_false] at he
      rcases he with h | h
      · exact Or.inl h
      · exact Or.inr (Or.inl h)
    | list blockmap =>
      cases hl : (load_chunk env (before_load args r) 0 0 true).2 with
      | true =>
        have h := chunk_render_load_failed env g args r blockmap hc hb hl
        refine ⟨[Event.render_mode_create] ++ ln ++ [Event.render_mode_destroy], ?_, ?_⟩
        · rw [h.2, hln]
          simp only [List.append_assoc]
        · apply hfixed
          intro e he
          rw [List.mem_singleton] at he
          exact Or.inl he
      | false =>
        cases hs : (section_at
            ((load_chunk env (before_load args r) 0 0 true).1.state.chunks 1 1)
            (load_chunk env (before_load args r) 0 0 true).1.state.chunky).blocks with
        | none =>
          have h := chunk_render_absent env g args r blockmap hc hb hl hs
          refine ⟨[Event.render_mode_create] ++ ln
            ++ [Event.render_mode_destroy, Event.unload_all_chunks], ?_, ?_⟩
          · rw [h.2, hln]
            simp only [List.append_assoc]
          · apply hfixed
            intro e he
            simp only [List.mem_cons, List.mem_singleton, List.not_mem_nil, or_false] at he
            exact he
        | some blocks_py =>
          have h := chunk_render_rendered env g args r blockmap blocks_py hc hb hl hs
          obtain ⟨loop, hloop, hev⟩ := pixel_loop_new_of env g
            (loop_ctx args blockmap blocks_py) args.xoff args.yoff Q (hQ blockmap blocks_py)
            (loop_entry (load_chunk env (before_load args r) 0 0 true).1 blocks_py)
          have he : (loop_entry (load_chunk env (before_load args r) 0 0 true).1
              blocks_py).trace = (load_chunk env (before_load args r) 0 0 true).1.trace := rfl
          refine ⟨[Event.render_mode_create] ++ ln ++ loop
            ++ [Event.render_mode_destroy, Event.unload_all_chunks], ?_, ?_⟩
          · rw [h, unload_log_trace, hloop, he, hln]
            simp only [List.append_assoc]
          · intro e hmem
            rw [List.mem_append, List.mem_append] at hmem
            rcases hmem with (hmem | hmem) | hmem
            · exact hfixed [] (fun _ hn => absurd hn (List.not_mem_nil _)) e
                (by rw [List.append_nil]; exact hmem)
            · exact Or.inr (Or.inr (Or.inr (Or.inr (hev e hmem))))
            · simp only [List.mem_cons, List.mem_singleton, List.not_mem_nil, or_false]
                at hmem
              rcases hmem with h1 | h1
              · exact Or.inr (Or.inl h1)
              · exact Or.inr (Or.inr (Or.inl h1))

/-! ## The range check (lines 449-452) -/

/-- Every read of the block map that the loop body makes is below
`max_blockid * max_data`. -/
theorem render_voxel_reads (env : Env) (g : Globals) (c : LoopCtx) (r : Run) :
    ∃ new : List Event, (render_voxel env g c r).trace = r.trace ++ new
      ∧ ∀ e ∈ new, ∀ i : Nat, e = Event.atlas_read i → i < g.max_blockid * g.max_data := by
  by_cases hp : passes_checks env g c r
  · have hidx := lookup_texture_index g c.blockmap (voxel_block c r) (voxel_data env c r)
      hp.2.2.2.2.2.1 hp.2.2.2.2.2.2
    have hq : ∀ e ∈ [Event.render_mode_hidden (query_cursor c r),
        Event.render_mode_occluded (query_cursor c r)]
          ++ (lookup_texture g c.blockmap (voxel_block c r) (voxel_data env c r)).2,
        ∀ i : Nat, e = Event.atlas_read i → i < g.max_blockid * g.max_data := by
      intro e he i hi
      rw [List.mem_append] at he
      rcases he with he | he
      · simp only [List.mem_cons, List.mem_singleton, List.not_mem_nil, or_false] at he
        rcases he with h | h <;> rw [h] at hi <;> cases hi
      · obtain ⟨j, hj, hlt⟩ := hidx e he
        rw [hj] at hi
        cases hi
        exact hlt
    rcases render_voxel_passed env g c r hp with h | ⟨t, _, _, h⟩
    · exact ⟨_, by rw [h, queried_trace], hq⟩
    · obtain ⟨cur, _, _, _, htr⟩ := draw_texture_trace env (queried env g c r) t
      refine ⟨_, by rw [h, htr, queried_trace, List.append_assoc], ?_⟩
      intro e he i hi
      rw [List.mem_append] at he
      rcases he with he | he
      · exact hq e he i hi
      · rw [List.mem_singleton] at he
        rw [he] at hi
        cases hi
  · rcases render_voxel_rejected env g c r hp with ⟨_, h, _⟩ | ⟨_, _, h, _⟩
        | ⟨_, _, _, _, h, _⟩
    · exact ⟨[], by rw [h, List.append_nil], fun e he => absurd he (List.not_mem_nil e)⟩
    · refine ⟨_, h, ?_⟩
      intro e he i hi
      rw [List.mem_singleton] at he
      rw [he] at hi
      cases hi
    · refine ⟨_, h, ?_⟩
      intro e he i hi
      simp only [List.mem_cons, List.mem_singleton, List.not_mem_nil, or_false] at he
      rcases he with h | h <;> rw [h] at hi <;> cases hi

/-- C14. A voxel whose block id is at least `max_blockid`, or whose resolved data value is at
least `max_data`, is skipped by the loop body: what the body appends to the trace are queries
of the render mode only (no read of the block map, no draw), no error is raised and no
random number is drawn. And every index at which a call of `chunk_render` reads the block
map, the fallback read at data 0 included, is below `max_blockid * max_data`. -/
theorem chunk_render_range_check (env : Env) (g : Globals) :
    (∀ (c : LoopCtx) (r : Run),
      (voxel_block c r ≥ g.max_blockid ∨ voxel_data env c r ≥ g.max_data) →
      ∃ new : List Event, (render_voxel env g c r).trace = r.trace ++ new
        ∧ (∀ e ∈ new, (∃ q : Cursor, e = Event.render_mode_hidden q)
            ∨ (∃ q : Cursor, e = Event.render_mode_occluded q))
        ∧ (render_voxel env g c r).err = r.err
        ∧ (render_voxel env g c r).rand_calls = r.rand_calls)
    ∧ (∀ (args : RenderArgs) (r : Run),
      ∃ new : List Event, (chunk_render env g args r).2.trace = r.trace ++ new
        ∧ ∀ i : Nat, Event.atlas_read i ∈ new → i < g.max_blockid * g.max_data) := by
  constructor
  · intro c r hr
    have hp : ¬ passes_checks env g c r := by
      intro hp
      have h1 := hp.2.2.2.2.2.1
      have h2 := hp.2.2.2.2.2.2
      omega
    rcases render_voxel_rejected env g c r hp with ⟨_, h, he, hn⟩ | ⟨_, _, h, he, hn⟩
        | ⟨_, _, _, _, h, he, hn⟩
    · exact ⟨[], by rw [h, List.append_nil], fun e he => absurd he (List.not_mem_nil e),
        he, hn⟩
    · refine ⟨_, h, ?_, he, hn⟩
      intro e hmem
      rw [List.mem_singleton] at hmem
      exact Or.inl ⟨_, hmem⟩
    · refine ⟨_, h, ?_, he, hn⟩
      intro e hmem
      simp only [List.mem_cons, List.mem_singleton, List.not_mem_nil, or_false] at hmem
      rcases hmem with h | h
      · exact Or.inl ⟨_, h⟩
      · exact Or.inr ⟨_, h⟩
  · intro args r
    obtain ⟨new, hnew, hev⟩ := chunk_render_new_of env g args
      (fun e => ∀ i : Nat, e = Event.atlas_read i → i < g.max_blockid * g.max_data)
      (fun blockmap blocks_py r =>
        render_voxel_reads env g (loop_ctx args blockmap blocks_py) r) r
    refine ⟨new, hnew, ?_⟩
    intro i hi
    rcases hev _ hi with h | h | h | ⟨a, b, h⟩ | h
    · cases h
    · cases h
    · cases h
    · cases h
    · exact h i rfl

/-- C14 in the small world: the voxel holds block id 300, beyond the 256 ids of the block
map; the body asks the render mode twice and does nothing else, although the block map has an
entry at index `300 * 16`. -/
theorem chunk_render_range_check_witness :
    (voxel_block (sample_ctx 4800 300) (sample_voxel_run 300 0) ≥ sample_globals.max_blockid
      ∨ voxel_data (sample_env (origin_chunk 1 0)) (sample_ctx 4800 300)
          (sample_voxel_run 300 0) ≥ sample_globals.max_data)
    ∧ ∃ new : List Event,
        (render_voxel (sample_env (origin_chunk 1 0)) sample_globals (sample_ctx 4800 300)
          (sample_voxel_run 300 0)).trace = (sample_voxel_run 300 0).trace ++ new
        ∧ (∀ e ∈ new, (∃ q : Cursor, e = Event.render_mode_hidden q)
            ∨ (∃ q : Cursor, e = Event.render_mode_occluded q))
        ∧ (render_voxel (sample_env (origin_chunk 1 0)) sample_globals (sample_ctx 4800 300)
            (sample_voxel_run 300 0)).err = (sample_voxel_run 300 0).err
        ∧ (render_voxel (sample_env (origin_chunk 1 0)) sample_globals (sample_ctx 4800 300)
            (sample_voxel_run 300 0)).rand_calls = (sample_voxel_run 300 0).rand_calls :=
  ⟨Or.inl (by decide),
    (chunk_render_range_check (sample_env (origin_chunk 1 0)) sample_globals).1
      (sample_ctx 4800 300) (sample_voxel_run 300 0) (Or.inl (by decide))⟩

/-! ## The bounds test (lines 420-427) -/

/-- C20. Let the image be `W` x `H` with `W + 24` and `H + 24` signed 32-bit values. A voxel
whose anchor has `imgx <= -24`, `imgx >= W + 24`, `imgy <= -24` or `imgy >= H + 24` is passed
neither to the occlusion predicate nor to the draw step: the body appends at most the query
of the hidden predicate. A voxel that is not air and not hidden, with the anchor strictly
inside those limits, is not rejected by the bounds test: the body goes on to ask the
occlusion predicate. -/
theorem render_voxel_bounds (env : Env) (g : Globals) (c : LoopCtx) (r : Run)
    (hW : in_int32 (c.imgsize0 + 24)) (hH : in_int32 (c.imgsize1 + 24)) :
    ((r.state.imgx ≤ -24 ∨ r.state.imgx ≥ c.imgsize0 + 24
        ∨ r.state.imgy ≤ -24 ∨ r.state.imgy ≥ c.imgsize1 + 24) →
      (render_voxel env g c r).trace = r.trace
      ∨ (render_voxel env g c r).trace
          = r.trace ++ [Event.render_mode_hidden (query_cursor c r)])
    ∧ (voxel_block c r ≠ env.block_air →
        env.render_mode_hidden { r.state with block := voxel_block c r }
          r.state.x r.state.y r.state.z = false →
        -24 < r.state.imgx → r.state.imgx < c.imgsize0 + 24 →
        -24 < r.state.imgy → r.state.imgy < c.imgsize1 + 24 →
        ∃ rest : List Event, (render_voxel env g c r).trace
          = r.trace ++ [Event.render_mode_hidden (query_cursor c r),
                        Event.render_mode_occluded (query_cursor c r)] ++ rest) := by
  have hw : wrap32 (c.imgsize0 + 24) = c.imgsize0 + 24 := wrap32_eq_self hW
  have hh : wrap32 (c.imgsize1 + 24) = c.imgsize1 + 24 := wrap32_eq_self hH
  constructor
  · intro hout
    have hnb : ¬ in_bounds c r := by
      unfold in_bounds
      rw [hw, hh]
      omega
    have hp : ¬ passes_checks env g c r := by
      intro hp
      exact hnb ⟨hp.2.2.1, hp.2.2.2.1⟩
    rcases render_voxel_rejected env g c r hp with ⟨_, h, _⟩ | ⟨_, _, h, _⟩
        | ⟨_, _, hb, _⟩
    · exact Or.inl h
    · exact Or.inr h
    · exact absurd hb hnb
  · intro hair hhid h1 h2 h3 h4
    have hb : in_bounds c r := by
      unfold in_bounds
      rw [hw, hh]
      omega
    by_cases hp : passes_checks env g c r
    · rcases render_voxel_passed env g c r hp with h | ⟨t, _, _, h⟩
      · exact ⟨(lookup_texture g c.blockmap (voxel_block c r) (voxel_data env c r)).2,
          by rw [h, queried_trace, List.append_assoc]⟩
      · obtain ⟨cur, _, _, _, htr⟩ := draw_texture_trace env (queried env g c r) t
        exact ⟨(lookup_texture g c.blockmap (voxel_block c r) (voxel_data env c r)).2
            ++ [Event.render_mode_draw cur (PyTuple_GetItem t 0) (PyTuple_GetItem t 0)
                  (PyTuple_GetItem t 1)],
          by rw [h, htr, queried_trace]; simp only [List.append_assoc]⟩
    · rcases render_voxel_rejected env g c r hp with ⟨ha, _⟩ | ⟨_, hor, _⟩
          | ⟨_, _, _, _, h, _⟩
      · exact absurd ha hair
      · rcases hor with hor | hor
        · rw [hhid] at hor
          cases hor
        · exact absurd hb hor
      · exact ⟨[], by rw [h, List.append_nil]⟩

/-- C20 in the small world, a 384 x 1000 image: the stone voxel at the anchor `(-24, 0)` is
shown to the hidden predicate only, and the one at `(-23, 0)` is shown to the occlusion
predicate as well. -/
theorem render_voxel_bounds_witness :
    in_int32 ((sample_ctx 16 1).imgsize0 + 24) ∧ in_int32 ((sample_ctx 16 1).imgsize1 + 24)
    ∧ ((render_voxel (sample_env (origin_chunk 1 0)) sample_globals (sample_ctx 16 1)
          (at_voxel (sample_voxel_run 1 0) 1 1 1 (-24) 0)).trace
        = (at_voxel (sample_voxel_run 1 0) 1 1 1 (-24) 0).trace
      ∨ (render_voxel (sample_env (origin_chunk 1 0)) sample_globals (sample_ctx 16 1)
          (at_voxel (sample_voxel_run 1 0) 1 1 1 (-24) 0)).trace
        = (at_voxel (sample_voxel_run 1 0) 1 1 1 (-24) 0).trace
          ++ [Event.render_mode_hidden
                (query_cursor (sample_ctx 16 1)
                  (at_voxel (sample_voxel_run 1 0) 1 1 1 (-24) 0))])
    ∧ ∃ rest : List Event,
        (render_voxel (sample_env (origin_chunk 1 0)) sample_globals (sample_ctx 16 1)
          (at_voxel (sample_voxel_run 1 0) 1 1 1 (-23) 0)).trace
        = (at_voxel (sample_voxel_run 1 0) 1 1 1 (-23) 0).trace
          ++ [Event.render_mode_hidden
                (query_cursor (sample_ctx 16 1)
                  (at_voxel (sample_voxel_run 1 0) 1 1 1 (-23) 0)),
              Event.render_mode_occluded
                (query_cursor (sample_ctx 16 1)
                  (at_voxel (sample_voxel_run 1 0) 1 1 1 (-23) 0))] ++ rest :=
  ⟨by decide, by decide,
    (render_voxel_bounds (sample_env (origin_chunk 1 0)) sample_globals (sample_ctx 16 1)
      (at_voxel (sample_voxel_run 1 0) 1 1 1 (-24) 0) (by decide) (by decide)).1
      (Or.inl (by decide)),
    (render_voxel_bounds (sample_env (origin_chunk 1 0)) sample_globals (sample_ctx 16 1)
      (at_voxel (sample_voxel_run 1 0) 1 1 1 (-23) 0) (by decide) (by decide)).2
      (by decide) (by decide) (by decide) (by decide) (by decide) (by decide)⟩

/-! ## A section that is absent (lines 374-386) -/

theorem load_chunk_ok_err (env : Env) (r : Run) (x z : Int) (required : Bool)
    (h : (load_chunk env r x z required).2 = false) :
    (load_chunk env r x z required).1.err = r.err := by
  unfold load_chunk at h ⊢
  simp only [Run.log] at h ⊢
  by_cases hd : (r.state.chunks (wrap32 (1 + x)) (wrap32 (1 + z))).loaded = true
  · simp only [hd, if_true]
  · simp only [hd, Bool.false_eq_true, if_false] at h ⊢
    cases hg : env.get_chunk (wrap32 (x + r.state.chunkx)) (wrap32 (z + r.state.chunkz)) with
    | none =>
      rw [hg] at h
      cases h
    | some chunk =>
      rw [hg] at h
      cases hsec : chunk.Sections with
      | missing =>
        simp only [hsec] at h
        cases h
      | not_a_list =>
        simp only [hsec] at h
        cases h
      | list secs => simp only [hsec]

/-- C18. If the render mode was created, the block map is a list, the centre chunk loads and
its cell has no block array for the section `chunky`, then `chunk_render` returns `None`; it
creates the render mode, calls the voxel source, destroys the render mode and unloads the
chunks, and nothing else: no voxel is shown to the hidden or the occlusion predicate, no
draw step runs, and the error state is as it was. -/
theorem chunk_render_section_absent (env : Env) (g : Globals) (args : RenderArgs) (r : Run)
    (blockmap : List (Option PyObject))
    (hc : args.render_mode_created = true) (hb : args.blockmap = BlockmapAttr.list blockmap)
    (hl : (load_chunk env (before_load args r) 0 0 true).2 = false)
    (hs : (section_at ((load_chunk env (before_load args r) 0 0 true).1.state.chunks 1 1)
            (load_chunk env (before_load args r) 0 0 true).1.state.chunky).blocks = none) :
    (chunk_render env g args r).1 = PyResult.None
    ∧ (chunk_render env g args r).2.err = r.err
    ∧ ∃ ln : List Event,
        (chunk_render env g args r).2.trace
          = r.trace ++ [Event.render_mode_create] ++ ln
              ++ [Event.render_mode_destroy, Event.unload_all_chunks]
        ∧ (∀ e ∈ ln, ∃ a b : Int, e = Event.get_chunk a b)
        ∧ draws (chunk_render env g args r).2.trace = draws r.trace
        ∧ ∀ e ∈ [Event.render_mode_create] ++ ln
              ++ [Event.render_mode_destroy, Event.unload_all_chunks],
            ∀ q : Cursor, e ≠ Event.render_mode_hidden q
              ∧ e ≠ Event.render_mode_occluded q := by
  have h : chunk_render env g args r
      = (PyResult.None,
          unload_all_chunks
            ((load_chunk env (before_load args r) 0 0 true).1.log Event.render_mode_destroy)) := by
    unfold chunk_render
    simp only [hc, hb, not_true_eq_false, if_false]
    change (if (load_chunk env (before_load args r) 0 0 true).2 = true then _ else _) = _
    simp only [hl, Bool.false_eq_true, if_false]
    change (match (section_at
              ((load_chunk env (before_load args r) 0 0 true).1.state.chunks 1 1)
              (load_chunk env (before_load args r) 0 0 true).1.state.chunky).blocks with
      | none => _
      | some blocks_py => _) = _
    rw [hs]
    rfl
  obtain ⟨ln, hln, hget⟩ := load_chunk_new env (before_load args r) 0 0 true
  rw [before_load_trace] at hln
  have herr : (chunk_render env g args r).2.err = r.err := by
    rw [h]
    exact load_chunk_ok_err env (before_load args r) 0 0 true hl
  have htr : (chunk_render env g args r).2.trace
      = r.trace ++ [Event.render_mode_create] ++ ln
          ++ [Event.render_mode_destroy, Event.unload_all_chunks] := by
    rw [(chunk_render_absent env g args r blockmap hc hb hl hs).2, hln]
  have hdr : draws ln = [] := by
    unfold draws
    rw [List.filter_eq_nil_iff]
    intro e he
    obtain ⟨a, b, hab⟩ := hget e he
    rw [hab]
    simp
  refine ⟨by rw [h], herr, ln, htr, hget, ?_, ?_⟩
  · rw [htr, draws_append, draws_append, draws_append, hdr]
    simp [draws]
  · intro e he q
    simp only [List.mem_append, List.mem_cons, List.mem_singleton, List.not_mem_nil,
      or_false] at he
    rcases he with (he | he) | he | he
    · rw [he]; exact ⟨by simp, by simp⟩
    · obtain ⟨a, b, hab⟩ := hget e he
      rw [hab]; exact ⟨by simp, by simp⟩
    · rw [he]; exact ⟨by simp, by simp⟩
    · rw [he]; exact ⟨by simp, by simp⟩

/-- C18 in the small world: the chunk `(0, 0)` has the section 0 only, and the call asks for
the section 3. -/
theorem chunk_render_section_absent_witness :
    (chunk_render (sample_env (origin_chunk 1 0)) sample_globals
        { sample_args (BlockmapAttr.list (atlas_with 16 sample_texture)) with chunky := 3 }
        sample_run).1 = PyResult.None
    ∧ (chunk_render (sample_env (origin_chunk 1 0)) sample_globals
        { sample_args (BlockmapAttr.list (atlas_with 16 sample_texture)) with chunky := 3 }
        sample_run).2.err = sample_run.err
    ∧ ∃ ln : List Event,
        (chunk_render (sample_env (origin_chunk 1 0)) sample_globals
          { sample_args (BlockmapAttr.list (atlas_with 16 sample_texture)) with chunky := 3 }
          sample_run).2.trace
          = sample_run.trace ++ [Event.render_mode_create] ++ ln
              ++ [Event.render_mode_destroy, Event.unload_all_chunks] :=
  (chunk_render_section_absent (sample_env (origin_chunk 1 0)) sample_globals
    { sample_args (BlockmapAttr.list (atlas_with 16 sample_texture)) with chunky := 3 }
    sample_run (atlas_with 16 sample_texture) rfl rfl (by decide) rfl).imp
    (fun h => h) (fun h => h.imp (fun h => h) (fun ⟨ln, h, _⟩ => ⟨ln, h⟩))

/-! ## The order of the traversal (lines 396-408) -/

theorem foldl_bind_runs {α β : Type} (f : Run → β → Run) (k : α → List β) :
    ∀ (l : List α) (r : Run),
      (l.flatMap k).foldl f r = l.foldl (fun (r : Run) (a : α) => (k a).foldl f r) r := by
  intro l
  induction l with
  | nil => intro r; rfl
  | cons a l ih =>
    intro r
    rw [List.flatMap_cons, List.foldl_append, List.foldl_cons, ih]

/-- The pixel loop is the loop body folded over `traversal`. -/
theorem pixel_loop_traversal (env : Env) (g : Globals) (c : LoopCtx) (xoff yoff : Int)
    (r : Run) :
    pixel_loop env g c xoff yoff r = traversal.foldl (visit env g c xoff yoff) r := by
  rw [pixel_loop_steps]
  unfold traversal
  rw [foldl_bind_runs]
  refine congrArg (fun f => List.foldl f r (List.range 16).reverse)
    (funext fun r => funext fun x => ?_)
  unfold step_x
  rw [foldl_bind_runs]
  refine congrArg (fun f => List.foldl f r (List.range 16))
    (funext fun r => funext fun z => ?_)
  unfold step_z
  rw [List.foldl_map]
  rfl

theorem length_flatMap_const {α β : Type} (k : α → List β) (n : Nat)
    (hk : ∀ a, (k a).length = n) : ∀ l : List α, (l.flatMap k).length = l.length * n := by
  intro l
  induction l with
  | nil => simp
  | cons a l ih =>
    rw [List.flatMap_cons, List.length_append, ih, hk, List.length_cons, Nat.succ_mul,
      Nat.add_comm]

theorem traversal_length : traversal.length = 4096 := by
  unfold traversal
  rw [length_flatMap_const _ 256, List.length_reverse, List.length_range]
  intro x
  rw [length_flatMap_const _ 16, List.length_range]
  intro z
  rw [List.length_map, List.length_range]

theorem spec_before_irrefl (v : Int × Int × Int) : ¬ spec_before v v := by
  unfold spec_before
  omega

theorem spec_before_asymm (v w : Int × Int × Int) (h : spec_before v w) :
    ¬ spec_before w v := by
  unfold spec_before at *
  omega

theorem traversal_pairwise : traversal.Pairwise spec_before := by
  unfold traversal
  rw [List.pairwise_flatMap]
  constructor
  · intro x _
    rw [List.pairwise_flatMap]
    constructor
    · intro z _
      rw [List.pairwise_map]
      refine (List.pairwise_lt_range 16).imp ?_
      intro a b hab
      unfold spec_before
      simp only [true_and, Nat.cast_lt]
      exact Or.inr (Or.inr hab)
    · refine (List.pairwise_lt_range 16).imp ?_
      intro a b hab v hv w hw
      rw [List.mem_map] at hv hw
      obtain ⟨_, _, rfl⟩ := hv
      obtain ⟨_, _, rfl⟩ := hw
      unfold spec_before
      simp only [true_and, Nat.cast_lt]
      exact Or.inr (Or.inl hab)
  · rw [List.pairwise_reverse]
    refine (List.pairwise_lt_range 16).imp ?_
    intro a b hab v hv w hw
    rw [List.mem_flatMap] at hv hw
    obtain ⟨_, _, hv⟩ := hv
    obtain ⟨_, _, hw⟩ := hw
    rw [List.mem_map] at hv hw
    obtain ⟨_, _, rfl⟩ := hv
    obtain ⟨_, _, rfl⟩ := hw
    unfold spec_before
    simp only [gt_iff_lt, Nat.cast_lt]
    exact Or.inl hab

theorem traversal_nodup : traversal.Nodup := by
  unfold List.Nodup
  refine traversal_pairwise.imp ?_
  intro v w h hvw
  rw [hvw] at h
  exact spec_before_irrefl w h

theorem mem_traversal (x y z : Nat) (hx : x < 16) (hy : y < 16) (hz : z < 16) :
    ((x : Int), (y : Int), (z : Int)) ∈ traversal := by
  unfold traversal
  rw [List.mem_flatMap]
  refine ⟨x, List.mem_reverse.mpr (List.mem_range.mpr hx), ?_⟩
  rw [List.mem_flatMap]
  refine ⟨z, List.mem_range.mpr hz, ?_⟩
  rw [List.mem_map]
  exact ⟨y, List.mem_range.mpr hy, rfl⟩

/-- In a list that is pairwise ordered by `spec_before`, one entry stands before another
exactly when `spec_before` holds between them. -/
theorem pairwise_before_iff (l : List (Int × Int × Int)) (hl : l.Pairwise spec_before)
    (i j : Nat) (hi : i < l.length) (hj : j < l.length) :
    i < j ↔ spec_before (l.get ⟨i, hi⟩) (l.get ⟨j, hj⟩) := by
  have hp := List.pairwise_iff_get.mp hl
  constructor
  · intro hij
    exact hp ⟨i, hi⟩ ⟨j, hj⟩ hij
  · intro hb
    by_contra hij
    rcases Nat.lt_or_ge j i with hji | hji
    · exact spec_before_asymm _ _ hb (hp ⟨j, hj⟩ ⟨i, hi⟩ hji)
    · have hij : i = j := by omega
      subst hij
      exact spec_before_irrefl _ hb

theorem drawn_voxels_append (a b : List Event) :
    drawn_voxels (a ++ b) = drawn_voxels a ++ drawn_voxels b := by
  unfold drawn_voxels
  exact List.filterMap_append _ _ _

theorem drawn_voxels_lookup (g : Globals) (bm : List (Option PyObject)) (b d : Nat) :
    drawn_voxels (lookup_texture g bm b d).2 = [] := by
  unfold lookup_texture
  simp only []
  split_ifs <;> rfl

/-- The draw step passes the voxel of the cursor to the render mode. -/
theorem draw_texture_voxel (env : Env) (r : Run) (t : PyObject) :
    ∃ cur : Cursor, cur.x = r.state.x ∧ cur.y = r.state.y ∧ cur.z = r.state.z
      ∧ (draw_texture env r t).trace
          = r.trace ++ [Event.render_mode_draw cur (PyTuple_GetItem t 0) (PyTuple_GetItem t 0)
                          (PyTuple_GetItem t 1)] := by
  have hmask : (if PyTuple_GetItem t 0 = some PyItem.None then PyTuple_GetItem t 0
      else PyTuple_GetItem t 0) = PyTuple_GetItem t 0 := by
    split_ifs <;> rfl
  unfold draw_texture
  simp only [hmask]
  split_ifs
  · exact ⟨_, rfl, rfl, rfl, rfl⟩
  · exact ⟨_, rfl, rfl, rfl, rfl⟩

theorem queried_voxel (env : Env) (g : Globals) (c : LoopCtx) (r : Run) :
    (queried env g c r).state.x = r.state.x ∧ (queried env g c r).state.y = r.state.y
    ∧ (queried env g c r).state.z = r.state.z := by
  have h := resolve_data_state env { r.state with block := voxel_block c r }
  unfold queried
  simp only []
  rw [h]
  exact ⟨rfl, rfl, rfl⟩

/-- The loop body draws the voxel of the cursor, once or not at all, and no other. -/
theorem render_voxel_drawn (env : Env) (g : Globals) (c : LoopCtx) (r : Run) :
    ∃ new : List Event, (render_voxel env g c r).trace = r.trace ++ new
      ∧ (drawn_voxels new).Sublist [(r.state.x, r.state.y, r.state.z)] := by
  by_cases hp : passes_checks env g c r
  · have hq : drawn_voxels ([Event.render_mode_hidden (query_cursor c r),
        Event.render_mode_occluded (query_cursor c r)]
          ++ (lookup_texture g c.blockmap (voxel_block c r) (voxel_data env c r)).2) = [] := by
      rw [drawn_voxels_append, drawn_voxels_lookup]
      rfl
    rcases render_voxel_passed env g c r hp with h | ⟨t, _, _, h⟩
    · refine ⟨_, by rw [h, queried_trace], ?_⟩
      rw [hq]
      exact List.nil_sublist _
    · obtain ⟨cur, hx, hy, hz, htr⟩ := draw_texture_voxel env (queried env g c r) t
      obtain ⟨qx, qy, qz⟩ := queried_voxel env g c r
      refine ⟨_, by rw [h, htr, queried_trace, List.append_assoc], ?_⟩
      rw [drawn_voxels_append, hq, List.nil_append]
      have hd : drawn_voxels [Event.render_mode_draw cur (PyTuple_GetItem t 0)
          (PyTuple_GetItem t 0) (PyTuple_GetItem t 1)] = [(cur.x, cur.y, cur.z)] := rfl
      rw [hd, hx, hy, hz, qx, qy, qz]
  · rcases render_voxel_rejected env g c r hp with ⟨_, h, _⟩ | ⟨_, _, h, _⟩
        | ⟨_, _, _, _, h, _⟩
    · exact ⟨[], by rw [h, List.append_nil], List.nil_sublist _⟩
    · exact ⟨_, h, List.nil_sublist _⟩
    · exact ⟨_, h, List.nil_sublist _⟩

theorem foldl_drawn (f : Run → Int × Int × Int → Run)
    (hf : ∀ (r : Run) (v : Int × Int × Int), ∃ new : List Event,
      (f r v).trace = r.trace ++ new ∧ (drawn_voxels new).Sublist [v]) :
    ∀ (l : List (Int × Int × Int)) (r : Run), ∃ new : List Event,
      (l.foldl f r).trace = r.trace ++ new ∧ (drawn_voxels new).Sublist l := by
  intro l
  induction l with
  | nil =>
    intro r
    exact ⟨[], (List.append_nil _).symm, List.nil_sublist _⟩
  | cons v l ih =>
    intro r
    obtain ⟨n1, h1, s1⟩ := hf r v
    obtain ⟨n2, h2, s2⟩ := ih (f r v)
    refine ⟨n1 ++ n2, ?_, ?_⟩
    · rw [List.foldl_cons, h2, h1, List.append_assoc]
    · rw [drawn_voxels_append]
      exact List.Sublist.append s1 s2

/-- The voxels drawn by the pixel loop are a subsequence of `traversal`. -/
theorem pixel_loop_drawn (env : Env) (g : Globals) (c : LoopCtx) (xoff yoff : Int) (r : Run) :
    ∃ new : List Event, (pixel_loop env g c xoff yoff r).trace = r.trace ++ new
      ∧ (drawn_voxels new).Sublist traversal := by
  rw [pixel_loop_traversal]
  apply foldl_drawn
  intro r v
  unfold visit
  exact render_voxel_drawn env g c _

theorem drawn_voxels_get_chunk (ln : List Event)
    (h : ∀ e ∈ ln, ∃ a b : Int, e = Event.get_chunk a b) : drawn_voxels ln = [] := by
  unfold drawn_voxels
  rw [List.filterMap_eq_nil_iff]
  intro e he
  obtain ⟨a, b, hab⟩ := h e he
  rw [hab]

/-- C13. On the path that reaches the pixel loop, `chunk_render` runs the loop body on the
voxels of `traversal` in that order, and `traversal` has 4096 entries, no entry twice, and
every voxel with `0 <= x, y, z < 16` among them, ordered as the specification says: one voxel is visited
before another exactly when its `x` is larger, or `x` is equal and `z` smaller, or `x`, `z`
equal and `y` smaller. The voxels of the draw calls that the call makes are a subsequence of
`traversal`, so no voxel is drawn twice and the draw calls come in the same order. -/
theorem chunk_render_traversal (env : Env) (g : Globals) (args : RenderArgs) (r : Run)
    (blockmap : List (Option PyObject)) (blocks_py : NDArray)
    (hc : args.render_mode_created = true) (hb : args.blockmap = BlockmapAttr.list blockmap)
    (hl : (load_chunk env (before_load args r) 0 0 true).2 = false)
    (hs : (section_at ((load_chunk env (before_load args r) 0 0 true).1.state.chunks 1 1)
            (load_chunk env (before_load args r) 0 0 true).1.state.chunky).blocks
          = some blocks_py) :
    chunk_render env g args r
      = (PyResult.None,
          unload_all_chunks
            ((traversal.foldl
                (visit env g (loop_ctx args blockmap blocks_py) args.xoff args.yoff)
                (loop_entry (load_chunk env (before_load args r) 0 0 true).1 blocks_py)).log
              Event.render_mode_destroy))
    ∧ traversal.length = 4096
    ∧ traversal.Nodup
    ∧ (∀ x y z : Nat, x < 16 → y < 16 → z < 16 →
        ((x : Int), (y : Int), (z : Int)) ∈ traversal)
    ∧ (∀ (i j : Nat) (hi : i < traversal.length) (hj : j < traversal.length),
        i < j ↔ spec_before (traversal.get ⟨i, hi⟩) (traversal.get ⟨j, hj⟩))
    ∧ ∃ new : List Event, (chunk_render env g args r).2.trace = r.trace ++ new
        ∧ (drawn_voxels new).Sublist traversal
        ∧ (drawn_voxels new).Nodup
        ∧ ∀ (i j : Nat) (hi : i < (drawn_voxels new).length)
            (hj : j < (drawn_voxels new).length),
            i < j ↔ spec_before ((drawn_voxels new).get ⟨i, hi⟩)
                      ((drawn_voxels new).get ⟨j, hj⟩) := by
  have h := chunk_render_rendered env g args r blockmap blocks_py hc hb hl hs
  refine ⟨?_, traversal_length, traversal_nodup, mem_traversal,
    pairwise_before_iff traversal traversal_pairwise, ?_⟩
  · rw [h, pixel_loop_traversal]
  · obtain ⟨ln, hln, hget⟩ := load_chunk_new env (before_load args r) 0 0 true
    rw [before_load_trace] at hln
    obtain ⟨loop, hloop, hsub⟩ := pixel_loop_drawn env g (loop_ctx args blockmap blocks_py)
      args.xoff args.yoff
      (loop_entry (load_chunk env (before_load args r) 0 0 true).1 blocks_py)
    have he : (loop_entry (load_chunk env (before_load args r) 0 0 true).1
        blocks_py).trace = (load_chunk env (before_load args r) 0 0 true).1.trace := rfl
    have hd : drawn_voxels ([Event.render_mode_create] ++ ln ++ loop
        ++ [Event.render_mode_destroy, Event.unload_all_chunks]) = drawn_voxels loop := by
      rw [drawn_voxels_append, drawn_voxels_append, drawn_voxels_append,
        drawn_voxels_get_chunk ln hget]
      simp [drawn_voxels]
    refine ⟨[Event.render_mode_create] ++ ln ++ loop
      ++ [Event.render_mode_destroy, Event.unload_all_chunks], ?_, ?_⟩
    · rw [h, unload_log_trace, hloop, he, hln]
      simp only [List.append_assoc]
    · rw [hd]
      exact ⟨hsub, hsub.nodup traversal_nodup,
        pairwise_before_iff _ (traversal_pairwise.sublist hsub)⟩

/-- C13 in the small world: the call that renders the stone voxel at `(0, 0, 0)` is the loop
body folded over `traversal`, and what it draws is a subsequence of `traversal`. -/
theorem chunk_render_traversal_witness :
    (sample_args (BlockmapAttr.list (atlas_with 16 sample_texture))).render_mode_created = true
    ∧ (load_chunk (sample_env (origin_chunk 1 0))
        (before_load (sample_args (BlockmapAttr.list (atlas_with 16 sample_texture)))
          sample_run) 0 0 true).2 = false
    ∧ ∃ new : List Event,
        (chunk_render (sample_env (origin_chunk 1 0)) sample_globals
          (sample_args (BlockmapAttr.list (atlas_with 16 sample_texture))) sample_run).2.trace
          = sample_run.trace ++ new
        ∧ (drawn_voxels new).Sublist traversal :=
  ⟨rfl, rfl,
    (chunk_render_traversal (sample_env (origin_chunk 1 0)) sample_globals
      (sample_args (BlockmapAttr.list (atlas_with 16 sample_texture))) sample_run
      (atlas_with 16 sample_texture) (origin_only 1) rfl rfl rfl rfl).2.2.2.2.2.imp
      (fun _ h => ⟨h.1, h.2.1⟩)⟩

/-! ## The tall-grass jitter and the render mode (lines 392-394, 462-477) -/

/-- The pixel loop does on the whole section what it does on the voxels that are not air. -/
theorem foldl_visit_filter (env : Env) (g : Globals) (c : LoopCtx) (xoff yoff : Int) :
    ∀ (l : List (Int × Int × Int)) (r s : Run), r.agree s →
      (l.foldl (visit env g c xoff yoff) r).agree
        ((l.filter (fun v =>
            decide (getArrayShort3D c.blocks_py v.1 v.2.1 v.2.2 ≠ env.block_air))).foldl
          (visit env g c xoff yoff) s) := by
  intro l
  induction l with
  | nil => intro r s h; exact h
  | cons v l ih =>
    intro r s h
    rw [List.foldl_cons]
    by_cases hv : getArrayShort3D c.blocks_py v.1 v.2.1 v.2.2 = env.block_air
    · rw [List.filter_cons_of_neg (by simpa using hv)]
      apply ih
      exact agree_trans (render_voxel_air env g c r _ _ _ _ _ hv) h
    · rw [List.filter_cons_of_pos (by simpa using hv), List.foldl_cons]
      apply ih
      have hc : visit env g c xoff yoff r v = visit env g c xoff yoff s v :=
        render_voxel_congr env g c h _ _ _ _ _
      rw [hc]
      exact agree_refl _

set_option maxRecDepth 100000 in
theorem two_corners_filter :
    traversal.filter
        (fun v => decide (getArrayShort3D (two_corners 31) v.1 v.2.1 v.2.2 ≠ 0))
      = [(15, 0, 0), (0, 0, 0)] := by
  decide

/-- The trace of `chunk_render` on a section of the small world whose only voxels that are
not air are `(15, 0, 0)` and `(0, 0, 0)`: the loop contributes the body on these two. -/
theorem two_corner_trace (env : Env) (args : RenderArgs) (r : Run)
    (blockmap : List (Option PyObject))
    (hair : env.block_air = 0)
    (hc : args.render_mode_created = true) (hb : args.blockmap = BlockmapAttr.list blockmap)
    (hl : (load_chunk env (before_load args r) 0 0 true).2 = false)
    (hs : (section_at ((load_chunk env (before_load args r) 0 0 true).1.state.chunks 1 1)
            (load_chunk env (before_load args r) 0 0 true).1.state.chunky).blocks
          = some (two_corners 31)) :
    (chunk_render env sample_globals args r).2.trace
      = ([((15 : Int), (0 : Int), (0 : Int)), (0, 0, 0)].foldl
            (visit env sample_globals (loop_ctx args blockmap (two_corners 31))
              args.xoff args.yoff)
            (loop_entry (load_chunk env (before_load args r) 0 0 true).1
              (two_corners 31))).trace
          ++ [Event.render_mode_destroy, Event.unload_all_chunks] := by
  rw [chunk_render_rendered env sample_globals args r blockmap (two_corners 31) hc hb hl hs,
    unload_log_trace, pixel_loop_traversal]
  have h := foldl_visit_filter env sample_globals (loop_ctx args blockmap (two_corners 31))
    args.xoff args.yoff traversal _ _
    (agree_refl (loop_entry (load_chunk env (before_load args r) 0 0 true).1
      (two_corners 31)))
  rw [h.1, hair]
  have hf : traversal.filter (fun v => decide (getArrayShort3D
      (loop_ctx args blockmap (two_corners 31)).blocks_py v.1 v.2.1 v.2.2 ≠ 0))
      = [(15, 0, 0), (0, 0, 0)] := two_corners_filter
  rw [hf]

set_option maxRecDepth 100000 in
theorem two_corner_draws_plain :
    draws (chunk_render (sample_env (two_corner_chunk 31 0)) sample_globals
        (sample_args (BlockmapAttr.list (atlas_with 496 sample_texture))) sample_run).2.trace
      = [Event.render_mode_draw
           { x := 15, y := 0, z := 0, imgx := 180 + 3, imgy := 180 + 2, block := 31,
             block_data := 0, block_pdata := 0 }
           (some (PyItem.Object 1)) (some (PyItem.Object 1)) (some (PyItem.Object 2)),
         Event.render_mode_draw
           { x := 0, y := 0, z := 0, imgx := 0 + 1, imgy := 270 + 0, block := 31,
             block_data := 0, block_pdata := 0 }
           (some (PyItem.Object 1)) (some (PyItem.Object 1)) (some (PyItem.Object 2))] := by
  rw [two_corner_trace (sample_env (two_corner_chunk 31 0))
    (sample_args (BlockmapAttr.list (atlas_with 496 sample_texture))) sample_run
    (atlas_with 496 sample_texture) rfl rfl rfl rfl rfl]
  decide

set_option maxRecDepth 100000 in
theorem two_corner_draws_hiding :
    draws (chunk_render (hiding_env (two_corner_chunk 31 0)) sample_globals
        (sample_args (BlockmapAttr.list (atlas_with 496 sample_texture))) sample_run).2.trace
      = [Event.render_mode_draw
           { x := 0, y := 0, z := 0, imgx := 0 + 3, imgy := 270 + 2, block := 31,
             block_data := 0, block_pdata := 0 }
           (some (PyItem.Object 1)) (some (PyItem.Object 1)) (some (PyItem.Object 2))] := by
  rw [two_corner_trace (hiding_env (two_corner_chunk 31 0))
    (sample_args (BlockmapAttr.list (atlas_with 496 sample_texture))) sample_run
    (atlas_with 496 sample_texture) rfl rfl rfl rfl rfl]
  decide

/-- C19 fails on the code. Section, image size, offset and block map are fixed: tall grass at
`(15, 0, 0)` and at `(0, 0, 0)`, generator sequence 5, 10, 15, 20. Under a render mode that
hides nothing the voxel `(0, 0, 0)`, anchor `(0, 270)`, is drawn with the jitter `(1, 0)`,
from the third and fourth random numbers; under a render mode that hides the slice `x = 15`
the same voxel is drawn with the jitter `(3, 2)`, from the first and second. -/
theorem chunk_render_jitter_modes :
    draws (chunk_render (sample_env (two_corner_chunk 31 0)) sample_globals
        (sample_args (BlockmapAttr.list (atlas_with 496 sample_texture))) sample_run).2.trace
      = [Event.render_mode_draw
           { x := 15, y := 0, z := 0, imgx := 180 + 3, imgy := 180 + 2, block := 31,
             block_data := 0, block_pdata := 0 }
           (some (PyItem.Object 1)) (some (PyItem.Object 1)) (some (PyItem.Object 2)),
         Event.render_mode_draw
           { x := 0, y := 0, z := 0, imgx := 0 + 1, imgy := 270 + 0, block := 31,
             block_data := 0, block_pdata := 0 }
           (some (PyItem.Object 1)) (some (PyItem.Object 1)) (some (PyItem.Object 2))]
    ∧ draws (chunk_render (hiding_env (two_corner_chunk 31 0)) sample_globals
        (sample_args (BlockmapAttr.list (atlas_with 496 sample_texture))) sample_run).2.trace
      = [Event.render_mode_draw
           { x := 0, y := 0, z := 0, imgx := 0 + 3, imgy := 270 + 2, block := 31,
             block_data := 0, block_pdata := 0 }
           (some (PyItem.Object 1)) (some (PyItem.Object 1)) (some (PyItem.Object 2))] :=
  ⟨two_corner_draws_plain, two_corner_draws_hiding⟩

/-! ## The property table (lines 35-104) -/

theorem set_property_bits (e b k : Nat) :
    ((e ||| 1 <<< b) % 256).testBit k
      = (decide (k < 8) && (e.testBit k || decide (b = k))) := by
  have h : (256 : Nat) = 2 ^ 8 := by norm_num
  rw [h, Nat.testBit_mod_two_pow, Nat.testBit_lor, Nat.one_shiftLeft, Nat.testBit_two_pow]

/-- One conditional statement of the loop body: the cell `i` gains the bit `bit p` when the
test `c` is not 0, and no other cell changes. -/
theorem set_property_cell (bit : BlockProperty → Nat) (table : List Nat) (i : Nat)
    (p : BlockProperty) (c : Int) (G : Nat → Prop) (hi : i < table.length)
    (hG : ∀ k, (table.getD i 0).testBit k = true ↔ k < 8 ∧ G k) :
    (if c ≠ 0 then set_property bit table i p else table).length = table.length
    ∧ (∀ j, j ≠ i →
        (if c ≠ 0 then set_property bit table i p else table).getD j 0 = table.getD j 0)
    ∧ ∀ k, ((if c ≠ 0 then set_property bit table i p else table).getD i 0).testBit k = true
        ↔ k < 8 ∧ (G k ∨ (c ≠ 0 ∧ bit p = k)) := by
  by_cases hc : c ≠ 0
  · rw [if_pos hc]
    unfold set_property
    refine ⟨List.length_set _ _ _, ?_, ?_⟩
    · intro j hj
      rw [List.getD_eq_getElem?_getD, List.getElem?_set_ne (Ne.symm hj),
        ← List.getD_eq_getElem?_getD]
    · intro k
      rw [List.getD_eq_getElem?_getD, List.getElem?_set_self hi, Option.getD_some,
        set_property_bits, Bool.and_eq_true, Bool.or_eq_true, decide_eq_true_eq,
        decide_eq_true_eq, hG k]
      tauto
  · rw [if_neg hc]
    refine ⟨rfl, fun _ _ => rfl, ?_⟩
    intro k
    rw [hG k]
    tauto

/-- A run of conditional statements on the cell `i`: the cell gains the bits of the
properties whose test is not 0, and no other cell changes. -/
theorem foldl_set_property (bit : BlockProperty → Nat) (i : Nat) :
    ∀ (l : List (Int × BlockProperty)) (table : List Nat) (G : Nat → Prop),
      i < table.length →
      (∀ k, (table.getD i 0).testBit k = true ↔ k < 8 ∧ G k) →
      (l.foldl (fun (t : List Nat) (cp : Int × BlockProperty) =>
          if cp.1 ≠ 0 then set_property bit t i cp.2 else t) table).length = table.length
      ∧ (∀ j, j ≠ i →
          (l.foldl (fun (t : List Nat) (cp : Int × BlockProperty) =>
            if cp.1 ≠ 0 then set_property bit t i cp.2 else t) table).getD j 0
            = table.getD j 0)
      ∧ ∀ k,
          ((l.foldl (fun (t : List Nat) (cp : Int × BlockProperty) =>
            if cp.1 ≠ 0 then set_property bit t i cp.2 else t) table).getD i 0).testBit k
            = true
          ↔ k < 8 ∧ (G k ∨ ∃ cp ∈ l, cp.1 ≠ 0 ∧ bit cp.2 = k) := by
  intro l
  induction l with
  | nil =>
    intro table G _ hG
    refine ⟨rfl, fun _ _ => rfl, ?_⟩
    intro k
    rw [List.foldl_nil, hG k]
    simp
  | cons cp l ih =>
    intro table G hi hG
    have s1 := set_property_cell bit table i cp.2 cp.1 G hi hG
    have s2 := ih (if cp.1 ≠ 0 then set_property bit table i cp.2 else table)
      (fun k => G k ∨ (cp.1 ≠ 0 ∧ bit cp.2 = k)) (by rw [s1.1]; exact hi) s1.2.2
    rw [List.foldl_cons]
    refine ⟨s2.1.trans s1.1, ?_, ?_⟩
    · intro j hj
      exact (s2.2.1 j hj).trans (s1.2.1 j hj)
    · intro k
      rw [s2.2.2 k, List.exists_mem_cons_iff]
      tauto

theorem classify_block_fold (bit : BlockProperty → Nat)
    (known transparent solid fluid nospawn nodata : IdSet) (table : List Nat) (i : Nat) :
    classify_block bit known transparent solid fluid nospawn nodata table i
      = [(known i, BlockProperty.KNOWN), (transparent i, BlockProperty.TRANSPARENT),
          (solid i, BlockProperty.SOLID), (fluid i, BlockProperty.FLUID),
          (nospawn i, BlockProperty.NOSPAWN), (nodata i, BlockProperty.NODATA)].foldl
          (fun (t : List Nat) (cp : Int × BlockProperty) =>
            if cp.1 ≠ 0 then set_property bit t i cp.2 else t) table :=
  rfl

/-- The loop body for the id `i`, on a cell that is still 0: the cell gets the bits of the
properties whose set holds `i`, below bit 8; no other cell changes. -/
theorem classify_block_cell (bit : BlockProperty → Nat)
    (known transparent solid fluid nospawn nodata : IdSet) (table : List Nat) (i : Nat)
    (hi : i < table.length) (h0 : table.getD i 0 = 0) :
    (classify_block bit known transparent solid fluid nospawn nodata table i).length
      = table.length
    ∧ (∀ j, j ≠ i →
        (classify_block bit known transparent solid fluid nospawn nodata table i).getD j 0
          = table.getD j 0)
    ∧ ∀ k,
        ((classify_block bit known transparent solid fluid nospawn nodata table i).getD i
            0).testBit k = true
        ↔ k < 8 ∧ ((known i ≠ 0 ∧ bit BlockProperty.KNOWN = k)
            ∨ (transparent i ≠ 0 ∧ bit BlockProperty.TRANSPARENT = k)
            ∨ (solid i ≠ 0 ∧ bit BlockProperty.SOLID = k)
            ∨ (fluid i ≠ 0 ∧ bit BlockProperty.FLUID = k)
            ∨ (nospawn i ≠ 0 ∧ bit BlockProperty.NOSPAWN = k)
            ∨ (nodata i ≠ 0 ∧ bit BlockProperty.NODATA = k)) := by
  have hG0 : ∀ k, (table.getD i 0).testBit k = true ↔ k < 8 ∧ False := by
    intro k
    rw [h0, Nat.zero_testBit]
    simp
  rw [classify_block_fold]
  obtain ⟨h1, h2, h3⟩ := foldl_set_property bit i
    [(known i, BlockProperty.KNOWN), (transparent i, BlockProperty.TRANSPARENT),
      (solid i, BlockProperty.SOLID), (fluid i, BlockProperty.FLUID),
      (nospawn i, BlockProperty.NOSPAWN), (nodata i, BlockProperty.NODATA)]
    table (fun _ => False) hi hG0
  refine ⟨h1, h2, ?_⟩
  intro k
  rw [h3 k]
  simp only [List.mem_cons, List.mem_singleton, List.not_mem_nil, or_false, false_or,
    exists_eq_or_imp, exists_eq_left]

/-- The table after the loop has passed the ids below `m`: the cells below `m` hold the
bits of the properties whose set holds the id, the cells from `m` on are still 0. -/
theorem build_table_prefix (bit : BlockProperty → Nat)
    (known transparent solid fluid nospawn nodata : IdSet) (n : Nat) :
    ∀ m, m ≤ n →
      ((List.range m).foldl (classify_block bit known transparent solid fluid nospawn nodata)
        (List.replicate n 0)).length = n
      ∧ (∀ j, m ≤ j →
          ((List.range m).foldl
            (classify_block bit known transparent solid fluid nospawn nodata)
            (List.replicate n 0)).getD j 0 = 0)
      ∧ ∀ j, j < m → ∀ k,
          (((List.range m).foldl
            (classify_block bit known transparent solid fluid nospawn nodata)
            (List.replicate n 0)).getD j 0).testBit k = true
          ↔ k < 8 ∧ ((known j ≠ 0 ∧ bit BlockProperty.KNOWN = k)
              ∨ (transparent j ≠ 0 ∧ bit BlockProperty.TRANSPARENT = k)
              ∨ (solid j ≠ 0 ∧ bit BlockProperty.SOLID = k)
              ∨ (fluid j ≠ 0 ∧ bit BlockProperty.FLUID = k)
              ∨ (nospawn j ≠ 0 ∧ bit BlockProperty.NOSPAWN = k)
              ∨ (nodata j ≠ 0 ∧ bit BlockProperty.NODATA = k)) := by
  intro m
  induction m with
  | zero =>
    intro _
    refine ⟨List.length_replicate _ _, ?_, ?_⟩
    · intro j _
      rw [List.range_zero, List.foldl_nil, List.getD_eq_getElem?_getD,
        List.getElem?_replicate]
      split <;> rfl
    · intro j hj
      exact absurd hj (Nat.not_lt_zero j)
  | succ m ih =>
    intro hm
    obtain ⟨hlen, hzero, hbits⟩ := ih (by omega)
    have hcell := classify_block_cell bit known transparent solid fluid nospawn nodata
      ((List.range m).foldl (classify_block bit known transparent solid fluid nospawn nodata)
        (List.replicate n 0)) m (by rw [hlen]; omega) (hzero m (Nat.le_refl m))
    rw [List.range_succ, List.foldl_append, List.foldl_cons, List.foldl_nil]
    refine ⟨hcell.1.trans hlen, ?_, ?_⟩
    · intro j hj
      rw [hcell.2.1 j (by omega)]
      exact hzero j (by omega)
    · intro j hj k
      by_cases hjm : j = m
      · rw [hjm]
        exact hcell.2.2 k
      · rw [hcell.2.1 j hjm]
        exact hbits j (by omega) k

/-- A call of `init_chunk_render` that starts with `textures == NULL` and returns `None` has
found every attribute, and has built the table from them. -/
theorem init_chunk_render_builds (bit : BlockProperty → Nat) (cat : Catalog) (s : Statics)
    (hs : s.textures = none)
    (hok : (init_chunk_render bit (some cat) s).1 = PyResult.None) :
    ∃ (mb md : Int) (known transparent solid fluid nospawn nodata : IdSet),
      cat.max_blockid = some mb ∧ cat.max_data = some md
      ∧ cat.known_blocks = some known ∧ cat.transparent_blocks = some transparent
      ∧ cat.solid_blocks = some solid ∧ cat.fluid_blocks = some fluid
      ∧ cat.nospawn_blocks = some nospawn ∧ cat.nodata_blocks = some nodata
      ∧ (init_chunk_render bit (some cat) s).2
        = { textures := some cat, max_blockid := to_u32 mb, max_data := to_u32 md,
            block_properties := some
              (build_table bit known transparent solid fluid nospawn nodata (to_u32 mb)),
            known_blocks := some known, transparent_blocks := some transparent,
            solid_blocks := some solid, fluid_blocks := some fluid,
            nospawn_blocks := some nospawn, nodata_blocks := some nodata,
            accesses := s.accesses
              ++ [Access.import_module, Access.getattr Attr.max_blockid,
                  Access.getattr Attr.max_data, Access.getattr Attr.known_blocks,
                  Access.getattr Attr.transparent_blocks, Access.getattr Attr.solid_blocks,
                  Access.getattr Attr.fluid_blocks, Access.getattr Attr.nospawn_blocks,
                  Access.getattr Attr.nodata_blocks]
              ++ table_accesses (to_u32 mb),
            err := s.err } := by
  obtain ⟨tx, a, b, c, d1, d2, d3, d4, d5, d6, acc, e⟩ := s
  simp only at hs
  subst hs
  obtain ⟨mb, md, ks, ts, ss, fs, ns, ds⟩ := cat
  cases mb with
  | none => exact PyResult.noConfusion hok
  | some mb =>
    cases md with
    | none => exact PyResult.noConfusion hok
    | some md =>
      cases ks with
      | none => exact PyResult.noConfusion hok
      | some ks =>
        cases ts with
        | none => exact PyResult.noConfusion hok
        | some ts =>
          cases ss with
          | none => exact PyResult.noConfusion hok
          | some ss =>
            cases fs with
            | none => exact PyResult.noConfusion hok
            | some fs =>
              cases ns with
              | none => exact PyResult.noConfusion hok
              | some ns =>
                cases ds with
                | none => exact PyResult.noConfusion hok
                | some ds =>
                  refine ⟨mb, md, ks, ts, ss, fs, ns, ds,
                    rfl, rfl, rfl, rfl, rfl, rfl, rfl, rfl, ?_⟩
                  simp only [init_chunk_render, Statics.log, List.append_assoc,
                    List.singleton_append, List.cons_append, List.nil_append]

/-- C15. Let the enumerators of the six properties be distinct positions below 8, and let
each of the six sets answer the membership test with 1 or 0. After a call of
`init_chunk_render` that starts with `textures == NULL` and returns `None`,
`block_properties` has `max_blockid` entries, `max_blockid` is the value of the catalog as an
unsigned 32-bit number, and for every id below `max_blockid` the bit of a property is set in
the entry of the id exactly when the set of that property holds the id; no other bit of the
entry is set. -/
theorem init_chunk_render_table (bit : BlockProperty → Nat) (cat : Catalog) (s : Statics)
    (hs : s.textures = none)
    (hok : (init_chunk_render bit (some cat) s).1 = PyResult.None)
    (hinj : Function.Injective bit) (hlt : ∀ p, bit p < 8)
    (hsets : ∀ p i, cat.contains p i = 0 ∨ cat.contains p i = 1) :
    ∃ table : List Nat,
      (init_chunk_render bit (some cat) s).2.block_properties = some table
      ∧ table.length = (init_chunk_render bit (some cat) s).2.max_blockid
      ∧ (∀ v, cat.max_blockid = some v →
          (init_chunk_render bit (some cat) s).2.max_blockid = to_u32 v)
      ∧ ∀ id, id < (init_chunk_render bit (some cat) s).2.max_blockid →
          (∀ p, (table.getD id 0).testBit (bit p) = true ↔ cat.contains p id = 1)
          ∧ (∀ k, (∀ p, k ≠ bit p) → (table.getD id 0).testBit k = false) := by
  obtain ⟨mb, md, known, transparent, solid, fluid, nospawn, nodata, h1, _, h3, h4, h5, h6,
    h7, h8, hrun⟩ := init_chunk_render_builds bit cat s hs hok
  obtain ⟨hlen, _, hbits⟩ := build_table_prefix bit known transparent solid fluid nospawn
    nodata (to_u32 mb) (to_u32 mb) (Nat.le_refl _)
  have hc : ∀ p i, cat.contains p i ≠ 0 ↔ cat.contains p i = 1 := by
    intro p i
    rcases hsets p i with h | h <;> rw [h] <;> decide
  have hk : ∀ i, cat.contains BlockProperty.KNOWN i = known i := by
    intro i; unfold Catalog.contains; simp only [h3]
  have ht : ∀ i, cat.contains BlockProperty.TRANSPARENT i = transparent i := by
    intro i; unfold Catalog.contains; simp only [h4]
  have hso : ∀ i, cat.contains BlockProperty.SOLID i = solid i := by
    intro i; unfold Catalog.contains; simp only [h5]
  have hf : ∀ i, cat.contains BlockProperty.FLUID i = fluid i := by
    intro i; unfold Catalog.contains; simp only [h6]
  have hn : ∀ i, cat.contains BlockProperty.NOSPAWN i = nospawn i := by
    intro i; unfold Catalog.contains; simp only [h7]
  have hd : ∀ i, cat.contains BlockProperty.NODATA i = nodata i := by
    intro i; unfold Catalog.contains; simp only [h8]
  rw [hrun]
  refine ⟨_, rfl, hlen, ?_, ?_⟩
  · intro v hv
    rw [h1] at hv
    cases hv
    rfl
  · intro id hid
    have hb := hbits id hid
    rw [← build_table] at hb
    simp only [← hk, ← ht, ← hso, ← hf, ← hn, ← hd] at hb
    constructor
    · intro p
      rw [hb (bit p), ← hc]
      constructor
      · rintro ⟨_, h | h | h | h | h | h⟩ <;> rw [← hinj h.2] <;> exact h.1
      · intro h
        refine ⟨hlt p, ?_⟩
        cases p
        · exact Or.inl ⟨h, rfl⟩
        · exact Or.inr (Or.inl ⟨h, rfl⟩)
        · exact Or.inr (Or.inr (Or.inl ⟨h, rfl⟩))
        · exact Or.inr (Or.inr (Or.inr (Or.inl ⟨h, rfl⟩)))
        · exact Or.inr (Or.inr (Or.inr (Or.inr (Or.inl ⟨h, rfl⟩))))
        · exact Or.inr (Or.inr (Or.inr (Or.inr (Or.inr ⟨h, rfl⟩))))
    · intro k hk2
      rw [Bool.eq_false_iff]
      intro hset
      rcases (hb k).mp hset with ⟨_, h | h | h | h | h | h⟩ <;> exact hk2 _ h.2.symm

/-- C15 in the small world: four block ids; the call builds the table `0, 5, 27, 51`, that
is no bit for id 0, `KNOWN` and `SOLID` for id 1, `KNOWN`, `TRANSPARENT`, `FLUID` and
`NOSPAWN` for id 2, and `KNOWN`, `TRANSPARENT`, `NOSPAWN` and `NODATA` for id 3. -/
theorem init_chunk_render_table_witness :
    Statics.fresh.textures = none
    ∧ (init_chunk_render sample_bit (some sample_catalog) Statics.fresh).1 = PyResult.None
    ∧ (init_chunk_render sample_bit (some sample_catalog) Statics.fresh).2.block_properties
        = some [0, 5, 27, 51]
    ∧ ∃ table : List Nat,
        (init_chunk_render sample_bit (some sample_catalog) Statics.fresh).2.block_properties
          = some table
        ∧ table.length
          = (init_chunk_render sample_bit (some sample_catalog) Statics.fresh).2.max_blockid :=
  ⟨rfl, rfl, by decide,
    (init_chunk_render_table sample_bit sample_catalog Statics.fresh rfl rfl
      (by intro a b h; cases a <;> cases b <;> first | rfl | exact absurd h (by decide))
      (by intro p; cases p <;> decide)
      (by
        intro p i
        cases p <;> simp only [Catalog.contains, sample_catalog] <;> split_ifs <;> simp)).imp
      (fun _ h => ⟨h.1, h.2.1⟩)⟩

/-- With `textures` set, `init_chunk_render` returns `None` and does nothing. -/
theorem init_chunk_render_guard (bit : BlockProperty → Nat) (module : Option Catalog)
    (s : Statics) (h : s.textures.isSome = true) :
    init_chunk_render bit module s = (PyResult.None, s) := by
  unfold init_chunk_render
  cases ht : s.textures with
  | none => rw [ht] at h; cases h
  | some c => rfl

/-- A call of `init_chunk_render` that returns `None` leaves `textures` set. -/
theorem init_chunk_render_sets (bit : BlockProperty → Nat) (module : Option Catalog)
    (s : Statics) (hok : (init_chunk_render bit module s).1 = PyResult.None) :
    (init_chunk_render bit module s).2.textures.isSome = true := by
  cases ht : s.textures with
  | some c =>
    rw [init_chunk_render_guard bit module s (by rw [ht]; rfl), ht]
    rfl
  | none =>
    cases module with
    | none =>
      unfold init_chunk_render at hok
      simp only [ht] at hok
      cases hok
    | some cat =>
      obtain ⟨_, _, _, _, _, _, _, _, _, _, _, _, _, _, _, _, hrun⟩ :=
        init_chunk_render_builds bit cat s ht hok
      rw [hrun]
      rfl

/-- C16. A call of `init_chunk_render` that follows one that returned `None` returns `None`
and leaves every file-level variable as it was, whatever the import would give: no access to
the catalog is made, and `max_blockid`, `max_data` and `block_properties` keep the values
they had after the first call. -/
theorem init_chunk_render_again (bit : BlockProperty → Nat) (first second : Option Catalog)
    (s : Statics) (hok : (init_chunk_render bit first s).1 = PyResult.None) :
    init_chunk_render bit second (init_chunk_render bit first s).2
      = (PyResult.None, (init_chunk_render bit first s).2)
    ∧ (init_chunk_render bit second (init_chunk_render bit first s).2).2.accesses
        = (init_chunk_render bit first s).2.accesses
    ∧ (init_chunk_render bit second (init_chunk_render bit first s).2).2.max_blockid
        = (init_chunk_render bit first s).2.max_blockid
    ∧ (init_chunk_render bit second (init_chunk_render bit first s).2).2.max_data
        = (init_chunk_render bit first s).2.max_data
    ∧ (init_chunk_render bit second (init_chunk_render bit first s).2).2.block_properties
        = (init_chunk_render bit first s).2.block_properties := by
  have h := init_chunk_render_guard bit second (init_chunk_render bit first s).2
    (init_chunk_render_sets bit first s hok)
  rw [h]
  exact ⟨rfl, rfl, rfl, rfl, rfl⟩

/-- C16 in the small world: the first call builds the table `0, 5, 27, 51` with 33 accesses
to the catalog; the second call, for which the import would fail, returns `None` and leaves
the table and the count of accesses as they are. -/
theorem init_chunk_render_again_witness :
    (init_chunk_render sample_bit (some sample_catalog) Statics.fresh).1 = PyResult.None
    ∧ (init_chunk_render sample_bit none
        (init_chunk_render sample_bit (some sample_catalog) Statics.fresh).2).1
        = PyResult.None
    ∧ (init_chunk_render sample_bit none
        (init_chunk_render sample_bit (some sample_catalog) Statics.fresh).2).2.accesses
        = (init_chunk_render sample_bit (some sample_catalog) Statics.fresh).2.accesses
    ∧ (init_chunk_render sample_bit (some sample_catalog) Statics.fresh).2.accesses.length
        = 33 :=
  ⟨rfl,
    congrArg Prod.fst (init_chunk_render_again sample_bit (some sample_catalog) none
      Statics.fresh rfl).1,
    (init_chunk_render_again sample_bit (some sample_catalog) none Statics.fresh rfl).2.1,
    by decide⟩

/-- C17 fails on the code. The catalog has every attribute but `max_data`. The first call
of `init_chunk_render` returns `NULL` with the error raised and `block_properties` still
null, but it has stored the module in `textures`; so the second call returns `None`, with
this catalog and with the complete one alike, and `block_properties` is still null. -/
theorem init_chunk_render_after_failure :
    (init_chunk_render sample_bit (some catalog_without_max_data) Statics.fresh).1
      = PyResult.NULL
    ∧ (init_chunk_render sample_bit (some catalog_without_max_data) Statics.fresh).2.err
      = true
    ∧ (init_chunk_render sample_bit (some catalog_without_max_data)
        (init_chunk_render sample_bit (some catalog_without_max_data) Statics.fresh).2).1
      = PyResult.None
    ∧ (init_chunk_render sample_bit (some sample_catalog)
        (init_chunk_render sample_bit (some catalog_without_max_data) Statics.fresh).2).1
      = PyResult.None
    ∧ (init_chunk_render sample_bit (some sample_catalog)
        (init_chunk_render sample_bit (some catalog_without_max_data)
          Statics.fresh).2).2.block_properties
      = none :=
  ⟨rfl, rfl, rfl, rfl, rfl⟩

end Overviewer
